import Mathlib

/-!
# AI-function "create-autotest-scene": hierarchy resolver, variable registration,
# per-API generation task and orchestrator

Shallow embedding of

* `internal/pkg/ai-functions/handler/handler_ai_function_create_autotest_scene.go`
  (`createAutoTestSceneForAPIsAndAutoTestSceneID`, `processSingleAPIAutoTestSceneStep`,
  `validateParamsForCreateAutoTestScene`),
* `internal/pkg/ai-functions/functions/autotest-scene/function.go` (`Function.Callback`),
* `internal/pkg/ai-functions/functions/autotest-scene/prompt.go` (`GenerateContextPrompt`,
  `JsonOutput`, `prettyJsonOutput`).

The code talks to external collaborators (the `bundle` client of the platform and the
language-model provider).  Every collaborator call is recorded in a trace of `Call`
events; the collaborators' answers are arbitrary functions of the request and of the
trace so far.  `uint64` values are natural numbers (no arithmetic is performed on them,
only comparison with 0 and copying).
-/

namespace Erda

/-! ## Errors (`github.com/pkg/errors`) -/

/-- Error values: `errors.New`/`errors.Errorf` build a leaf, `errors.Wrap`/`errors.Wrapf`
put a message in front of a cause. -/
inductive GoError where
  | new (msg : String)
  | wrap (cause : GoError) (msg : String)
  deriving DecidableEq, Repr

namespace GoError

/-- The text `err.Error()` returns: a wrapped error prints as `msg: cause`. -/
def Error : GoError → String
  | .new m => m
  | .wrap c m => m ++ ": " ++ c.Error

/-- The innermost error, `errors.Cause(err)`. -/
def Cause : GoError → GoError
  | .new m => .new m
  | .wrap c _ => c.Cause

end GoError

/-! ## Data model (`function.go`, `apistructs`) -/

/-- `apistructs.IdentityInfo`, the field the code sets. -/
structure IdentityInfo where
  UserID : String := ""
  deriving DecidableEq, Repr

/-- `apistructs.AutoTestSpaceArchiveStatus`; the code only uses `TestSpaceInit`. -/
inductive AutoTestSpaceArchiveStatus where
  | unset
  | TestSpaceInit
  deriving DecidableEq, Repr

/-- `apistructs.AutoTestSpaceCreateRequest`. `ProjectID` is an `int64`. -/
structure AutoTestSpaceCreateRequest where
  Name : String := ""
  ProjectID : Int := 0
  Description : String := ""
  ArchiveStatus : AutoTestSpaceArchiveStatus := .unset
  deriving DecidableEq, Repr

/-- `apistructs.AutoTestSpace`, the field the code reads. -/
structure AutoTestSpace where
  ID : Nat
  deriving DecidableEq, Repr

/-- `apistructs.SceneSetRequest`. -/
structure SceneSetRequest where
  Name : String := ""
  Description : String := ""
  SpaceID : Nat := 0
  ProjectId : Nat := 0
  SetID : Nat := 0
  Identity : IdentityInfo := {}
  deriving DecidableEq, Repr

/-- `apistructs.SceneSet`, the field the code reads. -/
structure SceneSet where
  SpaceID : Nat
  deriving DecidableEq, Repr

/-- `apistructs.AutoTestSceneParams`. -/
structure AutoTestSceneParams where
  ID : Nat := 0
  SpaceID : Nat := 0
  CreatorID : String := ""
  UpdaterID : String := ""
  deriving DecidableEq, Repr

/-- `apistructs.AutotestSceneRequest`. -/
structure AutotestSceneRequest where
  Params : AutoTestSceneParams := {}
  Name : String := ""
  Description : String := ""
  Value : String := ""
  Temp : String := ""
  SceneID : Nat := 0
  SetID : Nat := 0
  APISpecID : Nat := 0
  Identity : IdentityInfo := {}
  deriving DecidableEq, Repr

/-- `apistructs.AutoTestScene`, the fields the code reads. -/
structure AutoTestScene where
  SpaceID : Nat
  SetID : Nat
  deriving DecidableEq, Repr

/-- `apistructs.Parameter` (parameters and headers of an API operation). -/
structure Parameter where
  Name : String
  deriving DecidableEq, Repr

/-- `apistructs.Response`. -/
structure Response where
  StatusCode : String
  deriving DecidableEq, Repr

/-- `apistructs.APIOperation`, the fields the code reads. -/
structure APIOperation where
  ID : Nat
  Description : String
  Method : String
  Path : String
  Parameters : List Parameter
  Headers : List Parameter
  Responses : List Response
  deriving DecidableEq, Repr

/-- `InputAPIs`. -/
structure InputAPIs where
  AssetID : String := ""
  VersionID : Nat := 0
  APIIndexIDs : List Nat := []
  APIOperationIDs : List String := []
  deriving DecidableEq, Repr

/-- `OutPutAutoTestScene`: the (space, scene-set, scene) triple of a requirement. -/
structure OutPutAutoTestScene where
  AutoTestSpaceId : Nat := 0
  AutoTestSceneSetId : Nat := 0
  AutoTestSceneId : Nat := 0
  deriving DecidableEq, Repr

/-- `AutoTestSceneParam`: one requirement. `Req` is a pointer, `none` is `nil`. -/
structure AutoTestSceneParam where
  OperationID : Nat := 0
  Prompt : String := ""
  Req : Option AutotestSceneRequest := none
  APIs : InputAPIs := {}
  Scene : OutPutAutoTestScene := {}
  deriving DecidableEq, Repr

/-- `FunctionParams`. -/
structure FunctionParams where
  Requirements : List AutoTestSceneParam := []
  deriving DecidableEq, Repr

/-- `AutoTestSceneFunctionInput`. -/
structure AutoTestSceneFunctionInput where
  AssetID : String := ""
  VersionID : Nat := 0
  APIIndexID : Nat := 0
  APIOperationID : Nat := 0
  APIName : String := ""
  APIMethod : String := ""
  APIUrl : String := ""
  UserID : String := ""
  AutoTestSpaceName : String := ""
  AutoTestSpaceID : Nat := 0
  AutoTestSceneSetName : String := ""
  AutoTestSceneSetId : Nat := 0
  AutoTestSceneName : String := ""
  AutoTestSceneId : Nat := 0
  Prompt : String := ""
  deriving DecidableEq, Repr

/-- `AutoTestSceneMeta`. -/
structure AutoTestSceneMeta where
  Req : AutotestSceneRequest := {}
  AutoTestSpaceName : String := ""
  AutoTestSpaceID : Nat := 0
  AutoTestSceneSetName : String := ""
  AutoTestSceneSetId : Nat := 0
  AutoTestSceneName : String := ""
  AutoTestSceneId : Nat := 0
  AutoTestSceneStepId : Nat := 0
  deriving DecidableEq, Repr

/-- `openai.ChatCompletionMessage`, the fields the code sets. -/
structure ChatCompletionMessage where
  Role : String := ""
  Content : String := ""
  Name : String := ""
  deriving DecidableEq, Repr

/-- `pb.Background`, the fields the code reads. -/
structure Background where
  OrgID : Nat := 0
  ProjectID : Nat := 0
  UserID : String := ""
  deriving DecidableEq, Repr

/-! ## JSON values -/

/-- A decoded JSON value, as `encoding/json` stores it in an `interface{}`: `null` is
`nil`, an object is a `map[string]interface{}` (here the list of its entries).
Numbers are kept as integers; floating-point formatting is not modelled. -/
inductive JsonValue where
  | null
  | bool (b : Bool)
  | number (n : Int)
  | string (s : String)
  | array (items : List JsonValue)
  | object (entries : List (String × JsonValue))
  deriving Repr

/-- The five variable sets available at a scene step (§4.2), as `getStepExpressionValues`
returns them; each set is kept as the JSON value `JsonOutput` renders. -/
structure StepExpressionValues where
  SceneInputs : JsonValue
  PreSceneStepsOutputs : JsonValue
  PreConfigSheetsOutputs : JsonValue
  GlobalConfigOutputs : JsonValue
  MockInputs : JsonValue

/-! ## Collaborator calls and the trace -/

/-- One call to an external collaborator, with its arguments. -/
inductive Call where
  | CreateTestSpaceWithReturn (req : AutoTestSpaceCreateRequest) (userID : String)
  | CreateSceneSet (req : SceneSetRequest)
  | CreateAutoTestScene (req : AutotestSceneRequest)
  | GetAutoTestScene (req : AutotestSceneRequest)
  | GetSceneSet (req : SceneSetRequest)
  | GetAPIOperation (orgID : Nat) (userID : String) (apiIndexID : Nat)
  | CreateAutoTestSceneInput (req : AutotestSceneRequest)
  | CreateAutoTestSceneOutput (req : AutotestSceneRequest)
  | CreateAutoTestSceneStep (req : AutotestSceneRequest)
  | GetStepExpressionValues (sceneStepID sceneID : Nat) (userID : String)
  | ChatCompletion (messages : List ChatCompletionMessage) (input : AutoTestSceneFunctionInput)
  deriving DecidableEq, Repr

/-- How a Go function ends: a value, a returned error, or a run-time panic. -/
inductive Outcome (α : Type) where
  | ok (a : α)
  | err (e : GoError)
  | panic (msg : String)
  deriving DecidableEq, Repr

/-- A computation that issues collaborator calls: from the trace so far to the outcome
and the extended trace. -/
def Prog (α : Type) : Type := List Call → Outcome α × List Call

namespace Prog

/-- Return a value without calling anything. -/
def ret {α : Type} (a : α) : Prog α := fun tr => (.ok a, tr)

/-- Return an error (`return nil, err`). -/
def fail {α : Type} (e : GoError) : Prog α := fun tr => (.err e, tr)

/-- A run-time panic. -/
def crash {α : Type} (msg : String) : Prog α := fun tr => (.panic msg, tr)

/-- Sequencing: an error or a panic of the first part ends the computation. -/
def bind {α β : Type} (m : Prog α) (f : α → Prog β) : Prog β := fun tr =>
  match m tr with
  | (.ok a, tr') => f a tr'
  | (.err e, tr') => (.err e, tr')
  | (.panic s, tr') => (.panic s, tr')

/-- Issue the collaborator call `c`; `answer` is the collaborator's reply given the
trace before the call. The call is recorded whether it succeeds or fails. -/
def call {α : Type} (c : Call) (answer : List Call → Except GoError α) : Prog α := fun tr =>
  match answer tr with
  | .ok a => (.ok a, tr ++ [c])
  | .error e => (.err e, tr ++ [c])

/-- `if err != nil { return nil, errors.Wrap(err, msg) }` around a computation. -/
def wrapErr {α : Type} (m : Prog α) (msg : String) : Prog α := fun tr =>
  match m tr with
  | (.err e, tr') => (.err (.wrap e msg), tr')
  | r => r

end Prog

instance : Monad Prog where
  pure := Prog.ret
  bind := Prog.bind

/-- The collaborators: the platform client (`bundle`) and the language-model provider.
Each answer may depend on the request and on every call issued before it. -/
structure Bundle where
  CreateTestSpaceWithReturn :
    AutoTestSpaceCreateRequest → String → List Call → Except GoError AutoTestSpace
  CreateSceneSet : SceneSetRequest → List Call → Except GoError Nat
  CreateAutoTestScene : AutotestSceneRequest → List Call → Except GoError Nat
  GetAutoTestScene : AutotestSceneRequest → List Call → Except GoError AutoTestScene
  GetSceneSet : SceneSetRequest → List Call → Except GoError SceneSet
  GetAPIOperation : Nat → String → Nat → List Call → Except GoError APIOperation
  CreateAutoTestSceneInput : AutotestSceneRequest → List Call → Except GoError Nat
  CreateAutoTestSceneOutput : AutotestSceneRequest → List Call → Except GoError Nat
  CreateAutoTestSceneStep : AutotestSceneRequest → List Call → Except GoError Nat
  GetStepExpressionValues : Nat → Nat → String → List Call → StepExpressionValues
  ChatCompletion :
    List ChatCompletionMessage → AutoTestSceneFunctionInput → List Call → Except GoError String

/-! ## Constants of the handler -/

def AIGeneratedAutoTestSpaceNamePrefix : String := "AI_Generated_Space_"
def AIGeneratedAutoTestSceneSetNamePrefix : String := "AI_Generated_SceneSet_"
def AIGeneratedAutoTestSceneNamePrefix : String := "AI_Generated_Scene_"

/-- The constant `Name` of the function package. -/
def Name : String := "create-autotest-scene"

/-- The conversion `int64(x)` of a `uint64`. -/
def toInt64 (x : Nat) : Int :=
  if x % 2 ^ 64 < 2 ^ 63 then ((x % 2 ^ 64 : Nat) : Int) else ((x % 2 ^ 64 : Nat) : Int) - 2 ^ 64

/-! ## The `encoding/json` library -/

/-- `apistructs.APIBody`; `BodyType` is its field `Type`. -/
structure APIBody where
  BodyType : String := ""
  Content : JsonValue := .null
  deriving Repr

/-- `apistructs.APIInfoV2`: the fields `Callback` touches; `Rest` stands for the other
fields of the decoded payload, which `Callback` leaves as decoded. -/
structure APIInfoV2 where
  Name : String := ""
  URL : String := ""
  Method : String := ""
  Body : APIBody := {}
  Rest : JsonValue := .null
  deriving Repr

/-- `step.APISpec`. `Loop` is a pointer, `none` is `nil`. -/
structure APISpec where
  APIInfo : APIInfoV2 := {}
  Loop : Option JsonValue := none
  deriving Repr

/-- `apistructs.APIBodyTypeApplicationJSON`. -/
def APIBodyTypeApplicationJSON : String := "application/json"

/-- The functions of `encoding/json` the code calls. They are library code, taken as
parameters. `Unmarshal` is decoding into an `interface{}` (`none` for text that is not
JSON), `MarshalIndent` is `json.MarshalIndent(v, "", "  ")`. -/
structure JsonLib where
  Unmarshal : String → Option JsonValue
  Marshal : JsonValue → String
  MarshalIndent : JsonValue → String
  UnmarshalAPIInfoV2 : String → Except GoError APIInfoV2
  MarshalAPISpec : APISpec → String
  MarshalAPIOperation : APIOperation → String

/-- A `map[string]interface{}`: `none` is the nil map, `some entries` a map holding
`entries` (one entry per key). -/
abbrev GoMap : Type := Option (List (String × JsonValue))

/-- `m[k] = v` on the entries of a map. -/
def mapInsert (m : List (String × JsonValue)) (k : String) (v : JsonValue) :
    List (String × JsonValue) :=
  if m.any (fun p => p.1 == k) then m.map (fun p => if p.1 == k then (k, v) else p)
  else m ++ [(k, v)]

/-- The JSON value `json.Marshal` renders for a map: `null` for the nil map. -/
def GoMap.toJson : GoMap → JsonValue
  | none => .null
  | some entries => .object entries

/-- `json.Unmarshal([]byte(s), &m)` with the returned error dropped: text that is not
JSON, or JSON that is neither an object nor `null`, leaves `m` as it was; `null` sets `m`
to nil; an object stores its entries into `m` (allocating it when nil). -/
def unmarshalIntoMap (lib : JsonLib) (s : String) (m : GoMap) : GoMap :=
  match lib.Unmarshal s with
  | none => m
  | some .null => none
  | some (.object entries) => some (entries.foldl (fun acc p => mapInsert acc p.1 p.2) (m.getD []))
  | some _ => m

/-- `prettyJsonOutput` of `prompt.go`. -/
def prettyJsonOutput (lib : JsonLib) (s : String) : String :=
  let m : GoMap := some []
  let m := unmarshalIntoMap lib s m
  lib.MarshalIndent m.toJson

/-- `JsonOutput` of `prompt.go` at a value held as JSON. -/
def JsonOutput (lib : JsonLib) (v : JsonValue) : String := lib.Marshal v

/-- `JsonOutput` of `prompt.go` at a `step.APISpec`. -/
def JsonOutputAPISpec (lib : JsonLib) (v : APISpec) : String := lib.MarshalAPISpec v

/-- `JsonOutput` of `prompt.go` at an `*apistructs.APIOperation`. -/
def JsonOutputAPIOperation (lib : JsonLib) (v : APIOperation) : String :=
  lib.MarshalAPIOperation v

/-! ## `Function.Callback` (`function.go`) -/

/-- The `input interface{}` argument of `Callback`: an `AutoTestSceneFunctionInput`, or a
value of another type (with its `%v` and `%T` renderings). -/
inductive CallbackInput where
  | autoTestScene (i : AutoTestSceneFunctionInput)
  | other (shown typeName : String)
  deriving DecidableEq, Repr

/-- The `apistructs.AutotestSceneRequest` that `Callback` builds from the input and the
API step. -/
def callbackRequest (lib : JsonLib) (i : AutoTestSceneFunctionInput) (apiStep : APISpec) :
    AutotestSceneRequest :=
  { Params := { SpaceID := i.AutoTestSpaceID }
    SceneID := i.AutoTestSceneId
    Value := JsonOutputAPISpec lib apiStep
    Identity := { UserID := i.UserID }
    APISpecID := i.APIOperationID
    Name := apiStep.APIInfo.Name }

/-- The `AutoTestSceneMeta` literal of `Callback`. -/
def callbackMeta (i : AutoTestSceneFunctionInput) (req : AutotestSceneRequest) (stepId : Nat) :
    AutoTestSceneMeta :=
  { Req := req
    AutoTestSpaceName := i.AutoTestSpaceName
    AutoTestSpaceID := i.AutoTestSpaceID
    AutoTestSceneSetName := i.AutoTestSceneSetName
    AutoTestSceneSetId := i.AutoTestSceneSetId
    AutoTestSceneName := i.AutoTestSceneName
    AutoTestSceneId := i.AutoTestSceneId
    AutoTestSceneStepId := stepId }

/-- The statement `apiInfo.Body.Content = prettyJsonOutput(apiInfo.Body.Content.(string))`
under its `if`: the type assertion panics when the content is not a string. -/
def prettifyBody (lib : JsonLib) (apiInfo : APIInfoV2) : Prog APIInfoV2 :=
  if apiInfo.Body.BodyType = APIBodyTypeApplicationJSON then
    match apiInfo.Body.Content with
    | .string s =>
      pure { apiInfo with Body := { apiInfo.Body with Content := .string (prettyJsonOutput lib s) } }
    | _ => Prog.crash "interface conversion: interface \x7b\x7d is not string"
  else
    pure apiInfo

/-- `Function.Callback`. -/
def Callback (lib : JsonLib) (bdl : Bundle) (arguments : String) (input : CallbackInput)
    (needAdjust : Bool) : Prog AutoTestSceneMeta :=
  match input with
  | .other shown typeName =>
    Prog.fail (.wrap (.new ("input " ++ shown ++ " with type " ++ typeName
      ++ " is not valid for AI Function " ++ Name)) "bad request: invalid input")
  | .autoTestScene autotestSceneInput =>
    match lib.UnmarshalAPIInfoV2 arguments with
    | .error e => Prog.fail (.wrap e "Unmarshal arguments to APIInfoV2 failed")
    | .ok apiInfo => do
      let apiInfo := { apiInfo with
        Name := autotestSceneInput.APIName
        Method := autotestSceneInput.APIMethod
        URL := autotestSceneInput.APIUrl }
      let apiInfo ← prettifyBody lib apiInfo
      let apiStep : APISpec := { APIInfo := apiInfo, Loop := none }
      let req := callbackRequest lib autotestSceneInput apiStep
      if needAdjust then
        pure (callbackMeta autotestSceneInput req 0)
      else do
        let aiCreateTestCaseResponse ←
          (Prog.call (.CreateAutoTestSceneStep req) (bdl.CreateAutoTestSceneStep req)).wrapErr
            "bundle CreateTestCase failed"
        pure (callbackMeta autotestSceneInput req aiCreateTestCaseResponse)

/-! ## The hierarchy resolver (first loop of `createAutoTestSceneForAPIsAndAutoTestSceneID`) -/

/-- Apply `f` to the element at position `idx` (an assignment to a field of
`functionParams.Requirements[idx]`). -/
def updateAt {α : Type} : List α → Nat → (α → α) → List α
  | [], _, _ => []
  | a :: as, 0, f => f a :: as
  | a :: as, n + 1, f => a :: updateAt as n f

/-- `functionParams.Requirements[idx].Scene.AutoTestSpaceId = v`. -/
def setSpaceId (reqs : List AutoTestSceneParam) (idx v : Nat) : List AutoTestSceneParam :=
  updateAt reqs idx (fun r => { r with Scene := { r.Scene with AutoTestSpaceId := v } })

/-- `functionParams.Requirements[idx].Scene.AutoTestSceneSetId = v`. -/
def setSceneSetId (reqs : List AutoTestSceneParam) (idx v : Nat) : List AutoTestSceneParam :=
  updateAt reqs idx (fun r => { r with Scene := { r.Scene with AutoTestSceneSetId := v } })

/-- `functionParams.Requirements[idx].Scene.AutoTestSceneId = v`. -/
def setSceneId (reqs : List AutoTestSceneParam) (idx v : Nat) : List AutoTestSceneParam :=
  updateAt reqs idx (fun r => { r with Scene := { r.Scene with AutoTestSceneId := v } })

/-- The request of `bdl.CreateTestSpaceWithReturn` in the resolver. -/
def spaceCreateRequest (projectId : Nat) (rs : AutoTestSceneParam) : AutoTestSpaceCreateRequest :=
  { Name := AIGeneratedAutoTestSpaceNamePrefix ++ rs.APIs.AssetID
    ProjectID := toInt64 projectId
    Description := "AI Generated AutoTest Space"
    ArchiveStatus := .TestSpaceInit }

/-- The request of `bdl.CreateSceneSet` in the resolver, under space `spaceID`. -/
def sceneSetCreateRequest (projectId : Nat) (userId : String) (rs : AutoTestSceneParam)
    (spaceID : Nat) : SceneSetRequest :=
  { Name := AIGeneratedAutoTestSceneSetNamePrefix ++ rs.APIs.AssetID
    Description := "AI Generated AutoTest Scene Set"
    SpaceID := spaceID
    ProjectId := projectId
    Identity := { UserID := userId } }

/-- The request of `bdl.CreateAutoTestScene` in the resolver, under `spaceID`/`setID`. -/
def sceneCreateRequest (userId : String) (rs : AutoTestSceneParam) (spaceID setID : Nat) :
    AutotestSceneRequest :=
  { Params := { SpaceID := spaceID }
    Name := AIGeneratedAutoTestSceneNamePrefix ++ rs.APIs.AssetID
    Description := "AI Generated AutoTest Scene"
    SetID := setID
    Identity := { UserID := userId } }

/-- The request of `bdl.GetAutoTestScene` in the resolver. -/
def sceneGetRequest (userId : String) (rs : AutoTestSceneParam) : AutotestSceneRequest :=
  { SceneID := rs.Scene.AutoTestSceneId
    Identity := { UserID := userId } }

/-- The request of `bdl.GetSceneSet` in the resolver. -/
def sceneSetGetRequest (userId : String) (rs : AutoTestSceneParam) : SceneSetRequest :=
  { SetID := rs.Scene.AutoTestSceneSetId
    Identity := { UserID := userId } }

/-- `bdl.CreateTestSpaceWithReturn(...)` followed by the error check. -/
def doCreateSpace (bdl : Bundle) (userId : String) (r : AutoTestSpaceCreateRequest) :
    Prog AutoTestSpace :=
  (Prog.call (.CreateTestSpaceWithReturn r userId) (bdl.CreateTestSpaceWithReturn r userId)).wrapErr
    "create autotest space failed"

/-- `bdl.CreateSceneSet(...)` followed by the error check. -/
def doCreateSceneSet (bdl : Bundle) (r : SceneSetRequest) : Prog Nat :=
  (Prog.call (.CreateSceneSet r) (bdl.CreateSceneSet r)).wrapErr "create autotest scene set failed"

/-- `bdl.CreateAutoTestScene(...)` followed by the error check. -/
def doCreateScene (bdl : Bundle) (r : AutotestSceneRequest) : Prog Nat :=
  (Prog.call (.CreateAutoTestScene r) (bdl.CreateAutoTestScene r)).wrapErr
    "create autotest scene failed"

/-- `bdl.GetAutoTestScene(...)` followed by the error check. -/
def doGetScene (bdl : Bundle) (r : AutotestSceneRequest) : Prog AutoTestScene :=
  (Prog.call (.GetAutoTestScene r) (bdl.GetAutoTestScene r)).wrapErr
    "get autotest scene by ID failed"

/-- `bdl.GetSceneSet(...)` followed by the error check. -/
def doGetSceneSet (bdl : Bundle) (r : SceneSetRequest) : Prog SceneSet :=
  (Prog.call (.GetSceneSet r) (bdl.GetSceneSet r)).wrapErr "get autotest scene set by ID failed"

/-- The body of the first `for idx, rs := range functionParams.Requirements` loop: the
`switch` over the eight set/unset combinations. `rs` is the copy of the element taken
when the iteration starts, `reqs` is `functionParams.Requirements`; the result is
`functionParams.Requirements` after the iteration. -/
def resolveRequirement (bdl : Bundle) (projectId : Nat) (userId : String) (idx : Nat)
    (rs : AutoTestSceneParam) (reqs : List AutoTestSceneParam) :
    Prog (List AutoTestSceneParam) :=
  if rs.Scene.AutoTestSpaceId = 0 ∧ rs.Scene.AutoTestSceneSetId = 0
      ∧ rs.Scene.AutoTestSceneId = 0 then do
    let space ← doCreateSpace bdl userId (spaceCreateRequest projectId rs)
    let reqs := setSpaceId reqs idx space.ID
    let sceneSetId ← doCreateSceneSet bdl (sceneSetCreateRequest projectId userId rs space.ID)
    let reqs := setSceneSetId reqs idx sceneSetId
    let testSceneId ← doCreateScene bdl (sceneCreateRequest userId rs space.ID sceneSetId)
    pure (setSceneId reqs idx testSceneId)
  else if rs.Scene.AutoTestSpaceId = 0 ∧ rs.Scene.AutoTestSceneSetId = 0
      ∧ 0 < rs.Scene.AutoTestSceneId then do
    let scene ← doGetScene bdl (sceneGetRequest userId rs)
    let reqs := setSpaceId reqs idx scene.SpaceID
    pure (setSceneSetId reqs idx scene.SetID)
  else if rs.Scene.AutoTestSpaceId = 0 ∧ 0 < rs.Scene.AutoTestSceneSetId
      ∧ rs.Scene.AutoTestSceneId = 0 then do
    let sceneSet ← doGetSceneSet bdl (sceneSetGetRequest userId rs)
    let reqs := setSpaceId reqs idx sceneSet.SpaceID
    let testSceneId ← doCreateScene bdl
      (sceneCreateRequest userId rs sceneSet.SpaceID rs.Scene.AutoTestSceneSetId)
    pure (setSceneId reqs idx testSceneId)
  else if rs.Scene.AutoTestSpaceId = 0 ∧ 0 < rs.Scene.AutoTestSceneSetId
      ∧ 0 < rs.Scene.AutoTestSceneId then do
    let scene ← doGetScene bdl (sceneGetRequest userId rs)
    pure (setSpaceId reqs idx scene.SpaceID)
  else if 0 < rs.Scene.AutoTestSpaceId ∧ rs.Scene.AutoTestSceneSetId = 0
      ∧ rs.Scene.AutoTestSceneId = 0 then do
    let sceneSetId ← doCreateSceneSet bdl
      (sceneSetCreateRequest projectId userId rs rs.Scene.AutoTestSpaceId)
    let reqs := setSceneSetId reqs idx sceneSetId
    let testSceneId ← doCreateScene bdl
      (sceneCreateRequest userId rs rs.Scene.AutoTestSpaceId sceneSetId)
    pure (setSceneId reqs idx testSceneId)
  else if 0 < rs.Scene.AutoTestSpaceId ∧ rs.Scene.AutoTestSceneSetId = 0
      ∧ 0 < rs.Scene.AutoTestSceneId then do
    let scene ← doGetScene bdl (sceneGetRequest userId rs)
    pure (setSceneSetId reqs idx scene.SetID)
  else if 0 < rs.Scene.AutoTestSpaceId ∧ 0 < rs.Scene.AutoTestSceneSetId
      ∧ rs.Scene.AutoTestSceneId = 0 then do
    let testSceneId ← doCreateScene bdl
      (sceneCreateRequest userId rs rs.Scene.AutoTestSpaceId rs.Scene.AutoTestSceneSetId)
    pure (setSceneId reqs idx testSceneId)
  else
    pure reqs

/-- The first loop: iterations `idx, idx + 1, ...` over `functionParams.Requirements`,
`n` iterations being left. Each iteration copies the current element into `rs`. -/
def resolveLoop (bdl : Bundle) (projectId : Nat) (userId : String) :
    Nat → Nat → List AutoTestSceneParam → Prog (List AutoTestSceneParam)
  | 0, _, reqs => pure reqs
  | n + 1, idx, reqs =>
    match reqs[idx]? with
    | none => pure reqs
    | some rs => do
      let reqs' ← resolveRequirement bdl projectId userId idx rs reqs
      resolveLoop bdl projectId userId n (idx + 1) reqs'

/-- The whole first loop over the batch. -/
def resolveAll (bdl : Bundle) (projectId : Nat) (userId : String)
    (reqs : List AutoTestSceneParam) : Prog (List AutoTestSceneParam) :=
  resolveLoop bdl projectId userId reqs.length 0 reqs

/-! ## Validation -/

/-- The loop of `validateParamsForCreateAutoTestScene` from index `idx` on. -/
def validateFrom : Nat → List AutoTestSceneParam → Option GoError
  | _, [] => none
  | idx, acp :: rest =>
    if acp.APIs.AssetID = "" then
      some (.new ("AI function functionParams requirements[" ++ toString idx
        ++ "].APIs.AssetID  for " ++ Name ++ " invalid, not set"))
    else validateFrom (idx + 1) rest

/-- `validateParamsForCreateAutoTestScene`; `none` is the `nil` error. -/
def validateParamsForCreateAutoTestScene (req : FunctionParams) : Option GoError :=
  if req.Requirements.length = 0 then
    some (.new ("AI function functionParams requirements for " ++ Name ++ " invalid, not set"))
  else validateFrom 0 req.Requirements

/-! ## Registration of scene inputs and outputs (second loop) -/

/-- The message of the `errors.Wrapf` around `CreateAutoTestSceneInput`. -/
def inputFailedMsg (apiIndexId : Nat) (apiDetail : APIOperation) : String :=
  "CreateAutoTestSceneInput for API Index ID [dice_api_oas3_index id=" ++ toString apiIndexId
    ++ " method=" ++ apiDetail.Method ++ " path=" ++ apiDetail.Path ++ "] failed"

/-- The message of the `errors.Wrapf` around `CreateAutoTestSceneOutput`. -/
def outputFailedMsg (apiIndexId : Nat) (apiDetail : APIOperation) : String :=
  "CreateAutoTestSceneOutput for API Index ID [dice_api_oas3_index id=" ++ toString apiIndexId
    ++ " method=" ++ apiDetail.Method ++ " path=" ++ apiDetail.Path ++ "] failed"

/-- The request of `bdl.CreateAutoTestSceneInput` for parameter or header `p`. -/
def sceneInputRequest (userId : String) (sc : OutPutAutoTestScene) (p : Parameter) :
    AutotestSceneRequest :=
  { Params := { SpaceID := sc.AutoTestSpaceId, CreatorID := userId, UpdaterID := userId }
    Name := p.Name
    Description := ""
    Value := ""
    Temp := ""
    SceneID := sc.AutoTestSceneId
    SetID := sc.AutoTestSceneSetId
    Identity := { UserID := userId } }

/-- The request of `bdl.CreateAutoTestSceneOutput` for response `p`. -/
def sceneOutputRequest (userId : String) (sc : OutPutAutoTestScene) (p : Response) :
    AutotestSceneRequest :=
  { Params := { SpaceID := sc.AutoTestSpaceId, CreatorID := userId, UpdaterID := userId }
    Name := "statusCode"
    Description := ""
    Value := p.StatusCode
    Temp := p.StatusCode
    SceneID := sc.AutoTestSceneId
    SetID := sc.AutoTestSceneSetId
    Identity := { UserID := userId } }

/-- The loops over `apiDetail.Parameters` and over `apiDetail.Headers`. -/
def registerInputs (bdl : Bundle) (userId : String) (sc : OutPutAutoTestScene)
    (apiIndexId : Nat) (apiDetail : APIOperation) : List Parameter → Prog Unit
  | [] => pure ()
  | p :: ps => do
    let _ ← (Prog.call (.CreateAutoTestSceneInput (sceneInputRequest userId sc p))
      (bdl.CreateAutoTestSceneInput (sceneInputRequest userId sc p))).wrapErr
        (inputFailedMsg apiIndexId apiDetail)
    registerInputs bdl userId sc apiIndexId apiDetail ps

/-- The loop over `apiDetail.Responses`. -/
def registerOutputs (bdl : Bundle) (userId : String) (sc : OutPutAutoTestScene)
    (apiIndexId : Nat) (apiDetail : APIOperation) : List Response → Prog Unit
  | [] => pure ()
  | p :: ps => do
    let _ ← (Prog.call (.CreateAutoTestSceneOutput (sceneOutputRequest userId sc p))
      (bdl.CreateAutoTestSceneOutput (sceneOutputRequest userId sc p))).wrapErr
        (outputFailedMsg apiIndexId apiDetail)
    registerOutputs bdl userId sc apiIndexId apiDetail ps

/-- `bdl.GetAPIOperation(orgId, userId, apiIndexId)` followed by the error check. -/
def doGetAPIOperation (bdl : Bundle) (orgId : Nat) (userId : String) (apiIndexId : Nat)
    (msg : String) : Prog APIOperation :=
  (Prog.call (.GetAPIOperation orgId userId apiIndexId)
    (bdl.GetAPIOperation orgId userId apiIndexId)).wrapErr msg

/-- The body of the inner loop of the second pass, for one API index id. `sc` is
`functionParams.Requirements[idx].Scene`. -/
def registerAPI (bdl : Bundle) (orgId : Nat) (userId : String) (sc : OutPutAutoTestScene)
    (apiIndexId : Nat) : Prog Unit := do
  let apiDetail ← doGetAPIOperation bdl orgId userId apiIndexId
    "get api info failed when create SceneInput for creating autotest scene step"
  registerInputs bdl userId sc apiIndexId apiDetail apiDetail.Parameters
  registerInputs bdl userId sc apiIndexId apiDetail apiDetail.Headers
  registerOutputs bdl userId sc apiIndexId apiDetail apiDetail.Responses

/-- The inner loop `for _, apiIndexId := range rs.APIs.APIIndexIDs` of the second pass. -/
def registerAPIs (bdl : Bundle) (orgId : Nat) (userId : String) (sc : OutPutAutoTestScene) :
    List Nat → Prog Unit
  | [] => pure ()
  | apiIndexId :: rest => do
    registerAPI bdl orgId userId sc apiIndexId
    registerAPIs bdl orgId userId sc rest

/-- The second pass `for idx, rs := range functionParams.Requirements`. Nothing is
assigned in this pass, so `functionParams.Requirements[idx]` is `rs`. -/
def registerAll (bdl : Bundle) (orgId : Nat) (userId : String) :
    List AutoTestSceneParam → Prog Unit
  | [] => pure ()
  | rs :: rest => do
    registerAPIs bdl orgId userId rs.Scene rs.APIs.APIIndexIDs
    registerAll bdl orgId userId rest

/-! ## The generation task (`processSingleAPIAutoTestSceneStep`) -/

/-- What the handler reads of the `Function` the factory builds and of the request: the
embedded system and user messages, and the request's `NeedAdjust` flag. -/
structure TaskConfig where
  systemMessage : String
  userMessage : String
  needAdjust : Bool

/-- The message list of `processSingleAPIAutoTestSceneStep`; `contextPrompt` is the
result of `GenerateContextPrompt(sceneStepID, sceneID, userID)`. -/
def chatMessages (lib : JsonLib) (cfg : TaskConfig) (apiDetail : APIOperation)
    (contextPrompt : String) : List ChatCompletionMessage :=
  [ { Role := "system", Content := cfg.systemMessage, Name := "system" },
    { Role := "system",
      Content := "The swagger documentation content of the API selected by the user: "
        ++ JsonOutputAPIOperation lib apiDetail },
    { Role := "system",
      Content := "In this test case generation, you can also use these context variables: "
        ++ contextPrompt },
    { Role := "user", Content := cfg.userMessage, Name := "erda" } ]

/-- Modelled from the spec: `aiHandlerUtils.GetChatMessageFunctionCallArguments` is not
among the sources. Following §4.3, it invokes the language-model function-calling
provider with the messages, and hands the structured arguments it returns to
`Function.Callback` together with the caller's input and the request's "needs
adjustment" flag; a provider error is returned as it is. -/
def GetChatMessageFunctionCallArguments (lib : JsonLib) (bdl : Bundle) (cfg : TaskConfig)
    (messages : List ChatCompletionMessage) (callbackInput : AutoTestSceneFunctionInput) :
    Prog AutoTestSceneMeta := do
  let arguments ← Prog.call (.ChatCompletion messages callbackInput)
    (bdl.ChatCompletion messages callbackInput)
  Callback lib bdl arguments (.autoTestScene callbackInput) cfg.needAdjust

/-- Modelled from the spec: `getStepExpressionValues` is not among the sources. Following
§4.2 it gathers the five variable sets associated with a scene step (scene-level inputs,
outputs of preceding scene steps, outputs of preceding configuration sheets, global
configuration outputs, mock inputs); the lookups it performs are recorded as one
collaborator event, which cannot fail. -/
def getStepExpressionValues (bdl : Bundle) (sceneStepID sceneID : Nat) (userID : String) :
    Prog StepExpressionValues :=
  Prog.call (.GetStepExpressionValues sceneStepID sceneID userID)
    (fun tr => .ok (bdl.GetStepExpressionValues sceneStepID sceneID userID tr))

/-- The template of `GenerateContextPrompt`, filled with the five serialized sets. -/
def contextPromptText (lib : JsonLib) (exprValues : StepExpressionValues) : String :=
  "\n场景入参：" ++ JsonOutput lib exprValues.SceneInputs
    ++ "\n前置接口出参：" ++ JsonOutput lib exprValues.PreSceneStepsOutputs
    ++ "\n前置配置单出参：" ++ JsonOutput lib exprValues.PreConfigSheetsOutputs
    ++ "\n全局变量入参：" ++ JsonOutput lib exprValues.GlobalConfigOutputs
    ++ "\nmock：" ++ JsonOutput lib exprValues.MockInputs ++ "\n"

/-- `GenerateContextPrompt` of `prompt.go`. -/
def GenerateContextPrompt (lib : JsonLib) (bdl : Bundle) (sceneStepID sceneID : Nat)
    (userID : String) : Prog String := do
  let exprValues ← getStepExpressionValues bdl sceneStepID sceneID userID
  pure (contextPromptText lib exprValues)

/-- `processSingleAPIAutoTestSceneStep`; `results` is `*results` on entry, the value
returned is `*results` on exit. -/
def processSingleAPIAutoTestSceneStep (lib : JsonLib) (bdl : Bundle) (cfg : TaskConfig)
    (atsp : AutoTestSceneParam) (callbackInput : AutoTestSceneFunctionInput)
    (apiIndexID orgID : Nat) (userID : String) (sceneStepID sceneID : Nat)
    (results : List AutoTestSceneMeta) : Prog (List AutoTestSceneMeta) := do
  let apiDetail ← doGetAPIOperation bdl orgID userID apiIndexID
    "get api info failed when create autotest scene step"
  if atsp.Req.isSome then
    pure results
  else do
    let contextPrompt ← GenerateContextPrompt lib bdl sceneStepID sceneID userID
    let messages := chatMessages lib cfg apiDetail contextPrompt
    let result ← GetChatMessageFunctionCallArguments lib bdl cfg messages callbackInput
    pure (results ++ [result])

/-! ## The orchestrator: third loop and the whole function -/

/-- The `AutoTestSceneFunctionInput` literal of the third loop. -/
def functionInput (userId : String) (tsp : AutoTestSceneParam) (apiIndexId : Nat)
    (apiDetail : APIOperation) : AutoTestSceneFunctionInput :=
  { AssetID := tsp.APIs.AssetID
    VersionID := tsp.APIs.VersionID
    APIIndexID := apiIndexId
    APIOperationID := apiDetail.ID
    APIName := apiDetail.Description
    APIMethod := apiDetail.Method
    APIUrl := apiDetail.Path
    UserID := userId
    AutoTestSpaceName := ""
    AutoTestSpaceID := tsp.Scene.AutoTestSpaceId
    AutoTestSceneSetName := ""
    AutoTestSceneSetId := tsp.Scene.AutoTestSceneSetId
    AutoTestSceneName := ""
    AutoTestSceneId := tsp.Scene.AutoTestSceneId
    Prompt := "" }

/-- The body of the inner loop of the third pass, for one API index id. The unit of work
is invoked synchronously (`wg.Add(1)` followed by a plain call). -/
def generateAPI (lib : JsonLib) (bdl : Bundle) (cfg : TaskConfig) (orgId : Nat)
    (userId : String) (tsp : AutoTestSceneParam) (apiIndexId : Nat)
    (results : List AutoTestSceneMeta) : Prog (List AutoTestSceneMeta) := do
  let apiDetail ← doGetAPIOperation bdl orgId userId apiIndexId
    "get api info failed when create SceneInput for creating autotest scene step"
  let atsfi := functionInput userId tsp apiIndexId apiDetail
  let sceneStepID : Nat := 0
  (processSingleAPIAutoTestSceneStep lib bdl cfg tsp atsfi apiIndexId orgId userId sceneStepID
    tsp.Scene.AutoTestSceneId results).wrapErr "process single testCase create faild"

/-- The inner loop `for _, apiIndexId := range tsp.APIs.APIIndexIDs` of the third pass. -/
def generateAPIs (lib : JsonLib) (bdl : Bundle) (cfg : TaskConfig) (orgId : Nat)
    (userId : String) (tsp : AutoTestSceneParam) :
    List Nat → List AutoTestSceneMeta → Prog (List AutoTestSceneMeta)
  | [], results => pure results
  | apiIndexId :: rest, results => do
    let results' ← generateAPI lib bdl cfg orgId userId tsp apiIndexId results
    generateAPIs lib bdl cfg orgId userId tsp rest results'

/-- The third pass `for idx, tsp := range functionParams.Requirements`. Nothing is
assigned to the requirements in this pass, so `functionParams.Requirements[idx]` is
`tsp`. -/
def generateAll (lib : JsonLib) (bdl : Bundle) (cfg : TaskConfig) (orgId : Nat)
    (userId : String) : List AutoTestSceneParam → List AutoTestSceneMeta →
    Prog (List AutoTestSceneMeta)
  | [], results => pure results
  | tsp :: rest, results => do
    let results' ← generateAPIs lib bdl cfg orgId userId tsp tsp.APIs.APIIndexIDs results
    generateAll lib bdl cfg orgId userId rest results'

/-- The outcome of `req.GetFunctionParams().MarshalJSON()` followed by `json.Unmarshal`
into `FunctionParams`. -/
inductive DecodedParams where
  | marshalFailed (e : GoError)
  | unmarshalFailed (e : GoError)
  | decoded (functionParams : FunctionParams)
  deriving DecidableEq, Repr

/-- `pb.ApplyRequest`, as far as the handler reads it. -/
structure ApplyRequest where
  FunctionParams : DecodedParams
  Background : Background := {}
  NeedAdjust : Bool := false
  deriving DecidableEq, Repr

/-- `httpserver.Resp`, the content that is serialized as the aggregate response. -/
structure Resp where
  Success : Bool
  Data : List AutoTestSceneMeta
  deriving DecidableEq, Repr

/-- `createAutoTestSceneForAPIsAndAutoTestSceneID`. The value returned is the
`httpserver.Resp` handed to `json.Marshal`. -/
def createAutoTestSceneForAPIsAndAutoTestSceneID (lib : JsonLib) (bdl : Bundle)
    (systemMessage userMessage : String) (req : ApplyRequest) : Prog Resp :=
  match req.FunctionParams with
  | .marshalFailed e => Prog.fail (.wrap e "MarshalJSON for req.FunctionParams failed.")
  | .unmarshalFailed e =>
    Prog.fail (.wrap e "Unmarshal req.FunctionParams to struct FunctionParams failed.")
  | .decoded functionParams =>
    match validateParamsForCreateAutoTestScene functionParams with
    | some e => Prog.fail (.wrap e "validateParamsForCreateAutoTestScene failed")
    | none => do
      let orgId := req.Background.OrgID
      let projectId := req.Background.ProjectID
      let userId := req.Background.UserID
      let cfg : TaskConfig :=
        { systemMessage := systemMessage, userMessage := userMessage,
          needAdjust := req.NeedAdjust }
      let reqs ← resolveAll bdl projectId userId functionParams.Requirements
      registerAll bdl orgId userId reqs
      let results ← generateAll lib bdl cfg orgId userId reqs []
      pure { Success := true, Data := results }

/-! ## Observations on traces -/

/-- The kind of a collaborator call, without its arguments. -/
inductive CallKind where
  | createSpace | createSceneSet | createScene | getScene | getSceneSet
  | getAPIOperation | createSceneInput | createSceneOutput | createSceneStep
  | contextPrompt | chatCompletion
  deriving DecidableEq, Repr

/-- The kind of a call. -/
def Call.kind : Call → CallKind
  | .CreateTestSpaceWithReturn _ _ => .createSpace
  | .CreateSceneSet _ => .createSceneSet
  | .CreateAutoTestScene _ => .createScene
  | .GetAutoTestScene _ => .getScene
  | .GetSceneSet _ => .getSceneSet
  | .GetAPIOperation _ _ _ => .getAPIOperation
  | .CreateAutoTestSceneInput _ => .createSceneInput
  | .CreateAutoTestSceneOutput _ => .createSceneOutput
  | .CreateAutoTestSceneStep _ => .createSceneStep
  | .GetStepExpressionValues _ _ _ => .contextPrompt
  | .ChatCompletion _ _ => .chatCompletion

/-- The table of §4.1 of the specification: the collaborator calls for each combination
of (space set, scene-set set, scene set). -/
def resolverTable : Bool → Bool → Bool → List CallKind
  | false, false, false => [.createSpace, .createSceneSet, .createScene]
  | false, false, true => [.getScene]
  | false, true, false => [.getSceneSet, .createScene]
  | false, true, true => [.getScene]
  | true, false, false => [.createSceneSet, .createScene]
  | true, false, true => [.getScene]
  | true, true, false => [.createScene]
  | true, true, true => []

/-- The name a create request of the resolver carries; `none` for the other calls. -/
def Call.createdName : Call → Option String
  | .CreateTestSpaceWithReturn r _ => some r.Name
  | .CreateSceneSet r => some r.Name
  | .CreateAutoTestScene r => some r.Name
  | _ => none

/-- The naming convention of §4.1 of the specification: a fixed prefix per level
followed by the asset id. -/
def conventionName (assetID : String) : CallKind → Option String
  | .createSpace => some ("AI_Generated_Space_" ++ assetID)
  | .createSceneSet => some ("AI_Generated_SceneSet_" ++ assetID)
  | .createScene => some ("AI_Generated_Scene_" ++ assetID)
  | _ => none

/-- The ids a collaborator hands out are positive: every successful create returns a
positive id and every successful lookup returns a record with positive parent ids. -/
def Bundle.PositiveIds (bdl : Bundle) : Prop :=
  (∀ r u tr s, bdl.CreateTestSpaceWithReturn r u tr = .ok s → 0 < s.ID) ∧
  (∀ r tr n, bdl.CreateSceneSet r tr = .ok n → 0 < n) ∧
  (∀ r tr n, bdl.CreateAutoTestScene r tr = .ok n → 0 < n) ∧
  (∀ r tr s, bdl.GetAutoTestScene r tr = .ok s → 0 < s.SpaceID ∧ 0 < s.SetID) ∧
  (∀ r tr s, bdl.GetSceneSet r tr = .ok s → 0 < s.SpaceID)

/-! ## Failing calls and fail-fast runs -/

/-- The error of an answer, if it is one. -/
def errorOf {α : Type} : Except GoError α → Option GoError
  | .ok _ => none
  | .error e => some e

/-- The error the collaborator returns for the call `c` issued after the calls `hist`;
`none` when the call succeeds. -/
def Bundle.failure (bdl : Bundle) (c : Call) (hist : List Call) : Option GoError :=
  match c with
  | .CreateTestSpaceWithReturn r u => errorOf (bdl.CreateTestSpaceWithReturn r u hist)
  | .CreateSceneSet r => errorOf (bdl.CreateSceneSet r hist)
  | .CreateAutoTestScene r => errorOf (bdl.CreateAutoTestScene r hist)
  | .GetAutoTestScene r => errorOf (bdl.GetAutoTestScene r hist)
  | .GetSceneSet r => errorOf (bdl.GetSceneSet r hist)
  | .GetAPIOperation o u i => errorOf (bdl.GetAPIOperation o u i hist)
  | .CreateAutoTestSceneInput r => errorOf (bdl.CreateAutoTestSceneInput r hist)
  | .CreateAutoTestSceneOutput r => errorOf (bdl.CreateAutoTestSceneOutput r hist)
  | .CreateAutoTestSceneStep r => errorOf (bdl.CreateAutoTestSceneStep r hist)
  | .GetStepExpressionValues _ _ _ => none
  | .ChatCompletion m i => errorOf (bdl.ChatCompletion m i hist)

/-- `e.Wraps e0`: `e` is `e0` or was built from `e0` by `errors.Wrap`. -/
def GoError.Wraps : GoError → GoError → Prop
  | .new m, e0 => GoError.new m = e0
  | .wrap c m, e0 => GoError.wrap c m = e0 ∨ c.Wraps e0

/-- Every call of `new`, issued after `tr` and the calls before it, satisfies `P`. -/
def AllCalls (P : List Call → Call → Prop) : List Call → List Call → Prop
  | _, [] => True
  | tr, c :: rest => P tr c ∧ AllCalls P (tr ++ [c]) rest

/-- All calls of `new`, issued after `tr`, succeed. -/
def Clean (bdl : Bundle) (tr new : List Call) : Prop :=
  AllCalls (fun hist c => bdl.failure c hist = none) tr new

/-- A run from `tr` is fail-fast: the calls it adds all succeed, except that a run ending
in an error may have one failing call, which is then the last call; `R` relates the
failing call, the collaborator's error and the returned error, `Q` holds of an error
returned without a failing call. -/
def FailFastRun (bdl : Bundle) (R : Call → GoError → GoError → Prop) (Q : GoError → Prop)
    {α : Type} (tr : List Call) (r : Outcome α × List Call) : Prop :=
  ∃ new, r.2 = tr ++ new ∧
    match r.1 with
    | .ok _ => Clean bdl tr new
    | .panic _ => Clean bdl tr new
    | .err e => (Clean bdl tr new ∧ Q e) ∨
        ∃ init c e0, new = init ++ [c] ∧ Clean bdl tr init ∧
          bdl.failure c (tr ++ init) = some e0 ∧ R c e0 e

/-- Every run of `m` is fail-fast. -/
structure Prog.FailFast (bdl : Bundle) (R : Call → GoError → GoError → Prop)
    (Q : GoError → Prop) {α : Type} (m : Prog α) : Prop where
  run : ∀ tr, FailFastRun bdl R Q tr (m tr)

/-- The message the resolver wraps around the error of each kind of call. -/
def resolverOpMessage : CallKind → String
  | .createSpace => "create autotest space failed"
  | .createSceneSet => "create autotest scene set failed"
  | .createScene => "create autotest scene failed"
  | .getScene => "get autotest scene by ID failed"
  | .getSceneSet => "get autotest scene set by ID failed"
  | _ => ""

/-- The kinds of call the resolver issues. -/
def resolverKinds : List CallKind :=
  [.createSpace, .createSceneSet, .createScene, .getScene, .getSceneSet]

/-- The error the resolver returns when the call `c` fails with `e0`: `e0` wrapped with
the message of the operation. -/
def resolverWrap (c : Call) (e0 e : GoError) : Prop :=
  e = .wrap e0 (resolverOpMessage c.kind) ∧ c.kind ∈ resolverKinds

/-- The resolver fails with `e` while resolving the requirement at position `i` of the
batch `reqs`: the first `i` iterations succeed and iteration `i` returns `e`. -/
def FailsAtPosition (bdl : Bundle) (projectId : Nat) (userId : String)
    (reqs : List AutoTestSceneParam) (i : Nat) (e : GoError) : Prop :=
  ∃ reqs1 tr1 rs tr2,
    resolveLoop bdl projectId userId i 0 reqs [] = (.ok reqs1, tr1) ∧
    reqs1[i]? = some rs ∧
    resolveRequirement bdl projectId userId i rs reqs1 tr1 = (.err e, tr2)

/-- The scene-step write request `req` is scoped to the coordinates of the input `i` and
carries the caller-known API fields: its serialized step value is the rendering of a step
whose API name, method and URL are those of `i`. -/
def Scoped (lib : JsonLib) (i : AutoTestSceneFunctionInput) (req : AutotestSceneRequest) :
    Prop :=
  req.Params.SpaceID = i.AutoTestSpaceID ∧ req.SceneID = i.AutoTestSceneId ∧
  req.Identity.UserID = i.UserID ∧ req.APISpecID = i.APIOperationID ∧
  req.Name = i.APIName ∧
  ∃ apiStep : APISpec, req.Value = JsonOutputAPISpec lib apiStep ∧
    apiStep.APIInfo.Name = i.APIName ∧ apiStep.APIInfo.Method = i.APIMethod ∧
    apiStep.APIInfo.URL = i.APIUrl

/-! ## Fail-fast behaviour of the whole function -/

/-- The returned error wraps the collaborator's error. -/
def wrapsCause (_ : Call) (e0 e : GoError) : Prop := e.Wraps e0

/-- No condition on an error returned without a failing call. -/
def anyError (_ : GoError) : Prop := True

/-! ## Calls of a given sort -/

/-- Every call a computation adds to the trace satisfies `P`. -/
structure Prog.Emits (P : Call → Prop) {α : Type} (m : Prog α) : Prop where
  run : ∀ tr, ∃ new, (m tr).2 = tr ++ new ∧ ∀ c ∈ new, P c

/-- A call that neither invokes the provider nor commits a scene step. -/
def Call.quiet (c : Call) : Prop :=
  c.kind ≠ .chatCompletion ∧ c.kind ≠ .createSceneStep

/-! ## The registration pass -/

/-- The call registers a scene input or a scene output. -/
def Call.isRegistration (c : Call) : Prop :=
  c.kind = .createSceneInput ∨ c.kind = .createSceneOutput

/-- The request `r` registers the parameter or header `p` as an input of the scene whose
three ids are `sc`: it is named after `p`, its `Value` and `Temp` are empty, and it
carries the space id, the scene-set id and the scene id of `sc`. -/
def IsInputFor (sc : OutPutAutoTestScene) (p : Parameter) (r : AutotestSceneRequest) : Prop :=
  r.Name = p.Name ∧ r.Value = "" ∧ r.Temp = "" ∧
  r.Params.SpaceID = sc.AutoTestSpaceId ∧ r.SetID = sc.AutoTestSceneSetId ∧
  r.SceneID = sc.AutoTestSceneId

/-- The request `r` registers the response `p` as an output of the scene whose three ids
are `sc`: it is named "statusCode", its `Value` and `Temp` are the status code of `p`,
and it carries the space id, the scene-set id and the scene id of `sc`. -/
def IsOutputFor (sc : OutPutAutoTestScene) (p : Response) (r : AutotestSceneRequest) : Prop :=
  r.Name = "statusCode" ∧ r.Value = p.StatusCode ∧ r.Temp = p.StatusCode ∧
  r.Params.SpaceID = sc.AutoTestSpaceId ∧ r.SetID = sc.AutoTestSceneSetId ∧
  r.SceneID = sc.AutoTestSceneId

/-- The calls `block`, issued after the history `tr`, are the registration of the API
`apiIndexId` against the scene `sc`: the lookup of the API operation, answered with
`apiDetail`, then exactly one `CreateAutoTestSceneInput` per declared parameter, one per
declared header and one `CreateAutoTestSceneOutput` per declared response of
`apiDetail`, in this order. -/
def RegisteredFor (bdl : Bundle) (orgId : Nat) (userId : String) (sc : OutPutAutoTestScene)
    (apiIndexId : Nat) (tr block : List Call) : Prop :=
  ∃ apiDetail inputs headers outputs,
    bdl.GetAPIOperation orgId userId apiIndexId tr = .ok apiDetail ∧
    block = [.GetAPIOperation orgId userId apiIndexId]
      ++ inputs.map Call.CreateAutoTestSceneInput
      ++ headers.map Call.CreateAutoTestSceneInput
      ++ outputs.map Call.CreateAutoTestSceneOutput ∧
    List.Forall₂ (IsInputFor sc) apiDetail.Parameters inputs ∧
    List.Forall₂ (IsInputFor sc) apiDetail.Headers headers ∧
    List.Forall₂ (IsOutputFor sc) apiDetail.Responses outputs

/-- The (hierarchy triple, API index id) pairs of a batch: requirements in batch order
and, within a requirement, API index ids in the order of `APIIndexIDs`, each paired with
the triple of its requirement. -/
def registrationPairs : List AutoTestSceneParam → List (OutPutAutoTestScene × Nat)
  | [] => []
  | r :: rest => r.APIs.APIIndexIDs.map (fun id => (r.Scene, id)) ++ registrationPairs rest

/-- The calls `new`, issued after the history `tr`, are made of one registration block
per pair of the list, in the order of the list, and of nothing else. -/
def RegistrationBlocks (bdl : Bundle) (orgId : Nat) (userId : String) :
    List (OutPutAutoTestScene × Nat) → List Call → List Call → Prop
  | [], _, new => new = []
  | (sc, apiIndexId) :: rest, tr, new =>
    ∃ block more, new = block ++ more ∧
      RegisteredFor bdl orgId userId sc apiIndexId tr block ∧
      RegistrationBlocks bdl orgId userId rest (tr ++ block) more

/-! ## The generation pass -/

/-- The inputs of the generation tasks dispatched to the provider, in trace order. -/
def chatInputs (tr : List Call) : List AutoTestSceneFunctionInput :=
  tr.filterMap (fun c => match c with
    | .ChatCompletion _ i => some i
    | _ => none)

/-- The scene-step write requests committed, in trace order. -/
def commits (tr : List Call) : List AutotestSceneRequest :=
  tr.filterMap (fun c => match c with
    | .CreateAutoTestSceneStep r => some r
    | _ => none)

/-- The (asset id, API index id) pairs of a batch, in dispatch order: requirements in
batch order and, within a requirement, API index ids in the order of `APIIndexIDs`. -/
def dispatchedPairs : List AutoTestSceneParam → List (String × Nat)
  | [] => []
  | r :: rest => r.APIs.APIIndexIDs.map (fun id => (r.APIs.AssetID, id)) ++ dispatchedPairs rest

/-- The result `m` was produced from the generation input `i`: it carries the hierarchy
coordinates of `i` and a write request scoped to `i`. -/
def ProducedFor (lib : JsonLib) (i : AutoTestSceneFunctionInput) (m : AutoTestSceneMeta) :
    Prop :=
  (∃ n, m = callbackMeta i m.Req n) ∧ Scoped lib i m.Req

/-- The requirement `r'` is `r` after resolution: only its hierarchy triple may differ,
and an id of the triple that was positive in `r` has the same value in `r'`. -/
def FrameOK (r r' : AutoTestSceneParam) : Prop :=
  r' = { r with Scene := r'.Scene } ∧
  (0 < r.Scene.AutoTestSpaceId → r'.Scene.AutoTestSpaceId = r.Scene.AutoTestSpaceId) ∧
  (0 < r.Scene.AutoTestSceneSetId → r'.Scene.AutoTestSceneSetId = r.Scene.AutoTestSceneSetId) ∧
  (0 < r.Scene.AutoTestSceneId → r'.Scene.AutoTestSceneId = r.Scene.AutoTestSceneId)

/-! ## A small concrete `encoding/json`, used to exhibit concrete runs

The renderer follows `json.MarshalIndent(v, "", "  ")`; the reader accepts JSON text whose
numbers are integers and whose strings hold no escape sequence. -/

/-- Two blanks per level. -/
def indentOf : Nat → List Char
  | 0 => []
  | n + 1 => ' ' :: ' ' :: indentOf n

mutual
/-- Rendering with fuel. -/
def renderValue : Nat → Nat → JsonValue → List Char
  | 0, _, _ => []
  | _ + 1, _, .null => "null".toList
  | _ + 1, _, .bool true => "true".toList
  | _ + 1, _, .bool false => "false".toList
  | _ + 1, _, .number n => (toString n).toList
  | _ + 1, _, .string s => '"' :: (s.toList ++ ['"'])
  | _ + 1, _, .array [] => "[]".toList
  | f + 1, d, .array (x :: xs) =>
    '[' :: '\n' :: (renderItems f (d + 1) (x :: xs) ++ ('\n' :: (indentOf d ++ [']'])))
  | _ + 1, _, .object [] => "\x7b\x7d".toList
  | f + 1, d, .object (x :: xs) =>
    '{' :: '\n' :: (renderEntries f (d + 1) (x :: xs) ++ ('\n' :: (indentOf d ++ ['}'])))
def renderItems : Nat → Nat → List JsonValue → List Char
  | 0, _, _ => []
  | _ + 1, _, [] => []
  | f + 1, d, [x] => indentOf d ++ renderValue f d x
  | f + 1, d, x :: y :: rest =>
    indentOf d ++ renderValue f d x ++ (',' :: '\n' :: renderItems f d (y :: rest))
def renderEntries : Nat → Nat → List (String × JsonValue) → List Char
  | 0, _, _ => []
  | _ + 1, _, [] => []
  | f + 1, d, [(k, v)] => indentOf d ++ ('"' :: (k.toList ++ ('"' :: ':' :: ' ' :: renderValue f d v)))
  | f + 1, d, (k, v) :: y :: rest =>
    indentOf d ++ ('"' :: (k.toList ++ ('"' :: ':' :: ' ' :: renderValue f d v)))
      ++ (',' :: '\n' :: renderEntries f d (y :: rest))
end

mutual
/-- The compact rendering of `json.Marshal`, with fuel. -/
def renderCompact : Nat → JsonValue → List Char
  | 0, _ => []
  | _ + 1, .null => "null".toList
  | _ + 1, .bool true => "true".toList
  | _ + 1, .bool false => "false".toList
  | _ + 1, .number n => (toString n).toList
  | _ + 1, .string s => '"' :: (s.toList ++ ['"'])
  | f + 1, .array items => '[' :: (renderCompactItems f items ++ [']'])
  | f + 1, .object entries => '{' :: (renderCompactEntries f entries ++ ['}'])
/-- The items of an array, separated by commas. -/
def renderCompactItems : Nat → List JsonValue → List Char
  | 0, _ => []
  | _ + 1, [] => []
  | f + 1, [x] => renderCompact f x
  | f + 1, x :: y :: rest => renderCompact f x ++ (',' :: renderCompactItems f (y :: rest))
/-- The entries of an object, separated by commas. -/
def renderCompactEntries : Nat → List (String × JsonValue) → List Char
  | 0, _ => []
  | _ + 1, [] => []
  | f + 1, [(k, v)] => '"' :: (k.toList ++ ('"' :: ':' :: renderCompact f v))
  | f + 1, (k, v) :: y :: rest =>
    '"' :: (k.toList ++ ('"' :: ':' :: renderCompact f v))
      ++ (',' :: renderCompactEntries f (y :: rest))
end

/-- The text `json.Marshal(v)` of a decoded value. -/
def miniMarshal (v : JsonValue) : String :=
  String.mk (renderCompact 1000 v)

/-- The text `json.MarshalIndent(v, "", "  ")` of a decoded value. -/
def miniMarshalIndent (v : JsonValue) : String :=
  String.mk (renderValue (1000) 0 v)

/-- Skip JSON white space. -/
def skipWs : List Char → List Char
  | [] => []
  | c :: cs => if c = ' ' ∨ c = '\n' ∨ c = '\t' ∨ c = '\r' then skipWs cs else c :: cs

/-- Read decimal digits. -/
def parseDigits : List Char → Nat → Nat × List Char
  | [], acc => (acc, [])
  | c :: cs, acc =>
    if c.isDigit then parseDigits cs (acc * 10 + (c.toNat - '0'.toNat)) else (acc, c :: cs)

/-- Read the characters of a string up to the closing quote; escapes are not accepted. -/
def parseChars : List Char → List Char → Option (String × List Char)
  | [], _ => none
  | c :: cs, acc =>
    if c = '"' then some (String.mk acc.reverse, cs)
    else if c = '\\' then none
    else parseChars cs (c :: acc)

mutual
/-- A JSON value at the head of the text, with fuel. -/
def parseValue : Nat → List Char → Option (JsonValue × List Char)
  | 0, _ => none
  | f + 1, cs =>
    match skipWs cs with
    | 'n' :: 'u' :: 'l' :: 'l' :: rest => some (.null, rest)
    | 't' :: 'r' :: 'u' :: 'e' :: rest => some (.bool true, rest)
    | 'f' :: 'a' :: 'l' :: 's' :: 'e' :: rest => some (.bool false, rest)
    | '"' :: rest => (parseChars rest []).map (fun p => (.string p.1, p.2))
    | '[' :: rest =>
      match skipWs rest with
      | ']' :: rest' => some (.array [], rest')
      | _ => (parseItems f rest).map (fun p => (.array p.1, p.2))
    | '{' :: rest =>
      match skipWs rest with
      | '}' :: rest' => some (.object [], rest')
      | _ => (parseEntries f rest).map (fun p => (.object p.1, p.2))
    | '-' :: d :: rest =>
      if d.isDigit then
        let r := parseDigits (d :: rest) 0
        some (.number (- (r.1 : Int)), r.2)
      else none
    | d :: rest =>
      if d.isDigit then
        let r := parseDigits (d :: rest) 0
        some (.number (r.1 : Int), r.2)
      else none
    | [] => none
/-- The items of an array after its opening bracket, up to the closing one. -/
def parseItems : Nat → List Char → Option (List JsonValue × List Char)
  | 0, _ => none
  | f + 1, cs =>
    match parseValue f cs with
    | none => none
    | some (v, rest) =>
      match skipWs rest with
      | ',' :: rest' => (parseItems f rest').map (fun p => (v :: p.1, p.2))
      | ']' :: rest' => some ([v], rest')
      | _ => none
/-- The entries of an object after its opening brace, up to the closing one. -/
def parseEntries : Nat → List Char → Option (List (String × JsonValue) × List Char)
  | 0, _ => none
  | f + 1, cs =>
    match skipWs cs with
    | '"' :: rest =>
      match parseChars rest [] with
      | none => none
      | some (k, rest1) =>
        match skipWs rest1 with
        | ':' :: rest2 =>
          match parseValue f rest2 with
          | none => none
          | some (v, rest3) =>
            match skipWs rest3 with
            | ',' :: rest4 => (parseEntries f rest4).map (fun p => ((k, v) :: p.1, p.2))
            | '}' :: rest4 => some ([(k, v)], rest4)
            | _ => none
        | _ => none
    | _ => none
end

/-- Decoding of a whole text into an `interface{}`. -/
def miniUnmarshal (s : String) : Option JsonValue :=
  match parseValue (s.length + 1) s.toList with
  | some (v, rest) => if skipWs rest = [] then some v else none
  | none => none

/-! ## Concrete collaborators, requirements and requests, used to exhibit concrete runs -/

/-- A collaborator whose every call succeeds, used to exhibit concrete runs: ids are
fixed numbers, every API operation has one parameter, one header and one response, and
the provider returns the text `args`. -/
def sampleBundle : Bundle where
  CreateTestSpaceWithReturn := fun _ _ _ => .ok { ID := 11 }
  CreateSceneSet := fun _ _ => .ok 22
  CreateAutoTestScene := fun _ _ => .ok 33
  GetAutoTestScene := fun _ _ => .ok { SpaceID := 44, SetID := 55 }
  GetSceneSet := fun _ _ => .ok { SpaceID := 66 }
  GetAPIOperation := fun _ _ apiIndexID _ =>
    .ok { ID := apiIndexID + 100, Description := "op", Method := "GET", Path := "/p",
          Parameters := [{ Name := "q" }], Headers := [{ Name := "h" }],
          Responses := [{ StatusCode := "200" }] }
  CreateAutoTestSceneInput := fun _ _ => .ok 77
  CreateAutoTestSceneOutput := fun _ _ => .ok 88
  CreateAutoTestSceneStep := fun _ tr => .ok (900 + tr.length)
  GetStepExpressionValues := fun _ _ _ _ =>
    { SceneInputs := .object [], PreSceneStepsOutputs := .array [],
      PreConfigSheetsOutputs := .array [], GlobalConfigOutputs := .object [],
      MockInputs := .null }
  ChatCompletion := fun _ _ _ => .ok "args"

/-- A requirement with only the scene-set id supplied. -/
def sampleRequirement : AutoTestSceneParam :=
  { APIs := { AssetID := "asset", APIIndexIDs := [1, 2] }
    Scene := { AutoTestSpaceId := 0, AutoTestSceneSetId := 5, AutoTestSceneId := 0 } }

/-- A requirement with the three ids supplied. -/
def fullRequirement : AutoTestSceneParam :=
  { APIs := { AssetID := "asset", APIIndexIDs := [1] }
    Scene := { AutoTestSpaceId := 1, AutoTestSceneSetId := 2, AutoTestSceneId := 3 } }

/-- A collaborator whose scene records carry no parent ids. -/
def orphanBundle : Bundle :=
  { sampleBundle with GetAutoTestScene := fun _ _ => .ok { SpaceID := 0, SetID := 0 } }

/-- A requirement with only the scene id supplied. -/
def sceneOnlyRequirement : AutoTestSceneParam :=
  { APIs := { AssetID := "asset", APIIndexIDs := [1] }
    Scene := { AutoTestSpaceId := 0, AutoTestSceneSetId := 0, AutoTestSceneId := 7 } }

/-- A requirement with the scene-set id and the scene id supplied. -/
def twoIdsRequirement : AutoTestSceneParam :=
  { APIs := { AssetID := "asset", APIIndexIDs := [1] }
    Scene := { AutoTestSpaceId := 0, AutoTestSceneSetId := 5, AutoTestSceneId := 7 } }

/-- A collaborator whose scene lookup fails. -/
def lookupFailsBundle : Bundle :=
  { sampleBundle with GetAutoTestScene := fun _ _ => .error (.new "boom") }

/-- A payload the provider may return: a JSON-typed body whose content is a string. -/
def stringBodyArguments : String :=
  "\x7b\"body\":\x7b\"type\":\"application/json\",\"content\":\"\x7b\\\"a\\\":1\x7d\"\x7d\x7d"

/-- A payload the provider may return: a JSON-typed body whose content is an object. -/
def objectBodyArguments : String :=
  "\x7b\"body\":\x7b\"type\":\"application/json\",\"content\":\x7b\"a\":1\x7d\x7d\x7d"

/-- A concrete library: the small reader and renderer above; the decoding into
`APIInfoV2` is given on the two payloads above and on `"args"` (a payload without body),
any other text is rejected; the two `json.Marshal` renderings are abbreviated. -/
def sampleLib : JsonLib where
  Unmarshal := miniUnmarshal
  Marshal := miniMarshal
  MarshalIndent := miniMarshalIndent
  UnmarshalAPIInfoV2 := fun s =>
    if s = stringBodyArguments then
      .ok { Body := { BodyType := "application/json", Content := .string "\x7b\"a\":1\x7d" } }
    else if s = objectBodyArguments then
      .ok { Body := { BodyType := "application/json",
                      Content := .object [("a", .number 1)] } }
    else if s = "args" then .ok { Name := "from-provider", Method := "DELETE", URL := "/x" }
    else .error (.new "invalid character")
  MarshalAPISpec := fun v =>
    "\x7b\"apiSpec\":\x7b\"name\":\"" ++ v.APIInfo.Name ++ "\",\"url\":\"" ++ v.APIInfo.URL
      ++ "\",\"method\":\"" ++ v.APIInfo.Method ++ "\"\x7d\x7d"
  MarshalAPIOperation := fun v => "\x7b\"id\":" ++ toString v.ID ++ "\x7d"

/-- An input of the generation task. -/
def sampleInput : AutoTestSceneFunctionInput :=
  { AssetID := "asset", APIIndexID := 1, APIOperationID := 101, APIName := "op",
    APIMethod := "GET", APIUrl := "/p", UserID := "u", AutoTestSpaceID := 1,
    AutoTestSceneSetId := 2, AutoTestSceneId := 3 }

/-- A collaborator whose commit fails. -/
def commitFailsBundle : Bundle :=
  { sampleBundle with CreateAutoTestSceneStep := fun _ _ => .error (.new "db down") }

/-- A provider that fails for the API index id 2. -/
def secondChatFailsBundle : Bundle :=
  { sampleBundle with
    ChatCompletion := fun _ i _ =>
      if i.APIIndexID = 2 then .error (.new "llm down") else .ok "args" }

/-- A fully specified requirement with two API index ids. -/
def twoAPIsRequirement : AutoTestSceneParam :=
  { APIs := { AssetID := "asset", APIIndexIDs := [1, 2] }
    Scene := { AutoTestSpaceId := 1, AutoTestSceneSetId := 2, AutoTestSceneId := 3 } }

/-- A request made of requirements `reqs`, with the "needs adjustment" flag. -/
def sampleRequest (reqs : List AutoTestSceneParam) (needAdjust : Bool) : ApplyRequest :=
  { FunctionParams := .decoded { Requirements := reqs }
    Background := { OrgID := 4, ProjectID := 9, UserID := "u" }
    NeedAdjust := needAdjust }

/-- A fully specified requirement that carries an adjusted request. -/
def adjustedRequirement : AutoTestSceneParam :=
  { Req := some { Params := { SpaceID := 1 }, Name := "approved step", Value := "\x7b\x7d",
                  SceneID := 3, Identity := { UserID := "u" } }
    APIs := { AssetID := "asset", APIIndexIDs := [1] }
    Scene := { AutoTestSpaceId := 1, AutoTestSceneSetId := 2, AutoTestSceneId := 3 } }

/-- A fully specified requirement that leaves `APIIndexIDs` unspecified. -/
def allInterfacesRequirement : AutoTestSceneParam :=
  { APIs := { AssetID := "asset", VersionID := 537, APIIndexIDs := [] }
    Scene := { AutoTestSpaceId := 1, AutoTestSceneSetId := 2, AutoTestSceneId := 3 } }

/-- A payload the provider may return: a JSON-typed body whose content is `null`. -/
def nullBodyArguments : String :=
  "\x7b\"body\":\x7b\"type\":\"application/json\",\"content\":null\x7d\x7d"

/-- The library `sampleLib`, which also decodes the payload with a `null` body content. -/
def sampleLibWithNull : JsonLib :=
  { sampleLib with
    UnmarshalAPIInfoV2 := fun s =>
      if s = nullBodyArguments then
        .ok { Body := { BodyType := "application/json", Content := .null } }
      else sampleLib.UnmarshalAPIInfoV2 s }

/-! # Theorems -/


/-! ## Basic facts about computations -/

@[simp] theorem Prog.pure_run {α : Type} (a : α) (tr : List Call) :
    (pure a : Prog α) tr = (.ok a, tr) := rfl

@[simp] theorem Prog.bind_run {α β : Type} (m : Prog α) (f : α → Prog β) (tr : List Call) :
    (m >>= f) tr = Prog.bind m f tr := rfl

theorem Prog.bind_ok {α β : Type} {m : Prog α} {f : α → Prog β} {tr tr' : List Call} {a : α}
    (h : m tr = (.ok a, tr')) : Prog.bind m f tr = f a tr' := by
  simp [Prog.bind, h]

theorem Prog.bind_err {α β : Type} {m : Prog α} {f : α → Prog β} {tr tr' : List Call}
    {e : GoError} (h : m tr = (.err e, tr')) : Prog.bind m f tr = (.err e, tr') := by
  simp [Prog.bind, h]

theorem Prog.bind_panic {α β : Type} {m : Prog α} {f : α → Prog β} {tr tr' : List Call}
    {s : String} (h : m tr = (.panic s, tr')) : Prog.bind m f tr = (.panic s, tr') := by
  simp [Prog.bind, h]

/-- A checked collaborator call: one event is appended, the answer decides the outcome. -/
theorem Prog.call_wrap_run {α : Type} (c : Call) (answer : List Call → Except GoError α)
    (msg : String) (tr : List Call) :
    ((Prog.call c answer).wrapErr msg) tr =
      match answer tr with
      | .ok a => (.ok a, tr ++ [c])
      | .error e => (.err (.wrap e msg), tr ++ [c]) := by
  unfold Prog.wrapErr Prog.call
  cases answer tr <;> rfl

theorem Prog.bind_call_wrap_run {α β : Type} (c : Call) (answer : List Call → Except GoError α)
    (msg : String) (f : α → Prog β) (tr : List Call) :
    Prog.bind ((Prog.call c answer).wrapErr msg) f tr =
      match answer tr with
      | .ok a => f a (tr ++ [c])
      | .error e => (.err (.wrap e msg), tr ++ [c]) := by
  unfold Prog.bind
  rw [Prog.call_wrap_run]
  cases answer tr <;> rfl

/-! ## Facts about `updateAt` -/

theorem length_updateAt {α : Type} (l : List α) (i : Nat) (f : α → α) :
    (updateAt l i f).length = l.length := by
  induction l generalizing i with
  | nil => rfl
  | cons a as ih => cases i <;> simp [updateAt, ih]

theorem getElem?_updateAt_self {α : Type} (l : List α) (i : Nat) (f : α → α) :
    (updateAt l i f)[i]? = (l[i]?).map f := by
  induction l generalizing i with
  | nil => simp [updateAt]
  | cons a as ih => cases i <;> simp [updateAt, ih]

theorem getElem?_updateAt_ne {α : Type} (l : List α) (i j : Nat) (f : α → α) (h : j ≠ i) :
    (updateAt l i f)[j]? = l[j]? := by
  induction l generalizing i j with
  | nil => simp [updateAt]
  | cons a as ih =>
    cases i with
    | zero =>
      cases j with
      | zero => exact absurd rfl h
      | succ j => simp [updateAt]
    | succ i =>
      cases j with
      | zero => simp [updateAt]
      | succ j => simpa [updateAt] using ih i j (by omega)

theorem map_updateAt {α β : Type} (l : List α) (i : Nat) (f : α → α) (g : α → β)
    (h : ∀ a, g (f a) = g a) : (updateAt l i f).map g = l.map g := by
  induction l generalizing i with
  | nil => rfl
  | cons a as ih => cases i <;> simp [updateAt, ih, h]

/-! ## The hierarchy resolver, one requirement -/

/-- C1. When every collaborator call of the resolver succeeds for a requirement, the
calls it issues for that requirement are, in order, exactly those of the table of §4.1
for the requirement's set/unset combination; in particular no create is issued for a
level whose id was supplied. -/
theorem resolver_calls_follow_table (bdl : Bundle) (projectId : Nat) (userId : String)
    (idx : Nat) (rs : AutoTestSceneParam) (reqs reqs' : List AutoTestSceneParam)
    (tr tr' : List Call)
    (h : resolveRequirement bdl projectId userId idx rs reqs tr = (.ok reqs', tr')) :
    ∃ new, tr' = tr ++ new ∧
      new.map Call.kind = resolverTable (decide (0 < rs.Scene.AutoTestSpaceId))
        (decide (0 < rs.Scene.AutoTestSceneSetId)) (decide (0 < rs.Scene.AutoTestSceneId)) ∧
      (0 < rs.Scene.AutoTestSpaceId → CallKind.createSpace ∉ new.map Call.kind) ∧
      (0 < rs.Scene.AutoTestSceneSetId → CallKind.createSceneSet ∉ new.map Call.kind) ∧
      (0 < rs.Scene.AutoTestSceneId → CallKind.createScene ∉ new.map Call.kind) := by
  by_cases ha : rs.Scene.AutoTestSpaceId = 0 <;>
  by_cases hb : rs.Scene.AutoTestSceneSetId = 0 <;>
  by_cases hc : rs.Scene.AutoTestSceneId = 0 <;>
  simp only [resolveRequirement, Nat.pos_iff_ne_zero, ne_eq, ha, hb, hc, not_true_eq_false,
    not_false_eq_true, and_self, and_true, true_and, and_false, false_and, if_true, if_false,
    doCreateSpace, doCreateSceneSet, doCreateScene, doGetScene, doGetSceneSet,
    Prog.bind_run, Prog.bind_call_wrap_run, Prog.call_wrap_run, Prog.pure_run] at h <;>
  (repeat' split at h) <;>
  simp only [Prod.mk.injEq, Outcome.ok.injEq, reduceCtorEq, false_and] at h <;>
  obtain ⟨-, rfl⟩ := h <;>
  simp [Nat.pos_iff_ne_zero, ha, hb, hc, resolverTable, Call.kind, List.append_assoc]

theorem resolver_calls_follow_table_witness :
    ∃ new : List Call,
      [Call.GetSceneSet (sceneSetGetRequest "u" sampleRequirement),
        Call.CreateAutoTestScene (sceneCreateRequest "u" sampleRequirement 66 5)] = [] ++ new ∧
      new.map Call.kind = resolverTable false true false ∧
      ((0 : Nat) < 0 → CallKind.createSpace ∉ new.map Call.kind) ∧
      ((0 : Nat) < 5 → CallKind.createSceneSet ∉ new.map Call.kind) ∧
      ((0 : Nat) < 0 → CallKind.createScene ∉ new.map Call.kind) :=
  resolver_calls_follow_table sampleBundle 9 "u" 0 sampleRequirement [sampleRequirement]
    [{ sampleRequirement with
        Scene := { AutoTestSpaceId := 66, AutoTestSceneSetId := 5, AutoTestSceneId := 33 } }]
    [] _ rfl

/-- C2. A requirement whose three ids are all positive makes the resolver issue no
collaborator call and leaves the requirements (hence the triple) unchanged. -/
theorem resolver_noop_when_fully_specified (bdl : Bundle) (projectId : Nat) (userId : String)
    (idx : Nat) (rs : AutoTestSceneParam) (reqs : List AutoTestSceneParam) (tr : List Call)
    (ha : 0 < rs.Scene.AutoTestSpaceId) (hb : 0 < rs.Scene.AutoTestSceneSetId)
    (hc : 0 < rs.Scene.AutoTestSceneId) :
    resolveRequirement bdl projectId userId idx rs reqs tr = (.ok reqs, tr) := by
  have ha' := Nat.pos_iff_ne_zero.mp ha
  have hb' := Nat.pos_iff_ne_zero.mp hb
  have hc' := Nat.pos_iff_ne_zero.mp hc
  simp [resolveRequirement, ha', hb', hc']

theorem resolver_noop_when_fully_specified_witness :
    resolveRequirement sampleBundle 9 "u" 0 fullRequirement [fullRequirement] []
      = (.ok [fullRequirement], []) :=
  resolver_noop_when_fully_specified sampleBundle 9 "u" 0 fullRequirement [fullRequirement] []
    (by decide) (by decide) (by decide)

/-- C11. Whatever the collaborators answer, every create call the resolver issues for a
requirement carries the name "AI_Generated_Space_" / "AI_Generated_SceneSet_" /
"AI_Generated_Scene_" followed by the requirement's asset id: the requested name is a
function of the level and of the asset id only, so two resolutions for the same asset id
request identical names. -/
theorem created_entities_named_after_asset (bdl : Bundle) (projectId : Nat) (userId : String)
    (idx : Nat) (rs : AutoTestSceneParam) (reqs : List AutoTestSceneParam) (tr : List Call) :
    ∃ new, (resolveRequirement bdl projectId userId idx rs reqs tr).2 = tr ++ new ∧
      ∀ c ∈ new, c.createdName = conventionName rs.APIs.AssetID c.kind := by
  by_cases ha : rs.Scene.AutoTestSpaceId = 0 <;>
  by_cases hb : rs.Scene.AutoTestSceneSetId = 0 <;>
  by_cases hc : rs.Scene.AutoTestSceneId = 0 <;>
  simp only [resolveRequirement, Nat.pos_iff_ne_zero, ne_eq, ha, hb, hc, not_true_eq_false,
    not_false_eq_true, and_self, and_true, true_and, and_false, false_and, if_true, if_false,
    doCreateSpace, doCreateSceneSet, doCreateScene, doGetScene, doGetSceneSet,
    Prog.bind_run, Prog.bind_call_wrap_run, Prog.call_wrap_run, Prog.pure_run] <;>
  (repeat' split) <;>
  simp [List.append_assoc, Call.createdName, conventionName, Call.kind, spaceCreateRequest,
    sceneSetCreateRequest, sceneCreateRequest, AIGeneratedAutoTestSpaceNamePrefix,
    AIGeneratedAutoTestSceneSetNamePrefix, AIGeneratedAutoTestSceneNamePrefix]

/-- C18. When resolution of a requirement succeeds, every scene-set create request names
the resolved space, every scene create request names the resolved space and scene-set,
and an id inherited from a lookup is the field the lookup returned. -/
theorem create_requests_name_resolved_parents (bdl : Bundle) (projectId : Nat)
    (userId : String) (idx : Nat) (rs : AutoTestSceneParam)
    (reqs reqs' : List AutoTestSceneParam) (tr tr' : List Call)
    (hrs : reqs[idx]? = some rs)
    (h : resolveRequirement bdl projectId userId idx rs reqs tr = (.ok reqs', tr')) :
    ∃ new r', tr' = tr ++ new ∧ reqs'[idx]? = some r' ∧
      (∀ q, Call.CreateSceneSet q ∈ new → q.SpaceID = r'.Scene.AutoTestSpaceId) ∧
      (∀ q, Call.CreateAutoTestScene q ∈ new →
        q.Params.SpaceID = r'.Scene.AutoTestSpaceId ∧ q.SetID = r'.Scene.AutoTestSceneSetId) ∧
      (∀ q, Call.GetSceneSet q ∈ new →
        ∃ s, bdl.GetSceneSet q tr = .ok s ∧ r'.Scene.AutoTestSpaceId = s.SpaceID) ∧
      (∀ q, Call.GetAutoTestScene q ∈ new →
        ∃ s, bdl.GetAutoTestScene q tr = .ok s ∧
          (rs.Scene.AutoTestSpaceId = 0 → r'.Scene.AutoTestSpaceId = s.SpaceID) ∧
          (rs.Scene.AutoTestSceneSetId = 0 → r'.Scene.AutoTestSceneSetId = s.SetID)) := by
  by_cases ha : rs.Scene.AutoTestSpaceId = 0 <;>
  by_cases hb : rs.Scene.AutoTestSceneSetId = 0 <;>
  by_cases hc : rs.Scene.AutoTestSceneId = 0 <;>
  simp only [resolveRequirement, Nat.pos_iff_ne_zero, ne_eq, ha, hb, hc, not_true_eq_false,
    not_false_eq_true, and_self, and_true, true_and, and_false, false_and, if_true, if_false,
    doCreateSpace, doCreateSceneSet, doCreateScene, doGetScene, doGetSceneSet,
    Prog.bind_run, Prog.bind_call_wrap_run, Prog.call_wrap_run, Prog.pure_run] at h <;>
  (repeat' split at h) <;>
  simp only [Prod.mk.injEq, Outcome.ok.injEq, reduceCtorEq, false_and] at h <;>
  obtain ⟨rfl, rfl⟩ := h <;>
  simp_all [List.append_assoc, setSpaceId, setSceneSetId, setSceneId, getElem?_updateAt_self,
    sceneSetCreateRequest, sceneCreateRequest, sceneGetRequest, sceneSetGetRequest]

theorem create_requests_name_resolved_parents_witness :
    ∃ (new : List Call) (r' : AutoTestSceneParam),
      [Call.GetSceneSet (sceneSetGetRequest "u" sampleRequirement),
        Call.CreateAutoTestScene (sceneCreateRequest "u" sampleRequirement 66 5)] = [] ++ new ∧
      [{ sampleRequirement with Scene :=
          { AutoTestSpaceId := 66, AutoTestSceneSetId := 5, AutoTestSceneId := 33 } }][0]?
        = some r' ∧
      (∀ q, Call.CreateSceneSet q ∈ new → q.SpaceID = r'.Scene.AutoTestSpaceId) ∧
      (∀ q, Call.CreateAutoTestScene q ∈ new →
        q.Params.SpaceID = r'.Scene.AutoTestSpaceId ∧ q.SetID = r'.Scene.AutoTestSceneSetId) ∧
      (∀ q, Call.GetSceneSet q ∈ new →
        ∃ s, sampleBundle.GetSceneSet q [] = .ok s ∧ r'.Scene.AutoTestSpaceId = s.SpaceID) ∧
      (∀ q, Call.GetAutoTestScene q ∈ new →
        ∃ s, sampleBundle.GetAutoTestScene q [] = .ok s ∧
          (sampleRequirement.Scene.AutoTestSpaceId = 0 → r'.Scene.AutoTestSpaceId = s.SpaceID) ∧
          (sampleRequirement.Scene.AutoTestSceneSetId = 0 →
            r'.Scene.AutoTestSceneSetId = s.SetID)) :=
  create_requests_name_resolved_parents sampleBundle 9 "u" 0 sampleRequirement
    [sampleRequirement] _ [] _ rfl rfl

/-- C9 (amended). If every id the collaborator returns is positive, then whenever
resolution of a requirement completes without error its space id, scene-set id and
scene id are all positive. -/
theorem resolved_ids_positive (bdl : Bundle) (hpos : bdl.PositiveIds) (projectId : Nat)
    (userId : String) (idx : Nat) (rs : AutoTestSceneParam)
    (reqs reqs' : List AutoTestSceneParam) (tr tr' : List Call)
    (hrs : reqs[idx]? = some rs)
    (h : resolveRequirement bdl projectId userId idx rs reqs tr = (.ok reqs', tr')) :
    ∃ r', reqs'[idx]? = some r' ∧ 0 < r'.Scene.AutoTestSpaceId ∧
      0 < r'.Scene.AutoTestSceneSetId ∧ 0 < r'.Scene.AutoTestSceneId := by
  obtain ⟨p1, p2, p3, p4, p5⟩ := hpos
  by_cases ha : rs.Scene.AutoTestSpaceId = 0 <;>
  by_cases hb : rs.Scene.AutoTestSceneSetId = 0 <;>
  by_cases hc : rs.Scene.AutoTestSceneId = 0 <;>
  simp only [resolveRequirement, Nat.pos_iff_ne_zero, ne_eq, ha, hb, hc, not_true_eq_false,
    not_false_eq_true, and_self, and_true, true_and, and_false, false_and, if_true, if_false,
    doCreateSpace, doCreateSceneSet, doCreateScene, doGetScene, doGetSceneSet,
    Prog.bind_run, Prog.bind_call_wrap_run, Prog.call_wrap_run, Prog.pure_run] at h <;>
  (repeat' split at h) <;>
  simp only [Prod.mk.injEq, Outcome.ok.injEq, reduceCtorEq, false_and] at h <;>
  obtain ⟨rfl, rfl⟩ := h <;>
  simp only [setSpaceId, setSceneSetId, setSceneId, getElem?_updateAt_self, hrs, Option.map_some',
    Option.some.injEq, exists_eq_left'] <;>
  refine ⟨?_, ?_, ?_⟩ <;>
  first
    | exact Nat.pos_of_ne_zero ‹_›
    | exact p1 _ _ _ _ ‹_›
    | exact p2 _ _ _ ‹_›
    | exact p3 _ _ _ ‹_›
    | exact (p4 _ _ _ ‹_›).1
    | exact (p4 _ _ _ ‹_›).2
    | exact p5 _ _ _ ‹_›

theorem sampleBundle_positiveIds : sampleBundle.PositiveIds := by
  refine ⟨?_, ?_, ?_, ?_, ?_⟩ <;> intros <;> simp_all [sampleBundle] <;> subst_vars <;> simp

theorem resolved_ids_positive_witness :
    ∃ r', [{ sampleRequirement with Scene :=
          { AutoTestSpaceId := 66, AutoTestSceneSetId := 5, AutoTestSceneId := 33 } }][0]?
        = some r' ∧ 0 < r'.Scene.AutoTestSpaceId ∧
      0 < r'.Scene.AutoTestSceneSetId ∧ 0 < r'.Scene.AutoTestSceneId :=
  resolved_ids_positive sampleBundle sampleBundle_positiveIds 9 "u" 0 sampleRequirement
    [sampleRequirement] _ [] _ rfl rfl

/-- C9 (counterexample). With a collaborator that answers the scene lookup with a record
whose parent ids are 0, resolution of a requirement with only the scene id supplied
completes without error and leaves the space id and the scene-set id at 0. -/
theorem resolved_ids_positive_counterexample :
    ¬ (∀ (reqs' : List AutoTestSceneParam) (tr' : List Call),
        resolveRequirement orphanBundle 9 "u" 0 sceneOnlyRequirement [sceneOnlyRequirement] []
          = (.ok reqs', tr') →
        ∃ r', reqs'[0]? = some r' ∧ 0 < r'.Scene.AutoTestSpaceId ∧
          0 < r'.Scene.AutoTestSceneSetId ∧ 0 < r'.Scene.AutoTestSceneId) := by
  intro H
  obtain ⟨r', h1, h2, -⟩ := H _ _ rfl
  have h3 : some ({ sceneOnlyRequirement with Scene :=
      { AutoTestSpaceId := 0, AutoTestSceneSetId := 0, AutoTestSceneId := 7 } } :
      AutoTestSceneParam) = some r' := h1
  cases h3
  exact absurd h2 (by decide)

/-- C10 (counterexample). The caller supplies scene-set 5 and scene 7, the collaborator's
record of scene 7 says it belongs to scene-set 55 of space 44: resolution succeeds with
the triple (44, 5, 7), whose scene-set id is not the one of the scene's record. -/
theorem resolved_triple_consistent_counterexample :
    ¬ (∀ (reqs' : List AutoTestSceneParam) (tr' : List Call) (r' : AutoTestSceneParam)
        (s : AutoTestScene),
        resolveRequirement sampleBundle 9 "u" 0 twoIdsRequirement [twoIdsRequirement] []
          = (.ok reqs', tr') →
        reqs'[0]? = some r' →
        sampleBundle.GetAutoTestScene
          { SceneID := r'.Scene.AutoTestSceneId, Identity := { UserID := "u" } } tr' = .ok s →
        r'.Scene.AutoTestSceneSetId = s.SetID ∧ r'.Scene.AutoTestSpaceId = s.SpaceID) := by
  intro H
  have h := (H _ _ _ _ rfl rfl rfl).1
  exact absurd h (by decide)

/-- C10 (amended). Whenever resolution of a requirement completes without error, every id
the resolver fills in from a lookup is the field of the record the lookup returned
(scene lookup: `SpaceID` and `SetID`; scene-set lookup: `SpaceID`), and an id the caller
supplied is kept as supplied; it is not compared with the looked-up record. -/
theorem lookup_ids_inherited (bdl : Bundle) (projectId : Nat) (userId : String) (idx : Nat)
    (rs : AutoTestSceneParam) (reqs reqs' : List AutoTestSceneParam) (tr tr' : List Call)
    (hrs : reqs[idx]? = some rs)
    (h : resolveRequirement bdl projectId userId idx rs reqs tr = (.ok reqs', tr')) :
    ∃ r', reqs'[idx]? = some r' ∧
      (0 < rs.Scene.AutoTestSceneId →
          rs.Scene.AutoTestSpaceId = 0 ∨ rs.Scene.AutoTestSceneSetId = 0 →
        ∃ s, bdl.GetAutoTestScene (sceneGetRequest userId rs) tr = .ok s ∧
          r'.Scene.AutoTestSceneId = rs.Scene.AutoTestSceneId ∧
          r'.Scene.AutoTestSpaceId =
            (if rs.Scene.AutoTestSpaceId = 0 then s.SpaceID else rs.Scene.AutoTestSpaceId) ∧
          r'.Scene.AutoTestSceneSetId =
            (if rs.Scene.AutoTestSceneSetId = 0 then s.SetID
              else rs.Scene.AutoTestSceneSetId)) ∧
      (rs.Scene.AutoTestSceneId = 0 → rs.Scene.AutoTestSpaceId = 0 →
          0 < rs.Scene.AutoTestSceneSetId →
        ∃ s, bdl.GetSceneSet (sceneSetGetRequest userId rs) tr = .ok s ∧
          r'.Scene.AutoTestSpaceId = s.SpaceID ∧
          r'.Scene.AutoTestSceneSetId = rs.Scene.AutoTestSceneSetId) := by
  by_cases ha : rs.Scene.AutoTestSpaceId = 0 <;>
  by_cases hb : rs.Scene.AutoTestSceneSetId = 0 <;>
  by_cases hc : rs.Scene.AutoTestSceneId = 0 <;>
  simp only [resolveRequirement, Nat.pos_iff_ne_zero, ne_eq, ha, hb, hc, not_true_eq_false,
    not_false_eq_true, and_self, and_true, true_and, and_false, false_and, if_true, if_false,
    doCreateSpace, doCreateSceneSet, doCreateScene, doGetScene, doGetSceneSet,
    Prog.bind_run, Prog.bind_call_wrap_run, Prog.call_wrap_run, Prog.pure_run] at h <;>
  (repeat' split at h) <;>
  simp only [Prod.mk.injEq, Outcome.ok.injEq, reduceCtorEq, false_and] at h <;>
  obtain ⟨rfl, rfl⟩ := h <;>
  simp_all [setSpaceId, setSceneSetId, setSceneId, getElem?_updateAt_self]

theorem lookup_ids_inherited_witness :
    ∃ r', [{ twoIdsRequirement with Scene :=
          { AutoTestSpaceId := 44, AutoTestSceneSetId := 5, AutoTestSceneId := 7 } }][0]?
        = some r' ∧
      (0 < twoIdsRequirement.Scene.AutoTestSceneId →
          twoIdsRequirement.Scene.AutoTestSpaceId = 0 ∨
            twoIdsRequirement.Scene.AutoTestSceneSetId = 0 →
        ∃ s, sampleBundle.GetAutoTestScene (sceneGetRequest "u" twoIdsRequirement) [] = .ok s ∧
          r'.Scene.AutoTestSceneId = twoIdsRequirement.Scene.AutoTestSceneId ∧
          r'.Scene.AutoTestSpaceId =
            (if twoIdsRequirement.Scene.AutoTestSpaceId = 0 then s.SpaceID
              else twoIdsRequirement.Scene.AutoTestSpaceId) ∧
          r'.Scene.AutoTestSceneSetId =
            (if twoIdsRequirement.Scene.AutoTestSceneSetId = 0 then s.SetID
              else twoIdsRequirement.Scene.AutoTestSceneSetId)) ∧
      (twoIdsRequirement.Scene.AutoTestSceneId = 0 →
          twoIdsRequirement.Scene.AutoTestSpaceId = 0 →
          0 < twoIdsRequirement.Scene.AutoTestSceneSetId →
        ∃ s, sampleBundle.GetSceneSet (sceneSetGetRequest "u" twoIdsRequirement) [] = .ok s ∧
          r'.Scene.AutoTestSpaceId = s.SpaceID ∧
          r'.Scene.AutoTestSceneSetId = twoIdsRequirement.Scene.AutoTestSceneSetId) :=
  lookup_ids_inherited sampleBundle 9 "u" 0 twoIdsRequirement [twoIdsRequirement] _ [] _ rfl rfl

theorem GoError.wraps_refl (e : GoError) : e.Wraps e := by
  cases e <;> simp [GoError.Wraps]

theorem GoError.wraps_wrap {e e0 : GoError} (h : e.Wraps e0) (msg : String) :
    (GoError.wrap e msg).Wraps e0 := Or.inr h

theorem allCalls_append (P : List Call → Call → Prop) (tr a b : List Call) :
    AllCalls P tr (a ++ b) ↔ AllCalls P tr a ∧ AllCalls P (tr ++ a) b := by
  induction a generalizing tr with
  | nil => simp [AllCalls]
  | cons x xs ih => simp [AllCalls, ih, and_assoc]

/-- With `init'` made of calls satisfying `P`, a call that does not satisfy `P` can only
be the last one of `init' ++ [c']`. -/
theorem allCalls_last (P : List Call → Call → Prop) (tr init init' rest : List Call)
    (c c' : Call) (h : AllCalls P tr init') (heq : init ++ c :: rest = init' ++ [c'])
    (hc : ¬ P (tr ++ init) c) : init = init' ∧ c = c' ∧ rest = [] := by
  induction init' generalizing tr init with
  | nil =>
    cases init with
    | nil => simpa using heq
    | cons y ys =>
      simp only [List.cons_append, List.nil_append, List.cons.injEq] at heq
      exact absurd heq.2 (by simp)
  | cons x xs ih =>
    cases init with
    | nil =>
      simp only [List.nil_append, List.cons_append, List.cons.injEq] at heq
      simp only [List.append_nil] at hc
      exact absurd (heq.1 ▸ h.1) hc
    | cons y ys =>
      simp only [List.cons_append, List.cons.injEq] at heq
      obtain ⟨rfl, heq⟩ := heq
      have hc' : ¬ P (tr ++ [y] ++ ys) c := by simpa [List.append_assoc] using hc
      obtain ⟨h1, h2, h3⟩ := ih (tr ++ [y]) ys h.2 heq hc'
      exact ⟨by rw [h1], h2, h3⟩

section FailFast

variable {bdl : Bundle} {R : Call → GoError → GoError → Prop} {Q : GoError → Prop}

theorem Prog.FailFast.pure {α : Type} (a : α) :
    Prog.FailFast bdl R Q (Pure.pure a : Prog α) := by
  constructor
  intro tr
  exact ⟨[], by simp, trivial⟩

theorem Prog.FailFast.fail {α : Type} (e : GoError) (h : Q e) :
    Prog.FailFast bdl R Q (Prog.fail e : Prog α) := by
  constructor
  intro tr
  exact ⟨[], by simp [Prog.fail], Or.inl ⟨trivial, h⟩⟩

theorem Prog.FailFast.crash {α : Type} (s : String) :
    Prog.FailFast bdl R Q (Prog.crash s : Prog α) := by
  constructor
  intro tr
  exact ⟨[], by simp [Prog.crash], trivial⟩

theorem Prog.FailFast.bind {α β : Type} {m : Prog α} {f : α → Prog β}
    (hm : Prog.FailFast bdl R Q m) (hf : ∀ a, Prog.FailFast bdl R Q (f a)) :
    Prog.FailFast bdl R Q (m >>= f) := by
  constructor
  intro tr
  obtain ⟨new, h2, h1⟩ := hm.run tr
  simp only [Prog.bind_run, Prog.bind]
  rcases hr : m tr with ⟨out, tr'⟩
  rw [hr] at h1 h2
  simp only at h1 h2
  subst h2
  cases out with
  | ok a =>
    obtain ⟨new2, g2, g1⟩ := (hf a).run (tr ++ new)
    refine ⟨new ++ new2, by simp [g2, List.append_assoc], ?_⟩
    simp only
    cases hout : (f a (tr ++ new)).1 with
    | ok b =>
      rw [hout] at g1
      exact (allCalls_append _ _ _ _).mpr ⟨h1, g1⟩
    | panic s =>
      rw [hout] at g1
      exact (allCalls_append _ _ _ _).mpr ⟨h1, g1⟩
    | err e =>
      rw [hout] at g1
      rcases g1 with ⟨g1, hq⟩ | ⟨init, c, e0, rfl, gi, gf, gr⟩
      · exact Or.inl ⟨(allCalls_append _ _ _ _).mpr ⟨h1, g1⟩, hq⟩
      · refine Or.inr ⟨new ++ init, c, e0, by simp [List.append_assoc], ?_, ?_, gr⟩
        · exact (allCalls_append _ _ _ _).mpr ⟨h1, gi⟩
        · simpa [List.append_assoc] using gf
  | err e => exact ⟨new, rfl, h1⟩
  | panic s => exact ⟨new, rfl, h1⟩

theorem Prog.FailFast.wrapErr {α : Type} {m : Prog α} (msg : String)
    (hR : ∀ c e0 e, R c e0 e → R c e0 (.wrap e msg)) (hQ : ∀ e, Q e → Q (.wrap e msg))
    (hm : Prog.FailFast bdl R Q m) : Prog.FailFast bdl R Q (m.wrapErr msg) := by
  constructor
  intro tr
  obtain ⟨new, h2, h1⟩ := hm.run tr
  unfold Prog.wrapErr
  rcases hr : m tr with ⟨out, tr'⟩
  rw [hr] at h1 h2
  simp only at h1 h2
  subst h2
  cases out with
  | ok a => exact ⟨new, rfl, h1⟩
  | panic s => exact ⟨new, rfl, h1⟩
  | err e =>
    refine ⟨new, rfl, ?_⟩
    rcases h1 with ⟨g1, hq⟩ | ⟨init, c, e0, rfl, gi, gf, gr⟩
    · exact Or.inl ⟨g1, hQ _ hq⟩
    · exact Or.inr ⟨init, c, e0, rfl, gi, gf, hR _ _ _ gr⟩

theorem Prog.FailFast.call {α : Type} (c : Call) (answer : List Call → Except GoError α)
    (hc : ∀ tr, bdl.failure c tr = errorOf (answer tr)) (hR : ∀ e0, R c e0 e0) :
    Prog.FailFast bdl R Q (Prog.call c answer) := by
  constructor
  intro tr
  unfold Prog.call
  cases ha : answer tr with
  | ok a =>
    refine ⟨[c], rfl, ?_⟩
    simp [Clean, AllCalls, hc, ha, errorOf]
  | error e =>
    refine ⟨[c], rfl, Or.inr ⟨[], c, e, rfl, trivial, ?_, hR e⟩⟩
    simp [hc, ha, errorOf]

theorem Prog.FailFast.call_wrap {α : Type} (c : Call) (answer : List Call → Except GoError α)
    (msg : String) (hc : ∀ tr, bdl.failure c tr = errorOf (answer tr))
    (hR : ∀ e0, R c e0 (.wrap e0 msg)) :
    Prog.FailFast bdl R Q ((Prog.call c answer).wrapErr msg) := by
  constructor
  intro tr
  rw [Prog.call_wrap_run]
  cases ha : answer tr with
  | ok a =>
    refine ⟨[c], rfl, ?_⟩
    simp [Clean, AllCalls, hc, ha, errorOf]
  | error e =>
    refine ⟨[c], rfl, Or.inr ⟨[], c, e, rfl, trivial, ?_, hR e⟩⟩
    simp [hc, ha, errorOf]

end FailFast

theorem Prog.FailFast.mono {bdl : Bundle} {R R' : Call → GoError → GoError → Prop}
    {Q Q' : GoError → Prop} {α : Type} {m : Prog α}
    (hR : ∀ c e0 e, R c e0 e → R' c e0 e) (hQ : ∀ e, Q e → Q' e)
    (hm : Prog.FailFast bdl R Q m) : Prog.FailFast bdl R' Q' m := by
  constructor
  intro tr
  obtain ⟨new, h2, h1⟩ := hm.run tr
  refine ⟨new, h2, ?_⟩
  cases hout : (m tr).1 with
  | ok a => rw [hout] at h1; exact h1
  | panic s => rw [hout] at h1; exact h1
  | err e =>
    rw [hout] at h1
    rcases h1 with ⟨g1, hq⟩ | ⟨init, c, e0, rfl, gi, gf, gr⟩
    · exact Or.inl ⟨g1, hQ _ hq⟩
    · exact Or.inr ⟨init, c, e0, rfl, gi, gf, hR _ _ _ gr⟩

theorem resolveRequirement_failFast (bdl : Bundle) (projectId : Nat) (userId : String)
    (idx : Nat) (rs : AutoTestSceneParam) (reqs : List AutoTestSceneParam) :
    Prog.FailFast bdl resolverWrap (fun _ => False)
      (resolveRequirement bdl projectId userId idx rs reqs) := by
  unfold resolveRequirement doCreateSpace doCreateSceneSet doCreateScene doGetScene
    doGetSceneSet
  split_ifs <;>
  repeat
    first
    | intro _
    | apply Prog.FailFast.pure
    | apply Prog.FailFast.bind
    | (apply Prog.FailFast.call_wrap
       · intro tr; rfl
       · intro e0; exact ⟨rfl, by simp [resolverKinds, Call.kind]⟩)

theorem resolveLoop_failFast (bdl : Bundle) (projectId : Nat) (userId : String) (n idx : Nat)
    (reqs : List AutoTestSceneParam) :
    Prog.FailFast bdl resolverWrap (fun _ => False)
      (resolveLoop bdl projectId userId n idx reqs) := by
  induction n generalizing idx reqs with
  | zero => exact Prog.FailFast.pure _
  | succ n ih =>
    unfold resolveLoop
    split
    · exact Prog.FailFast.pure _
    · exact Prog.FailFast.bind (resolveRequirement_failFast _ _ _ _ _ _) (fun a => ih _ _)

/-- C12 (amended). Whenever a resolver lookup or create fails, the error returned is the
collaborator's error wrapped by `errors.Wrap` with the fixed message of the failing
operation, and the failing call is the last call issued; the position of the requirement
in the batch is not part of the error. -/
theorem resolver_error_wraps_operation (bdl : Bundle) (projectId : Nat) (userId : String)
    (reqs : List AutoTestSceneParam) (tr tr' : List Call) (e : GoError)
    (h : resolveAll bdl projectId userId reqs tr = (.err e, tr')) :
    ∃ init c e0, tr' = tr ++ init ++ [c] ∧ bdl.failure c (tr ++ init) = some e0 ∧
      c.kind ∈ resolverKinds ∧
      e = .wrap e0 (resolverOpMessage c.kind) ∧
      e.Error = resolverOpMessage c.kind ++ ": " ++ e0.Error := by
  obtain ⟨new, h2, h1⟩ := (resolveLoop_failFast bdl projectId userId reqs.length 0 reqs).run tr
  unfold resolveAll at h
  rw [h] at h1 h2
  simp only at h1 h2
  rcases h1 with ⟨-, hq⟩ | ⟨init, c, e0, rfl, -, gf, gr, gk⟩
  · exact absurd hq id
  · exact ⟨init, c, e0, by simp [h2, List.append_assoc], gf, gk, gr, by rw [gr]; rfl⟩

theorem resolver_error_wraps_operation_witness :
    ∃ init c e0,
      [Call.GetAutoTestScene (sceneGetRequest "u" sceneOnlyRequirement)] = [] ++ init ++ [c] ∧
      lookupFailsBundle.failure c ([] ++ init) = some e0 ∧
      c.kind ∈ resolverKinds ∧
      GoError.wrap (.new "boom") "get autotest scene by ID failed"
        = .wrap e0 (resolverOpMessage c.kind) ∧
      (GoError.wrap (.new "boom") "get autotest scene by ID failed").Error
        = resolverOpMessage c.kind ++ ": " ++ e0.Error :=
  resolver_error_wraps_operation lookupFailsBundle 9 "u" [fullRequirement, sceneOnlyRequirement]
    [] _ _ rfl

/-- C12 (counterexample). With a collaborator whose scene lookup fails, the batch
`[sceneOnly]` fails at position 0 and the batch `[full, sceneOnly]` fails at position 1
with the same error, so no reading of the error yields the position. -/
theorem resolver_error_position_counterexample :
    ¬ ∃ position : GoError → Nat,
      ∀ (reqs : List AutoTestSceneParam) (i : Nat) (e : GoError),
        FailsAtPosition lookupFailsBundle 9 "u" reqs i e → position e = i := by
  rintro ⟨position, H⟩
  have h0 := H [sceneOnlyRequirement] 0
    (.wrap (.new "boom") "get autotest scene by ID failed") ⟨_, _, _, _, rfl, rfl, rfl⟩
  have h1 := H [fullRequirement, sceneOnlyRequirement] 1
    (.wrap (.new "boom") "get autotest scene by ID failed") ⟨_, _, _, _, rfl, rfl, rfl⟩
  omega

/-! ## Validation -/

theorem validateFrom_first_empty (l : List AutoTestSceneParam) (idx i : Nat)
    (r : AutoTestSceneParam) (hr : l[i]? = some r) (he : r.APIs.AssetID = "")
    (hmin : ∀ j, j < i → ∀ r', l[j]? = some r' → r'.APIs.AssetID ≠ "") :
    validateFrom idx l = some (.new ("AI function functionParams requirements["
      ++ toString (idx + i) ++ "].APIs.AssetID  for " ++ Name ++ " invalid, not set")) := by
  induction l generalizing idx i with
  | nil => simp at hr
  | cons a as ih =>
    cases i with
    | zero =>
      simp only [List.getElem?_cons_zero, Option.some.injEq] at hr
      subst hr
      simp [validateFrom, he]
    | succ i =>
      have ha : a.APIs.AssetID ≠ "" := hmin 0 (by omega) a (by simp)
      simp only [validateFrom, ha, if_false]
      rw [ih (idx + 1) i (by simpa using hr)
        (fun j hj r' hr' => hmin (j + 1) (by omega) r' (by simpa using hr'))]
      have : idx + 1 + i = idx + (i + 1) := by omega
      rw [this]

theorem validateFrom_none (l : List AutoTestSceneParam) (idx : Nat)
    (h : ∀ r ∈ l, r.APIs.AssetID ≠ "") : validateFrom idx l = none := by
  induction l generalizing idx with
  | nil => rfl
  | cons a as ih =>
    have ha : a.APIs.AssetID ≠ "" := h a (by simp)
    simp only [validateFrom, ha, if_false]
    exact ih _ (fun r hr => h r (by simp [hr]))

theorem validateFrom_some (l : List AutoTestSceneParam) (idx : Nat)
    (h : ∃ r ∈ l, r.APIs.AssetID = "") : ∃ e, validateFrom idx l = some e := by
  induction l generalizing idx with
  | nil => simp at h
  | cons a as ih =>
    by_cases ha : a.APIs.AssetID = ""
    · exact ⟨_, by rw [validateFrom, if_pos ha]⟩
    · simp only [validateFrom, ha, if_false]
      obtain ⟨r, hr, he⟩ := h
      rcases List.mem_cons.mp hr with rfl | hr
      · exact absurd he ha
      · exact ih _ ⟨r, hr, he⟩

/-- C4. On a non-empty requirement list with an empty asset id, validation returns the
error whose message names the smallest index `i` with `Requirements[i].APIs.AssetID`
empty; on a non-empty list whose asset ids are all non-empty it returns no error. -/
theorem validate_names_first_empty_asset (req : FunctionParams) :
    (∀ (i : Nat) (r : AutoTestSceneParam), req.Requirements[i]? = some r →
      r.APIs.AssetID = "" →
      (∀ j, j < i → ∀ r' : AutoTestSceneParam, req.Requirements[j]? = some r' →
        r'.APIs.AssetID ≠ "") →
      validateParamsForCreateAutoTestScene req = some (.new
        ("AI function functionParams requirements[" ++ toString i
          ++ "].APIs.AssetID  for create-autotest-scene invalid, not set"))) ∧
    (req.Requirements ≠ [] → (∀ r ∈ req.Requirements, r.APIs.AssetID ≠ "") →
      validateParamsForCreateAutoTestScene req = none) := by
  constructor
  · intro i r hr he hmin
    have hne : req.Requirements.length ≠ 0 := by
      intro h0
      rw [List.length_eq_zero] at h0
      simp [h0] at hr
    unfold validateParamsForCreateAutoTestScene
    rw [if_neg hne, validateFrom_first_empty _ 0 i r hr he hmin]
    simp [Name, String.append_assoc]
  · intro hne hall
    unfold validateParamsForCreateAutoTestScene
    rw [if_neg (by simpa [List.length_eq_zero] using hne)]
    exact validateFrom_none _ _ hall

/-- C3. A batch that fails validation (no requirement, or a requirement with an empty
asset id) makes `createAutoTestSceneForAPIsAndAutoTestSceneID` return an error without
any collaborator call: the trace is unchanged. -/
theorem invalid_batch_rejected_without_calls (lib : JsonLib) (bdl : Bundle)
    (systemMessage userMessage : String) (req : ApplyRequest) (fp : FunctionParams)
    (tr : List Call) (hreq : req.FunctionParams = .decoded fp)
    (hbad : fp.Requirements = [] ∨ ∃ r ∈ fp.Requirements, r.APIs.AssetID = "") :
    ∃ e, validateParamsForCreateAutoTestScene fp = some e ∧
      createAutoTestSceneForAPIsAndAutoTestSceneID lib bdl systemMessage userMessage req tr
        = (.err (.wrap e "validateParamsForCreateAutoTestScene failed"), tr) := by
  have hv : ∃ e, validateParamsForCreateAutoTestScene fp = some e := by
    unfold validateParamsForCreateAutoTestScene
    rcases hbad with h | h
    · exact ⟨_, by rw [if_pos (by simp [h])]⟩
    · split_ifs
      · exact ⟨_, rfl⟩
      · exact validateFrom_some _ _ h
  obtain ⟨e, he⟩ := hv
  refine ⟨e, he, ?_⟩
  unfold createAutoTestSceneForAPIsAndAutoTestSceneID
  rw [hreq]
  simp only [he]
  rfl

theorem invalid_batch_rejected_without_calls_witness :
    ∃ e, validateParamsForCreateAutoTestScene { Requirements := [fullRequirement, {}] } = some e ∧
      createAutoTestSceneForAPIsAndAutoTestSceneID sampleLib sampleBundle "sys" "usr"
        { FunctionParams := .decoded { Requirements := [fullRequirement, {}] } } []
        = (.err (.wrap e "validateParamsForCreateAutoTestScene failed"), []) :=
  invalid_batch_rejected_without_calls sampleLib sampleBundle "sys" "usr"
    { FunctionParams := .decoded { Requirements := [fullRequirement, {}] } }
    { Requirements := [fullRequirement, {}] } [] rfl (Or.inr ⟨{}, by simp, rfl⟩)

/-! ## `Function.Callback` -/

theorem prettifyBody_run (lib : JsonLib) (a : APIInfoV2) (tr : List Call) :
    (∃ a', prettifyBody lib a tr = (.ok a', tr) ∧ a'.Name = a.Name ∧ a'.Method = a.Method ∧
        a'.URL = a.URL ∧
        (a.Body.BodyType = APIBodyTypeApplicationJSON → ∃ s, a.Body.Content = .string s)) ∨
    (∃ msg, prettifyBody lib a tr = (.panic msg, tr) ∧
        a.Body.BodyType = APIBodyTypeApplicationJSON ∧ ∀ s, a.Body.Content ≠ .string s) := by
  unfold prettifyBody
  split_ifs with h
  · cases hc : a.Body.Content
    all_goals
      first
      | exact Or.inl ⟨_, rfl, rfl, rfl, rfl, fun _ => ⟨_, rfl⟩⟩
      | exact Or.inr ⟨_, rfl, h, fun s hs => by cases hs⟩
  · exact Or.inl ⟨_, rfl, rfl, rfl, rfl, fun h' => absurd h' h⟩

/-- The runs of `Callback` on an input of the right type and a payload that decodes:
a panic of the type assertion, a staged result, a committed result, or a commit error. -/
theorem Callback_run (lib : JsonLib) (bdl : Bundle) (arguments : String)
    (i : AutoTestSceneFunctionInput) (needAdjust : Bool) (tr : List Call) (apiInfo : APIInfoV2)
    (hdec : lib.UnmarshalAPIInfoV2 arguments = .ok apiInfo) :
    (∃ msg, Callback lib bdl arguments (.autoTestScene i) needAdjust tr = (.panic msg, tr) ∧
        apiInfo.Body.BodyType = APIBodyTypeApplicationJSON ∧
        ∀ s, apiInfo.Body.Content ≠ .string s) ∨
    (∃ info : APIInfoV2, info.Name = i.APIName ∧ info.Method = i.APIMethod ∧
        info.URL = i.APIUrl ∧
        (apiInfo.Body.BodyType = APIBodyTypeApplicationJSON →
          ∃ s, apiInfo.Body.Content = .string s) ∧
        ((needAdjust = true ∧
            Callback lib bdl arguments (.autoTestScene i) needAdjust tr =
              (.ok (callbackMeta i (callbackRequest lib i { APIInfo := info, Loop := none }) 0),
                tr)) ∨
          (needAdjust = false ∧ ∃ n,
            bdl.CreateAutoTestSceneStep
              (callbackRequest lib i { APIInfo := info, Loop := none }) tr = .ok n ∧
            Callback lib bdl arguments (.autoTestScene i) needAdjust tr =
              (.ok (callbackMeta i (callbackRequest lib i { APIInfo := info, Loop := none }) n),
                tr ++ [.CreateAutoTestSceneStep
                  (callbackRequest lib i { APIInfo := info, Loop := none })])) ∨
          (needAdjust = false ∧ ∃ e,
            bdl.CreateAutoTestSceneStep
              (callbackRequest lib i { APIInfo := info, Loop := none }) tr = .error e ∧
            Callback lib bdl arguments (.autoTestScene i) needAdjust tr =
              (.err (.wrap e "bundle CreateTestCase failed"),
                tr ++ [.CreateAutoTestSceneStep
                  (callbackRequest lib i { APIInfo := info, Loop := none })])))) := by
  simp only [Callback, hdec, Prog.bind_run]
  rcases prettifyBody_run lib
    { apiInfo with Name := i.APIName, Method := i.APIMethod, URL := i.APIUrl } tr with
    ⟨a', hp, h1, h2, h3, h4⟩ | ⟨msg, hp, h1, h2⟩
  · refine Or.inr ⟨a', h1, h2, h3, h4, ?_⟩
    rw [Prog.bind_ok hp]
    cases needAdjust with
    | true => exact Or.inl ⟨rfl, rfl⟩
    | false =>
      simp only [Bool.false_eq_true, if_false, Prog.bind_run, Prog.bind_call_wrap_run,
        Prog.pure_run, false_and, false_or, true_and]
      cases hc : bdl.CreateAutoTestSceneStep
          (callbackRequest lib i { APIInfo := a', Loop := none }) tr with
      | ok n => exact Or.inl ⟨n, rfl, rfl⟩
      | error e => exact Or.inr ⟨e, rfl, rfl⟩
  · exact Or.inl ⟨msg, by rw [Prog.bind_panic hp], h1, h2⟩

theorem scoped_callbackRequest (lib : JsonLib) (i : AutoTestSceneFunctionInput)
    (info : APIInfoV2) (h1 : info.Name = i.APIName) (h2 : info.Method = i.APIMethod)
    (h3 : info.URL = i.APIUrl) :
    Scoped lib i (callbackRequest lib i { APIInfo := info, Loop := none }) :=
  ⟨rfl, rfl, rfl, rfl, h1, ⟨_, rfl, h1, h2, h3⟩⟩

/-- C16. For every input and every payload that decodes, the scene-step write request
that `Callback` builds (the one in the returned result and the one passed to the commit)
has `SpaceID`, `SceneID`, `UserID`, `APISpecID` and `Name` taken from the input, and its
step value serializes a step whose API name, method and URL are the input's, whatever the
provider returned; the request is built whenever the body content passes the type
assertion. -/
theorem callback_request_scoped (lib : JsonLib) (bdl : Bundle) (arguments : String)
    (i : AutoTestSceneFunctionInput) (needAdjust : Bool) (tr : List Call) (apiInfo : APIInfoV2)
    (hdec : lib.UnmarshalAPIInfoV2 arguments = .ok apiInfo) :
    ∃ new, (Callback lib bdl arguments (.autoTestScene i) needAdjust tr).2 = tr ++ new ∧
      (∀ m, (Callback lib bdl arguments (.autoTestScene i) needAdjust tr).1 = .ok m →
        Scoped lib i m.Req) ∧
      (∀ req, Call.CreateAutoTestSceneStep req ∈ new → Scoped lib i req) ∧
      ((apiInfo.Body.BodyType = APIBodyTypeApplicationJSON →
          ∃ s, apiInfo.Body.Content = .string s) →
        (needAdjust = true →
          ∃ m, (Callback lib bdl arguments (.autoTestScene i) needAdjust tr).1 = .ok m) ∧
        (needAdjust = false → ∃ req, new = [.CreateAutoTestSceneStep req])) := by
  rcases Callback_run lib bdl arguments i needAdjust tr apiInfo hdec with
    ⟨msg, hrun, hb1, hb2⟩ |
    ⟨info, h1, h2, h3, -, ⟨hn, hrun⟩ | ⟨hn, n, -, hrun⟩ | ⟨hn, e, -, hrun⟩⟩
  · refine ⟨[], by simp [hrun], by simp [hrun], by simp, ?_⟩
    intro hbody
    obtain ⟨s, hs⟩ := hbody hb1
    exact absurd hs (hb2 s)
  · refine ⟨[], by simp [hrun], ?_, by simp, ?_⟩
    · intro m hm
      rw [hrun] at hm
      cases hm
      exact scoped_callbackRequest lib i info h1 h2 h3
    · intro _
      exact ⟨fun _ => ⟨_, by rw [hrun]⟩, fun hf => by simp [hn] at hf⟩
  · refine ⟨[_], by rw [hrun], ?_, ?_, ?_⟩
    · intro m hm
      rw [hrun] at hm
      cases hm
      exact scoped_callbackRequest lib i info h1 h2 h3
    · intro req hreq
      simp only [List.mem_singleton, Call.CreateAutoTestSceneStep.injEq] at hreq
      subst hreq
      exact scoped_callbackRequest lib i info h1 h2 h3
    · intro _
      exact ⟨fun ht => by simp [hn] at ht, fun _ => ⟨_, rfl⟩⟩
  · refine ⟨[_], by rw [hrun], ?_, ?_, ?_⟩
    · intro m hm
      rw [hrun] at hm
      cases hm
    · intro req hreq
      simp only [List.mem_singleton, Call.CreateAutoTestSceneStep.injEq] at hreq
      subst hreq
      exact scoped_callbackRequest lib i info h1 h2 h3
    · intro _
      exact ⟨fun ht => by simp [hn] at ht, fun _ => ⟨_, rfl⟩⟩

theorem callback_request_scoped_witness :
    ∃ new, (Callback sampleLib sampleBundle "args" (.autoTestScene sampleInput) false []).2
        = [] ++ new ∧
      (∀ m, (Callback sampleLib sampleBundle "args" (.autoTestScene sampleInput) false []).1
          = .ok m → Scoped sampleLib sampleInput m.Req) ∧
      (∀ req, Call.CreateAutoTestSceneStep req ∈ new → Scoped sampleLib sampleInput req) ∧
      (((({ Name := "from-provider", Method := "DELETE", URL := "/x" } : APIInfoV2).Body.BodyType
            = APIBodyTypeApplicationJSON) →
          ∃ s, ({ Name := "from-provider", Method := "DELETE", URL := "/x" } :
            APIInfoV2).Body.Content = .string s) →
        (false = true →
          ∃ m, (Callback sampleLib sampleBundle "args" (.autoTestScene sampleInput) false []).1
            = .ok m) ∧
        (false = false → ∃ req, new = [.CreateAutoTestSceneStep req])) :=
  callback_request_scoped sampleLib sampleBundle "args" sampleInput false []
    { Name := "from-provider", Method := "DELETE", URL := "/x" } rfl

/-- C13. If the payload fails JSON decoding, `Callback` returns an error, no result, and
issues no call (so no commit); and with `needAdjust = false`, if the commit call fails,
`Callback` returns the wrapped commit error, not a result. -/
theorem callback_hard_errors (lib : JsonLib) (bdl : Bundle) (arguments : String)
    (i : AutoTestSceneFunctionInput) (tr : List Call) :
    (∀ needAdjust e, lib.UnmarshalAPIInfoV2 arguments = .error e →
      Callback lib bdl arguments (.autoTestScene i) needAdjust tr =
        (.err (.wrap e "Unmarshal arguments to APIInfoV2 failed"), tr)) ∧
    (∀ req e0,
      (Callback lib bdl arguments (.autoTestScene i) false tr).2
        = tr ++ [.CreateAutoTestSceneStep req] →
      bdl.CreateAutoTestSceneStep req tr = .error e0 →
      (Callback lib bdl arguments (.autoTestScene i) false tr).1
        = .err (.wrap e0 "bundle CreateTestCase failed")) := by
  constructor
  · intro needAdjust e he
    simp [Callback, he, Prog.fail]
  · intro req e0 htr hfail
    cases hdec : lib.UnmarshalAPIInfoV2 arguments with
    | error e =>
      simp [Callback, hdec, Prog.fail] at htr
    | ok apiInfo =>
      rcases Callback_run lib bdl arguments i false tr apiInfo hdec with
        ⟨msg, hrun, -, -⟩ |
        ⟨info, -, -, -, -, ⟨hn, -⟩ | ⟨-, n, hok, hrun⟩ | ⟨-, e, herr, hrun⟩⟩
      · simp [hrun] at htr
      · cases hn
      · rw [hrun] at htr
        simp only [List.append_cancel_left_eq, List.cons.injEq, and_true,
          Call.CreateAutoTestSceneStep.injEq] at htr
        rw [htr, hfail] at hok
        cases hok
      · rw [hrun] at htr
        simp only [List.append_cancel_left_eq, List.cons.injEq, and_true,
          Call.CreateAutoTestSceneStep.injEq] at htr
        rw [htr, hfail] at herr
        cases herr
        rw [hrun]

/-- With `needAdjust = true`, a payload that decodes yields no call at all and either a
staged result whose step id is 0 or the panic of the type assertion on the body content. -/
theorem callback_staged_unless_panic (lib : JsonLib) (bdl : Bundle) (arguments : String)
    (i : AutoTestSceneFunctionInput) (tr : List Call) (apiInfo : APIInfoV2)
    (hdec : lib.UnmarshalAPIInfoV2 arguments = .ok apiInfo) :
    (Callback lib bdl arguments (.autoTestScene i) true tr).2 = tr ∧
      ((∃ m, (Callback lib bdl arguments (.autoTestScene i) true tr).1 = .ok m ∧
          m.AutoTestSceneStepId = 0) ∨
        (∃ msg, (Callback lib bdl arguments (.autoTestScene i) true tr).1 = .panic msg ∧
          apiInfo.Body.BodyType = APIBodyTypeApplicationJSON ∧
          ∀ s, apiInfo.Body.Content ≠ .string s)) := by
  rcases Callback_run lib bdl arguments i true tr apiInfo hdec with
    ⟨msg, hrun, hb1, hb2⟩ |
    ⟨info, -, -, -, -, ⟨-, hrun⟩ | ⟨hn, -⟩ | ⟨hn, -⟩⟩
  · exact ⟨by rw [hrun], Or.inr ⟨msg, by rw [hrun], hb1, hb2⟩⟩
  · exact ⟨by rw [hrun], Or.inl ⟨_, by rw [hrun], rfl⟩⟩
  · cases hn
  · cases hn

/-- With `needAdjust = false`, a payload that decodes yields either the panic of the
type assertion (and no call), or exactly one commit call; when that call succeeds the
result carries the step id it returned and the request and metadata of the staged
result. -/
theorem callback_commits_once_unless_panic (lib : JsonLib) (bdl : Bundle) (arguments : String)
    (i : AutoTestSceneFunctionInput) (tr : List Call) (apiInfo : APIInfoV2)
    (hdec : lib.UnmarshalAPIInfoV2 arguments = .ok apiInfo) :
    (∃ msg, Callback lib bdl arguments (.autoTestScene i) false tr = (.panic msg, tr) ∧
        apiInfo.Body.BodyType = APIBodyTypeApplicationJSON ∧
        ∀ s, apiInfo.Body.Content ≠ .string s) ∨
    (∃ req, (Callback lib bdl arguments (.autoTestScene i) false tr).2
          = tr ++ [.CreateAutoTestSceneStep req] ∧
        (Callback lib bdl arguments (.autoTestScene i) true tr).1
          = .ok (callbackMeta i req 0) ∧
        ∀ n, bdl.CreateAutoTestSceneStep req tr = .ok n →
          (Callback lib bdl arguments (.autoTestScene i) false tr).1
            = .ok (callbackMeta i req n)) := by
  simp only [Callback, hdec, Prog.bind_run]
  rcases prettifyBody_run lib
    { apiInfo with Name := i.APIName, Method := i.APIMethod, URL := i.APIUrl } tr with
    ⟨a', hp, -, -, -, -⟩ | ⟨msg, hp, h1, h2⟩
  · refine Or.inr ⟨callbackRequest lib i { APIInfo := a', Loop := none }, ?_, ?_, ?_⟩
    · rw [Prog.bind_ok hp]
      simp only [Bool.false_eq_true, if_false, Prog.bind_run, Prog.bind_call_wrap_run]
      split <;> rfl
    · rw [Prog.bind_ok hp]
      rfl
    · intro n hn
      rw [Prog.bind_ok hp]
      simp only [Bool.false_eq_true, if_false, Prog.bind_run, Prog.bind_call_wrap_run, hn]
      rfl
  · exact Or.inl ⟨msg, by rw [Prog.bind_panic hp], h1, h2⟩

/-- A run in which the commit fails: the error is returned, no result. -/
theorem callback_commit_failure_run :
    ∃ req, Callback sampleLib commitFailsBundle "args" (.autoTestScene sampleInput) false []
      = (.err (.wrap (.new "db down") "bundle CreateTestCase failed"),
          [.CreateAutoTestSceneStep req]) :=
  ⟨_, rfl⟩

/-- C5 (failing input). The provider returns a payload whose JSON-typed body content is
an object: with `needAdjust = true` the unchecked type assertion panics and no staged
result is returned. -/
theorem callback_adjust_panics_on_object_body :
    Callback sampleLib sampleBundle objectBodyArguments (.autoTestScene sampleInput) true []
      = (.panic "interface conversion: interface \x7b\x7d is not string", []) := rfl

/-- C6 (failing input). On the same payload with `needAdjust = false` the type assertion
panics before the commit: the commit capability is called zero times and no result is
returned. -/
theorem callback_commit_panics_on_object_body :
    Callback sampleLib sampleBundle objectBodyArguments (.autoTestScene sampleInput) false []
      = (.panic "interface conversion: interface \x7b\x7d is not string", []) := rfl

theorem wrapsCause_wrap (msg : String) (c : Call) (e0 e : GoError) (h : wrapsCause c e0 e) :
    wrapsCause c e0 (.wrap e msg) := GoError.wraps_wrap h msg

theorem wrapsCause_call_wrap (msg : String) (c : Call) (e0 : GoError) :
    wrapsCause c e0 (.wrap e0 msg) := GoError.wraps_wrap (GoError.wraps_refl e0) msg

theorem resolveAll_failFast (bdl : Bundle) (projectId : Nat) (userId : String)
    (reqs : List AutoTestSceneParam) :
    Prog.FailFast bdl wrapsCause anyError (resolveAll bdl projectId userId reqs) :=
  Prog.FailFast.mono (fun c e0 e h => by rw [h.1]; exact wrapsCause_call_wrap _ c e0)
    (fun _ h => absurd h id) (resolveLoop_failFast bdl projectId userId reqs.length 0 reqs)

theorem doGetAPIOperation_failFast (bdl : Bundle) (orgId : Nat) (userId : String)
    (apiIndexId : Nat) (msg : String) :
    Prog.FailFast bdl wrapsCause anyError (doGetAPIOperation bdl orgId userId apiIndexId msg) :=
  Prog.FailFast.call_wrap _ _ _ (fun _ => rfl) (wrapsCause_call_wrap _ _)

theorem registerInputs_failFast (bdl : Bundle) (userId : String) (sc : OutPutAutoTestScene)
    (apiIndexId : Nat) (apiDetail : APIOperation) (ps : List Parameter) :
    Prog.FailFast bdl wrapsCause anyError
      (registerInputs bdl userId sc apiIndexId apiDetail ps) := by
  induction ps with
  | nil => exact Prog.FailFast.pure _
  | cons p ps ih =>
    exact Prog.FailFast.bind
      (Prog.FailFast.call_wrap _ _ _ (fun _ => rfl) (wrapsCause_call_wrap _ _)) (fun _ => ih)

theorem registerOutputs_failFast (bdl : Bundle) (userId : String) (sc : OutPutAutoTestScene)
    (apiIndexId : Nat) (apiDetail : APIOperation) (ps : List Response) :
    Prog.FailFast bdl wrapsCause anyError
      (registerOutputs bdl userId sc apiIndexId apiDetail ps) := by
  induction ps with
  | nil => exact Prog.FailFast.pure _
  | cons p ps ih =>
    exact Prog.FailFast.bind
      (Prog.FailFast.call_wrap _ _ _ (fun _ => rfl) (wrapsCause_call_wrap _ _)) (fun _ => ih)

theorem registerAPI_failFast (bdl : Bundle) (orgId : Nat) (userId : String)
    (sc : OutPutAutoTestScene) (apiIndexId : Nat) :
    Prog.FailFast bdl wrapsCause anyError (registerAPI bdl orgId userId sc apiIndexId) :=
  Prog.FailFast.bind (doGetAPIOperation_failFast _ _ _ _ _) (fun _ =>
    Prog.FailFast.bind (registerInputs_failFast _ _ _ _ _ _) (fun _ =>
      Prog.FailFast.bind (registerInputs_failFast _ _ _ _ _ _) (fun _ =>
        registerOutputs_failFast _ _ _ _ _ _)))

theorem registerAPIs_failFast (bdl : Bundle) (orgId : Nat) (userId : String)
    (sc : OutPutAutoTestScene) (ids : List Nat) :
    Prog.FailFast bdl wrapsCause anyError (registerAPIs bdl orgId userId sc ids) := by
  induction ids with
  | nil => exact Prog.FailFast.pure _
  | cons a as ih => exact Prog.FailFast.bind (registerAPI_failFast _ _ _ _ _) (fun _ => ih)

theorem registerAll_failFast (bdl : Bundle) (orgId : Nat) (userId : String)
    (reqs : List AutoTestSceneParam) :
    Prog.FailFast bdl wrapsCause anyError (registerAll bdl orgId userId reqs) := by
  induction reqs with
  | nil => exact Prog.FailFast.pure _
  | cons a as ih => exact Prog.FailFast.bind (registerAPIs_failFast _ _ _ _ _) (fun _ => ih)

theorem prettifyBody_failFast (bdl : Bundle) (lib : JsonLib) (a : APIInfoV2) :
    Prog.FailFast bdl wrapsCause anyError (prettifyBody lib a) := by
  unfold prettifyBody
  split_ifs
  · split
    · exact Prog.FailFast.pure _
    · exact Prog.FailFast.crash _
  · exact Prog.FailFast.pure _

theorem Callback_failFast (lib : JsonLib) (bdl : Bundle) (arguments : String)
    (input : CallbackInput) (needAdjust : Bool) :
    Prog.FailFast bdl wrapsCause anyError (Callback lib bdl arguments input needAdjust) := by
  unfold Callback
  split
  · exact Prog.FailFast.fail _ trivial
  · split
    · exact Prog.FailFast.fail _ trivial
    · refine Prog.FailFast.bind (prettifyBody_failFast _ _ _) (fun a => ?_)
      cases needAdjust with
      | true => exact Prog.FailFast.pure _
      | false =>
        exact Prog.FailFast.bind
          (Prog.FailFast.call_wrap _ _ _ (fun _ => rfl) (wrapsCause_call_wrap _ _))
          (fun _ => Prog.FailFast.pure _)

theorem processSingle_failFast (lib : JsonLib) (bdl : Bundle) (cfg : TaskConfig)
    (atsp : AutoTestSceneParam) (callbackInput : AutoTestSceneFunctionInput)
    (apiIndexID orgID : Nat) (userID : String) (sceneStepID sceneID : Nat)
    (results : List AutoTestSceneMeta) :
    Prog.FailFast bdl wrapsCause anyError
      (processSingleAPIAutoTestSceneStep lib bdl cfg atsp callbackInput apiIndexID orgID userID
        sceneStepID sceneID results) := by
  unfold processSingleAPIAutoTestSceneStep
  refine Prog.FailFast.bind (doGetAPIOperation_failFast _ _ _ _ _) (fun apiDetail => ?_)
  split_ifs
  · exact Prog.FailFast.pure _
  · refine Prog.FailFast.bind ?_ (fun ctx => ?_)
    · exact Prog.FailFast.bind
        (Prog.FailFast.call _ _ (fun _ => rfl) (fun e0 => GoError.wraps_refl e0))
        (fun _ => Prog.FailFast.pure _)
    · refine Prog.FailFast.bind ?_ (fun _ => Prog.FailFast.pure _)
      exact Prog.FailFast.bind
        (Prog.FailFast.call _ _ (fun _ => rfl) (fun e0 => GoError.wraps_refl e0))
        (fun _ => Callback_failFast _ _ _ _ _)

theorem generateAPI_failFast (lib : JsonLib) (bdl : Bundle) (cfg : TaskConfig) (orgId : Nat)
    (userId : String) (tsp : AutoTestSceneParam) (apiIndexId : Nat)
    (results : List AutoTestSceneMeta) :
    Prog.FailFast bdl wrapsCause anyError
      (generateAPI lib bdl cfg orgId userId tsp apiIndexId results) :=
  Prog.FailFast.bind (doGetAPIOperation_failFast _ _ _ _ _) (fun _ =>
    Prog.FailFast.wrapErr _ (wrapsCause_wrap _) (fun _ _ => trivial)
      (processSingle_failFast _ _ _ _ _ _ _ _ _ _ _))

theorem generateAPIs_failFast (lib : JsonLib) (bdl : Bundle) (cfg : TaskConfig) (orgId : Nat)
    (userId : String) (tsp : AutoTestSceneParam) (ids : List Nat)
    (results : List AutoTestSceneMeta) :
    Prog.FailFast bdl wrapsCause anyError
      (generateAPIs lib bdl cfg orgId userId tsp ids results) := by
  induction ids generalizing results with
  | nil => exact Prog.FailFast.pure _
  | cons a as ih =>
    exact Prog.FailFast.bind (generateAPI_failFast _ _ _ _ _ _ _ _) (fun _ => ih _)

theorem generateAll_failFast (lib : JsonLib) (bdl : Bundle) (cfg : TaskConfig) (orgId : Nat)
    (userId : String) (reqs : List AutoTestSceneParam) (results : List AutoTestSceneMeta) :
    Prog.FailFast bdl wrapsCause anyError
      (generateAll lib bdl cfg orgId userId reqs results) := by
  induction reqs generalizing results with
  | nil => exact Prog.FailFast.pure _
  | cons a as ih =>
    exact Prog.FailFast.bind (generateAPIs_failFast _ _ _ _ _ _ _ _) (fun _ => ih _)

theorem createAutoTestScene_failFast (lib : JsonLib) (bdl : Bundle)
    (systemMessage userMessage : String) (req : ApplyRequest) :
    Prog.FailFast bdl wrapsCause anyError
      (createAutoTestSceneForAPIsAndAutoTestSceneID lib bdl systemMessage userMessage req) := by
  unfold createAutoTestSceneForAPIsAndAutoTestSceneID
  split
  · exact Prog.FailFast.fail _ trivial
  · exact Prog.FailFast.fail _ trivial
  · split
    · exact Prog.FailFast.fail _ trivial
    · exact Prog.FailFast.bind (resolveAll_failFast _ _ _ _) (fun _ =>
        Prog.FailFast.bind (registerAll_failFast _ _ _ _) (fun _ =>
          Prog.FailFast.bind (generateAll_failFast _ _ _ _ _ _ _) (fun _ =>
            Prog.FailFast.pure _)))

/-- C17. If a collaborator call made by `createAutoTestSceneForAPIsAndAutoTestSceneID`
fails, that call is the last call issued and the function returns an error that wraps
the collaborator's error, hence no data: whatever had been collected is not returned and
no later requirement or sibling unit is processed. -/
theorem batch_fails_fast (lib : JsonLib) (bdl : Bundle) (systemMessage userMessage : String)
    (req : ApplyRequest) (init rest : List Call) (c : Call) (e0 : GoError)
    (htrace : (createAutoTestSceneForAPIsAndAutoTestSceneID lib bdl systemMessage userMessage
      req []).2 = init ++ c :: rest)
    (hfail : bdl.failure c init = some e0) :
    rest = [] ∧
      ∃ e, (createAutoTestSceneForAPIsAndAutoTestSceneID lib bdl systemMessage userMessage
        req []).1 = .err e ∧ e.Wraps e0 := by
  obtain ⟨new, h2, h1⟩ :=
    (createAutoTestScene_failFast lib bdl systemMessage userMessage req).run []
  rw [htrace, List.nil_append] at h2
  have hnot : ¬ (fun hist c => bdl.failure c hist = none) ([] ++ init) c := by
    simp [hfail]
  have hclean : ¬ Clean bdl [] new := by
    intro hc
    rw [← h2] at hc
    have := ((allCalls_append _ _ _ _).mp hc).2.1
    exact hnot this
  cases hout : (createAutoTestSceneForAPIsAndAutoTestSceneID lib bdl systemMessage userMessage
      req []).1 with
  | ok a => rw [hout] at h1; exact absurd h1 hclean
  | panic s => rw [hout] at h1; exact absurd h1 hclean
  | err e =>
    rw [hout] at h1
    rcases h1 with ⟨hc, -⟩ | ⟨init', c', e0', rfl, gi, gf, gr⟩
    · exact absurd hc hclean
    · obtain ⟨rfl, rfl, rfl⟩ := allCalls_last _ [] init init' rest c c' gi h2 hnot
      rw [List.nil_append] at gf
      rw [gf] at hfail
      cases hfail
      exact ⟨rfl, e, rfl, gr⟩

theorem batch_fails_fast_witness :
    ([] : List Call) = [] ∧
      ∃ e, (createAutoTestSceneForAPIsAndAutoTestSceneID sampleLib secondChatFailsBundle "sys"
        "usr" (sampleRequest [twoAPIsRequirement] true) []).1 = .err e ∧
        e.Wraps (.new "llm down") :=
  batch_fails_fast sampleLib secondChatFailsBundle "sys" "usr"
    (sampleRequest [twoAPIsRequirement] true)
    (List.take 15 (createAutoTestSceneForAPIsAndAutoTestSceneID sampleLib secondChatFailsBundle
      "sys" "usr" (sampleRequest [twoAPIsRequirement] true) []).2)
    []
    (.ChatCompletion
      (chatMessages sampleLib { systemMessage := "sys", userMessage := "usr", needAdjust := true }
        { ID := 102, Description := "op", Method := "GET", Path := "/p",
          Parameters := [{ Name := "q" }], Headers := [{ Name := "h" }],
          Responses := [{ StatusCode := "200" }] }
        (contextPromptText sampleLib
          { SceneInputs := .object [], PreSceneStepsOutputs := .array [],
            PreConfigSheetsOutputs := .array [], GlobalConfigOutputs := .object [],
            MockInputs := .null }))
      (functionInput "u" twoAPIsRequirement 2
        { ID := 102, Description := "op", Method := "GET", Path := "/p",
          Parameters := [{ Name := "q" }], Headers := [{ Name := "h" }],
          Responses := [{ StatusCode := "200" }] }))
    (.new "llm down") rfl rfl

/-! ## Registration of scene inputs and outputs -/

theorem registerInputs_ok (bdl : Bundle) (userId : String) (sc : OutPutAutoTestScene)
    (apiIndexId : Nat) (apiDetail : APIOperation) (ps : List Parameter) (tr tr' : List Call)
    (h : registerInputs bdl userId sc apiIndexId apiDetail ps tr = (.ok (), tr')) :
    tr' = tr ++ ps.map (fun p => .CreateAutoTestSceneInput (sceneInputRequest userId sc p)) := by
  induction ps generalizing tr with
  | nil =>
    simp only [registerInputs, Prog.pure_run, Prod.mk.injEq, true_and] at h
    simp [h]
  | cons p ps ih =>
    simp only [registerInputs, Prog.bind_run, Prog.bind_call_wrap_run] at h
    split at h
    · rw [ih _ h]
      simp [List.append_assoc]
    · simp at h

theorem registerOutputs_ok (bdl : Bundle) (userId : String) (sc : OutPutAutoTestScene)
    (apiIndexId : Nat) (apiDetail : APIOperation) (ps : List Response) (tr tr' : List Call)
    (h : registerOutputs bdl userId sc apiIndexId apiDetail ps tr = (.ok (), tr')) :
    tr' = tr ++ ps.map (fun p => .CreateAutoTestSceneOutput (sceneOutputRequest userId sc p)) := by
  induction ps generalizing tr with
  | nil =>
    simp only [registerOutputs, Prog.pure_run, Prod.mk.injEq, true_and] at h
    simp [h]
  | cons p ps ih =>
    simp only [registerOutputs, Prog.bind_run, Prog.bind_call_wrap_run] at h
    split at h
    · rw [ih _ h]
      simp [List.append_assoc]
    · simp at h

/-- A sequence that ends in `ok`: both parts end in `ok`. -/
theorem Prog.bind_ok_inv {α β : Type} {m : Prog α} {f : α → Prog β} {tr tr' : List Call}
    {b : β} (h : Prog.bind m f tr = (.ok b, tr')) :
    ∃ a tr1, m tr = (.ok a, tr1) ∧ f a tr1 = (.ok b, tr') := by
  unfold Prog.bind at h
  split at h
  · rename_i a tr1 heq
    exact ⟨a, tr1, heq, h⟩
  · simp at h
  · simp at h

/-- One iteration of the inner loop of the registration pass that ends without error
issues the registration block of its API against the triple it is given. -/
theorem registerAPI_ok (bdl : Bundle) (orgId : Nat) (userId : String)
    (sc : OutPutAutoTestScene) (apiIndexId : Nat) (tr tr' : List Call)
    (h : registerAPI bdl orgId userId sc apiIndexId tr = (.ok (), tr')) :
    ∃ block, tr' = tr ++ block ∧ RegisteredFor bdl orgId userId sc apiIndexId tr block := by
  simp only [registerAPI, doGetAPIOperation, Prog.bind_run, Prog.bind_call_wrap_run] at h
  split at h
  · rename_i apiDetail hop
    obtain ⟨_, tr1, h1, h⟩ := Prog.bind_ok_inv h
    obtain ⟨_, tr2, h2, h3⟩ := Prog.bind_ok_inv h
    have e1 := registerInputs_ok _ _ _ _ _ _ _ _ h1
    have e2 := registerInputs_ok _ _ _ _ _ _ _ _ h2
    have e3 := registerOutputs_ok _ _ _ _ _ _ _ _ h3
    refine ⟨_, ?_, apiDetail, apiDetail.Parameters.map (sceneInputRequest userId sc),
      apiDetail.Headers.map (sceneInputRequest userId sc),
      apiDetail.Responses.map (sceneOutputRequest userId sc), hop, rfl, ?_, ?_, ?_⟩
    · rw [e3, e2, e1]
      simp [List.map_map, Function.comp_def]
    · rw [List.forall₂_map_right_iff]
      exact List.forall₂_same.mpr (fun p _ => ⟨rfl, rfl, rfl, rfl, rfl, rfl⟩)
    · rw [List.forall₂_map_right_iff]
      exact List.forall₂_same.mpr (fun p _ => ⟨rfl, rfl, rfl, rfl, rfl, rfl⟩)
    · rw [List.forall₂_map_right_iff]
      exact List.forall₂_same.mpr (fun p _ => ⟨rfl, rfl, rfl, rfl, rfl, rfl⟩)
  · simp at h

theorem registrationBlocks_append (bdl : Bundle) (orgId : Nat) (userId : String)
    (l1 l2 : List (OutPutAutoTestScene × Nat)) (tr n1 n2 : List Call)
    (h1 : RegistrationBlocks bdl orgId userId l1 tr n1)
    (h2 : RegistrationBlocks bdl orgId userId l2 (tr ++ n1) n2) :
    RegistrationBlocks bdl orgId userId (l1 ++ l2) tr (n1 ++ n2) := by
  induction l1 generalizing tr n1 with
  | nil =>
    simp only [RegistrationBlocks] at h1
    subst h1
    simpa using h2
  | cons a as ih =>
    obtain ⟨sc, apiIndexId⟩ := a
    obtain ⟨block, more, rfl, hb, hm⟩ := h1
    refine ⟨block, more ++ n2, by simp [List.append_assoc], hb, ?_⟩
    exact ih _ _ hm (by simpa [List.append_assoc] using h2)

theorem registerAPIs_ok (bdl : Bundle) (orgId : Nat) (userId : String)
    (sc : OutPutAutoTestScene) (ids : List Nat) (tr tr' : List Call)
    (h : registerAPIs bdl orgId userId sc ids tr = (.ok (), tr')) :
    ∃ new, tr' = tr ++ new ∧
      RegistrationBlocks bdl orgId userId (ids.map (fun id => (sc, id))) tr new := by
  induction ids generalizing tr with
  | nil =>
    simp only [registerAPIs, Prog.pure_run, Prod.mk.injEq, true_and] at h
    exact ⟨[], by simp [h], rfl⟩
  | cons a as ih =>
    simp only [registerAPIs, Prog.bind_run] at h
    obtain ⟨_, tr1, h1, h2⟩ := Prog.bind_ok_inv h
    obtain ⟨block, rfl, hb⟩ := registerAPI_ok _ _ _ _ _ _ _ h1
    obtain ⟨more, rfl, hm⟩ := ih _ h2
    exact ⟨block ++ more, by simp [List.append_assoc], block, more, rfl, hb, hm⟩

theorem registerAll_ok (bdl : Bundle) (orgId : Nat) (userId : String)
    (reqs : List AutoTestSceneParam) (tr tr' : List Call)
    (h : registerAll bdl orgId userId reqs tr = (.ok (), tr')) :
    ∃ new, tr' = tr ++ new ∧
      RegistrationBlocks bdl orgId userId (registrationPairs reqs) tr new := by
  induction reqs generalizing tr with
  | nil =>
    simp only [registerAll, Prog.pure_run, Prod.mk.injEq, true_and] at h
    exact ⟨[], by simp [h], rfl⟩
  | cons a as ih =>
    simp only [registerAll, Prog.bind_run] at h
    obtain ⟨_, tr1, h1, h2⟩ := Prog.bind_ok_inv h
    obtain ⟨n1, rfl, hb⟩ := registerAPIs_ok _ _ _ _ _ _ _ h1
    obtain ⟨n2, rfl, hm⟩ := ih _ h2
    exact ⟨n1 ++ n2, by simp [List.append_assoc],
      registrationBlocks_append _ _ _ _ _ _ _ _ hb hm⟩

theorem Prog.Emits.of_pure {P : Call → Prop} {α : Type} (a : α) :
    Prog.Emits P (Pure.pure a : Prog α) :=
  ⟨fun _ => ⟨[], by simp, by simp⟩⟩

theorem Prog.Emits.of_bind {P : Call → Prop} {α β : Type} {m : Prog α} {f : α → Prog β}
    (hm : Prog.Emits P m) (hf : ∀ a, Prog.Emits P (f a)) : Prog.Emits P (m >>= f) := by
  constructor
  intro tr
  obtain ⟨new, h2, h1⟩ := hm.run tr
  simp only [Prog.bind_run, Prog.bind]
  rcases hr : m tr with ⟨out, tr'⟩
  rw [hr] at h2
  simp only at h2
  subst h2
  cases out with
  | ok a =>
    obtain ⟨new2, g2, g1⟩ := (hf a).run (tr ++ new)
    refine ⟨new ++ new2, by simp [g2, List.append_assoc], ?_⟩
    intro c hc
    rcases List.mem_append.mp hc with hc | hc
    · exact h1 c hc
    · exact g1 c hc
  | err e => exact ⟨new, rfl, h1⟩
  | panic s => exact ⟨new, rfl, h1⟩

theorem Prog.Emits.of_call_wrap {P : Call → Prop} {α : Type} (c : Call)
    (answer : List Call → Except GoError α) (msg : String) (hP : P c) :
    Prog.Emits P ((Prog.call c answer).wrapErr msg) := by
  constructor
  intro tr
  rw [Prog.call_wrap_run]
  cases answer tr <;> exact ⟨[c], rfl, by simpa using hP⟩

theorem resolveRequirement_quiet (bdl : Bundle) (projectId : Nat) (userId : String)
    (idx : Nat) (rs : AutoTestSceneParam) (reqs : List AutoTestSceneParam) :
    Prog.Emits Call.quiet (resolveRequirement bdl projectId userId idx rs reqs) := by
  unfold resolveRequirement doCreateSpace doCreateSceneSet doCreateScene doGetScene
    doGetSceneSet
  split_ifs <;>
  repeat
    first
    | intro _
    | apply Prog.Emits.of_pure
    | apply Prog.Emits.of_bind
    | (apply Prog.Emits.of_call_wrap
       simp [Call.quiet, Call.kind])

theorem resolveLoop_quiet (bdl : Bundle) (projectId : Nat) (userId : String) (n idx : Nat)
    (reqs : List AutoTestSceneParam) :
    Prog.Emits Call.quiet (resolveLoop bdl projectId userId n idx reqs) := by
  induction n generalizing idx reqs with
  | zero => exact Prog.Emits.of_pure _
  | succ n ih =>
    unfold resolveLoop
    split
    · exact Prog.Emits.of_pure _
    · exact Prog.Emits.of_bind (resolveRequirement_quiet _ _ _ _ _ _) (fun a => ih _ _)

theorem registerInputs_quiet (bdl : Bundle) (userId : String) (sc : OutPutAutoTestScene)
    (apiIndexId : Nat) (apiDetail : APIOperation) (ps : List Parameter) :
    Prog.Emits Call.quiet (registerInputs bdl userId sc apiIndexId apiDetail ps) := by
  induction ps with
  | nil => exact Prog.Emits.of_pure _
  | cons p ps ih =>
    exact Prog.Emits.of_bind
      (Prog.Emits.of_call_wrap _ _ _ (by simp [Call.quiet, Call.kind])) (fun _ => ih)

theorem registerOutputs_quiet (bdl : Bundle) (userId : String) (sc : OutPutAutoTestScene)
    (apiIndexId : Nat) (apiDetail : APIOperation) (ps : List Response) :
    Prog.Emits Call.quiet (registerOutputs bdl userId sc apiIndexId apiDetail ps) := by
  induction ps with
  | nil => exact Prog.Emits.of_pure _
  | cons p ps ih =>
    exact Prog.Emits.of_bind
      (Prog.Emits.of_call_wrap _ _ _ (by simp [Call.quiet, Call.kind])) (fun _ => ih)

theorem registerAPI_quiet (bdl : Bundle) (orgId : Nat) (userId : String)
    (sc : OutPutAutoTestScene) (apiIndexId : Nat) :
    Prog.Emits Call.quiet (registerAPI bdl orgId userId sc apiIndexId) :=
  Prog.Emits.of_bind (Prog.Emits.of_call_wrap _ _ _ (by simp [Call.quiet, Call.kind])) (fun _ =>
    Prog.Emits.of_bind (registerInputs_quiet _ _ _ _ _ _) (fun _ =>
      Prog.Emits.of_bind (registerInputs_quiet _ _ _ _ _ _) (fun _ =>
        registerOutputs_quiet _ _ _ _ _ _)))

theorem registerAPIs_quiet (bdl : Bundle) (orgId : Nat) (userId : String)
    (sc : OutPutAutoTestScene) (ids : List Nat) :
    Prog.Emits Call.quiet (registerAPIs bdl orgId userId sc ids) := by
  induction ids with
  | nil => exact Prog.Emits.of_pure _
  | cons a as ih => exact Prog.Emits.of_bind (registerAPI_quiet _ _ _ _ _) (fun _ => ih)

theorem registerAll_quiet (bdl : Bundle) (orgId : Nat) (userId : String)
    (reqs : List AutoTestSceneParam) :
    Prog.Emits Call.quiet (registerAll bdl orgId userId reqs) := by
  induction reqs with
  | nil => exact Prog.Emits.of_pure _
  | cons a as ih => exact Prog.Emits.of_bind (registerAPIs_quiet _ _ _ _ _) (fun _ => ih)

/-! ## The resolver changes the hierarchy triples only -/

theorem resolveRequirement_keeps (bdl : Bundle) (projectId : Nat) (userId : String)
    (idx : Nat) (rs : AutoTestSceneParam) (reqs reqs' : List AutoTestSceneParam)
    (tr tr' : List Call)
    (h : resolveRequirement bdl projectId userId idx rs reqs tr = (.ok reqs', tr')) :
    reqs'.map (fun r => (r.APIs, r.Req)) = reqs.map (fun r => (r.APIs, r.Req)) ∧
      reqs'.length = reqs.length := by
  by_cases ha : rs.Scene.AutoTestSpaceId = 0 <;>
  by_cases hb : rs.Scene.AutoTestSceneSetId = 0 <;>
  by_cases hc : rs.Scene.AutoTestSceneId = 0 <;>
  simp only [resolveRequirement, Nat.pos_iff_ne_zero, ne_eq, ha, hb, hc, not_true_eq_false,
    not_false_eq_true, and_self, and_true, true_and, and_false, false_and, if_true, if_false,
    doCreateSpace, doCreateSceneSet, doCreateScene, doGetScene, doGetSceneSet,
    Prog.bind_run, Prog.bind_call_wrap_run, Prog.call_wrap_run, Prog.pure_run] at h <;>
  (repeat' split at h) <;>
  simp only [Prod.mk.injEq, Outcome.ok.injEq, reduceCtorEq, false_and] at h <;>
  obtain ⟨rfl, -⟩ := h <;>
  simp [setSpaceId, setSceneSetId, setSceneId, map_updateAt, length_updateAt]

theorem resolveLoop_keeps (bdl : Bundle) (projectId : Nat) (userId : String) (n idx : Nat)
    (reqs reqs' : List AutoTestSceneParam) (tr tr' : List Call)
    (h : resolveLoop bdl projectId userId n idx reqs tr = (.ok reqs', tr')) :
    reqs'.map (fun r => (r.APIs, r.Req)) = reqs.map (fun r => (r.APIs, r.Req)) ∧
      reqs'.length = reqs.length := by
  induction n generalizing idx reqs tr with
  | zero =>
    simp only [resolveLoop, Prog.pure_run, Prod.mk.injEq, Outcome.ok.injEq] at h
    simp [h.1]
  | succ n ih =>
    rw [resolveLoop] at h
    cases hget : reqs[idx]? with
    | none =>
      simp only [hget, Prog.pure_run, Prod.mk.injEq, Outcome.ok.injEq] at h
      simp [h.1]
    | some rs =>
      simp only [hget, Prog.bind_run] at h
      obtain ⟨reqs1, tr1, h1, h2⟩ := Prog.bind_ok_inv h
      obtain ⟨k1, k2⟩ := resolveRequirement_keeps _ _ _ _ _ _ _ _ _ h1
      obtain ⟨j1, j2⟩ := ih _ _ _ h2
      exact ⟨j1.trans k1, j2.trans k2⟩

theorem chatInputs_append (a b : List Call) : chatInputs (a ++ b) = chatInputs a ++ chatInputs b :=
  List.filterMap_append _ _ _

theorem commits_append (a b : List Call) : commits (a ++ b) = commits a ++ commits b :=
  List.filterMap_append _ _ _

theorem chatInputs_quiet (new : List Call) (h : ∀ c ∈ new, c.quiet) : chatInputs new = [] := by
  induction new with
  | nil => rfl
  | cons c cs ih =>
    have hc := h c (by simp)
    have ih' := ih (fun c' hc' => h c' (by simp [hc']))
    cases c <;> simp_all [chatInputs, Call.quiet, Call.kind]

theorem commits_quiet (new : List Call) (h : ∀ c ∈ new, c.quiet) : commits new = [] := by
  induction new with
  | nil => rfl
  | cons c cs ih =>
    have hc := h c (by simp)
    have ih' := ih (fun c' hc' => h c' (by simp [hc']))
    cases c <;> simp_all [commits, Call.quiet, Call.kind]

theorem wrapErr_ok_inv {α : Type} {m : Prog α} {msg : String} {tr tr' : List Call} {a : α}
    (h : (m.wrapErr msg) tr = (.ok a, tr')) : m tr = (.ok a, tr') := by
  unfold Prog.wrapErr at h
  split at h
  · simp at h
  · exact h

theorem Prog.bind_call_run {α β : Type} (c : Call) (answer : List Call → Except GoError α)
    (f : α → Prog β) (tr : List Call) :
    Prog.bind (Prog.call c answer) f tr =
      match answer tr with
      | .ok a => f a (tr ++ [c])
      | .error e => (.err e, tr ++ [c]) := by
  unfold Prog.bind Prog.call
  cases answer tr <;> rfl

theorem GenerateContextPrompt_run (lib : JsonLib) (bdl : Bundle) (sceneStepID sceneID : Nat)
    (userID : String) (tr : List Call) :
    GenerateContextPrompt lib bdl sceneStepID sceneID userID tr =
      (.ok (contextPromptText lib (bdl.GetStepExpressionValues sceneStepID sceneID userID tr)),
        tr ++ [.GetStepExpressionValues sceneStepID sceneID userID]) := rfl

/-- A generation task that succeeds for a requirement without adjusted request: it
dispatches one provider call for its input and appends one result produced for it; the
step is committed iff no adjustment was requested. -/
theorem generateAPI_ok (lib : JsonLib) (bdl : Bundle) (cfg : TaskConfig) (orgId : Nat)
    (userId : String) (tsp : AutoTestSceneParam) (apiIndexId : Nat)
    (results results' : List AutoTestSceneMeta) (tr tr' : List Call)
    (hreq : tsp.Req = none)
    (h : generateAPI lib bdl cfg orgId userId tsp apiIndexId results tr = (.ok results', tr')) :
    ∃ new i m, tr' = tr ++ new ∧ results' = results ++ [m] ∧ chatInputs new = [i] ∧
      i.AssetID = tsp.APIs.AssetID ∧ i.APIIndexID = apiIndexId ∧ ProducedFor lib i m ∧
      commits new = (if cfg.needAdjust then [] else [m.Req]) := by
  simp only [generateAPI, doGetAPIOperation, Prog.bind_run, Prog.bind_call_wrap_run] at h
  split at h
  swap
  · simp at h
  rename_i d1 hd1
  have h := wrapErr_ok_inv h
  simp only [processSingleAPIAutoTestSceneStep, doGetAPIOperation, Prog.bind_run,
    Prog.bind_call_wrap_run, hreq, Option.isSome_none, Bool.false_eq_true, if_false,
    GetChatMessageFunctionCallArguments] at h
  split at h
  swap
  · simp at h
  rename_i d2 hd2
  rw [Prog.bind_ok (GenerateContextPrompt_run lib bdl _ _ _ _)] at h
  simp only [Prog.bind_run] at h
  obtain ⟨m, tr1, h1, h2⟩ := Prog.bind_ok_inv h
  simp only [Prog.pure_run, Prod.mk.injEq, Outcome.ok.injEq] at h2
  obtain ⟨rfl, rfl⟩ := h2
  rw [Prog.bind_run, Prog.bind_call_run] at h1
  split at h1
  swap
  · simp at h1
  rename_i args hargs
  cases hdec : lib.UnmarshalAPIInfoV2 args with
  | error e => simp [Callback, hdec, Prog.fail] at h1
  | ok apiInfo =>
    rcases Callback_run lib bdl args (functionInput userId tsp apiIndexId d1) cfg.needAdjust _
        apiInfo hdec with
      ⟨msg, hrun, -, -⟩ |
      ⟨info, i1, i2, i3, -, ⟨hn, hrun⟩ | ⟨hn, n, -, hrun⟩ | ⟨hn, e, -, hrun⟩⟩
    · rw [hrun] at h1; simp at h1
    · rw [hrun] at h1
      simp only [Prod.mk.injEq, Outcome.ok.injEq] at h1
      obtain ⟨rfl, rfl⟩ := h1
      refine ⟨_, functionInput userId tsp apiIndexId d1, _,
        (by simp only [List.append_assoc]; rfl), rfl,
        by simp [chatInputs], rfl, rfl,
        ⟨⟨0, rfl⟩, scoped_callbackRequest lib _ info i1 i2 i3⟩, by simp [commits, hn]⟩
    · rw [hrun] at h1
      simp only [Prod.mk.injEq, Outcome.ok.injEq] at h1
      obtain ⟨rfl, rfl⟩ := h1
      refine ⟨_, functionInput userId tsp apiIndexId d1, _,
        (by simp only [List.append_assoc]; rfl), rfl,
        by simp [chatInputs], rfl, rfl,
        ⟨⟨n, rfl⟩, scoped_callbackRequest lib _ info i1 i2 i3⟩, ?_⟩
      simp [commits, hn, callbackMeta]
    · rw [hrun] at h1; simp at h1

theorem generateAPIs_ok (lib : JsonLib) (bdl : Bundle) (cfg : TaskConfig) (orgId : Nat)
    (userId : String) (tsp : AutoTestSceneParam) (ids : List Nat)
    (results results' : List AutoTestSceneMeta) (tr tr' : List Call)
    (hreq : tsp.Req = none)
    (h : generateAPIs lib bdl cfg orgId userId tsp ids results tr = (.ok results', tr')) :
    ∃ new ms, tr' = tr ++ new ∧ results' = results ++ ms ∧
      (chatInputs new).map (fun i => (i.AssetID, i.APIIndexID))
        = ids.map (fun id => (tsp.APIs.AssetID, id)) ∧
      List.Forall₂ (ProducedFor lib) (chatInputs new) ms ∧
      commits new = (if cfg.needAdjust then [] else ms.map (fun m => m.Req)) := by
  induction ids generalizing results tr with
  | nil =>
    simp only [generateAPIs, Prog.pure_run, Prod.mk.injEq, Outcome.ok.injEq] at h
    obtain ⟨rfl, rfl⟩ := h
    exact ⟨[], [], by simp, by simp, by simp [chatInputs], by simp [chatInputs],
      by simp [commits]⟩
  | cons a as ih =>
    simp only [generateAPIs, Prog.bind_run] at h
    obtain ⟨r1, tr1, h1, h2⟩ := Prog.bind_ok_inv h
    obtain ⟨new1, i, m, rfl, rfl, c1, a1, a2, p1, k1⟩ :=
      generateAPI_ok lib bdl cfg orgId userId tsp a results r1 tr tr1 hreq h1
    obtain ⟨new2, ms, rfl, rfl, c2, p2, k2⟩ := ih _ _ h2
    refine ⟨new1 ++ new2, m :: ms, by simp [List.append_assoc], by simp, ?_, ?_, ?_⟩
    · rw [chatInputs_append, c1]
      simp [c2, a1, a2]
    · rw [chatInputs_append, c1]
      exact List.Forall₂.cons p1 p2
    · rw [commits_append, k1, k2]
      split_ifs <;> simp

theorem generateAll_ok (lib : JsonLib) (bdl : Bundle) (cfg : TaskConfig) (orgId : Nat)
    (userId : String) (reqs : List AutoTestSceneParam)
    (results results' : List AutoTestSceneMeta) (tr tr' : List Call)
    (hreq : ∀ r ∈ reqs, r.Req = none)
    (h : generateAll lib bdl cfg orgId userId reqs results tr = (.ok results', tr')) :
    ∃ new ms, tr' = tr ++ new ∧ results' = results ++ ms ∧
      (chatInputs new).map (fun i => (i.AssetID, i.APIIndexID)) = dispatchedPairs reqs ∧
      List.Forall₂ (ProducedFor lib) (chatInputs new) ms ∧
      commits new = (if cfg.needAdjust then [] else ms.map (fun m => m.Req)) := by
  induction reqs generalizing results tr with
  | nil =>
    simp only [generateAll, Prog.pure_run, Prod.mk.injEq, Outcome.ok.injEq] at h
    obtain ⟨rfl, rfl⟩ := h
    exact ⟨[], [], by simp, by simp, by simp [chatInputs, dispatchedPairs],
      by simp [chatInputs], by simp [commits]⟩
  | cons a as ih =>
    simp only [generateAll, Prog.bind_run] at h
    obtain ⟨r1, tr1, h1, h2⟩ := Prog.bind_ok_inv h
    obtain ⟨new1, ms1, rfl, rfl, c1, p1, k1⟩ :=
      generateAPIs_ok lib bdl cfg orgId userId a _ results r1 tr tr1 (hreq a (by simp)) h1
    obtain ⟨new2, ms2, rfl, rfl, c2, p2, k2⟩ :=
      ih _ _ (fun r hr => hreq r (by simp [hr])) h2
    refine ⟨new1 ++ new2, ms1 ++ ms2, by simp [List.append_assoc], by simp, ?_, ?_, ?_⟩
    · rw [chatInputs_append, List.map_append, c1, c2]
      rfl
    · rw [chatInputs_append]
      exact List.rel_append p1 p2
    · rw [commits_append, k1, k2]
      split_ifs <;> simp

theorem dispatchedPairs_congr (l l' : List AutoTestSceneParam)
    (h : l'.map (fun r => (r.APIs, r.Req)) = l.map (fun r => (r.APIs, r.Req))) :
    dispatchedPairs l' = dispatchedPairs l ∧
      ((∀ r ∈ l, r.Req = none) → ∀ r ∈ l', r.Req = none) := by
  induction l generalizing l' with
  | nil =>
    simp only [List.map_nil, List.map_eq_nil_iff] at h
    subst h
    simp
  | cons a as ih =>
    cases l' with
    | nil => simp at h
    | cons b bs =>
      simp only [List.map_cons, List.cons.injEq, Prod.mk.injEq] at h
      obtain ⟨⟨hA, hR⟩, ht⟩ := h
      obtain ⟨i1, i2⟩ := ih bs ht
      refine ⟨by simp [dispatchedPairs, hA, i1], ?_⟩
      intro hall r hr
      rcases List.mem_cons.mp hr with rfl | hr
      · rw [hR]; exact hall a (by simp)
      · exact i2 (fun r' hr' => hall r' (by simp [hr'])) r hr

/-- C14. For a valid batch without adjusted requests in which every call succeeds, the
generation tasks are dispatched in input order (requirements in batch order, API index
ids in the order of `APIIndexIDs`), the k-th result of the aggregate response is the one
produced for the k-th dispatched pair, and the scene steps are committed in that same
order (none is committed when adjustment is requested). -/
theorem results_in_input_order (lib : JsonLib) (bdl : Bundle)
    (systemMessage userMessage : String) (req : ApplyRequest) (fp : FunctionParams)
    (resp : Resp) (tr' : List Call)
    (hreq : req.FunctionParams = .decoded fp)
    (hnoadj : ∀ r ∈ fp.Requirements, r.Req = none)
    (h : createAutoTestSceneForAPIsAndAutoTestSceneID lib bdl systemMessage userMessage req []
      = (.ok resp, tr')) :
    (chatInputs tr').map (fun i => (i.AssetID, i.APIIndexID))
        = dispatchedPairs fp.Requirements ∧
      List.Forall₂ (ProducedFor lib) (chatInputs tr') resp.Data ∧
      (req.NeedAdjust = false → commits tr' = resp.Data.map (fun m => m.Req)) ∧
      (req.NeedAdjust = true → commits tr' = []) := by
  unfold createAutoTestSceneForAPIsAndAutoTestSceneID at h
  rw [hreq] at h
  simp only at h
  cases hv : validateParamsForCreateAutoTestScene fp with
  | some e => simp [hv, Prog.fail] at h
  | none =>
    simp only [hv, Prog.bind_run] at h
    obtain ⟨reqs1, tr1, h1, h⟩ := Prog.bind_ok_inv h
    obtain ⟨_, tr2, h2, h⟩ := Prog.bind_ok_inv h
    obtain ⟨results, tr3, h3, h⟩ := Prog.bind_ok_inv h
    simp only [Prog.pure_run, Prod.mk.injEq, Outcome.ok.injEq] at h
    obtain ⟨rfl, rfl⟩ := h
    obtain ⟨k1, -⟩ := resolveLoop_keeps _ _ _ _ _ _ _ _ _ h1
    obtain ⟨d1, d2⟩ := dispatchedPairs_congr _ _ k1
    obtain ⟨new1, e1, q1⟩ := (resolveLoop_quiet bdl req.Background.ProjectID
      req.Background.UserID fp.Requirements.length 0 fp.Requirements).run []
    obtain ⟨new2, e2, q2⟩ := (registerAll_quiet bdl req.Background.OrgID
      req.Background.UserID reqs1).run tr1
    unfold resolveAll at h1
    rw [h1] at e1
    rw [h2] at e2
    simp only [List.nil_append] at e1 e2
    obtain ⟨new3, ms, e3, rfl, c3, p3, k3⟩ :=
      generateAll_ok lib bdl _ _ _ reqs1 [] results tr2 tr3 (d2 hnoadj) h3
    subst e3 e2 e1
    simp only [List.nil_append] at *
    refine ⟨?_, ?_, ?_, ?_⟩
    · rw [chatInputs_append, chatInputs_append, chatInputs_quiet _ q1, chatInputs_quiet _ q2]
      simpa [d1] using c3
    · rw [chatInputs_append, chatInputs_append, chatInputs_quiet _ q1, chatInputs_quiet _ q2]
      simpa using p3
    · intro hn
      rw [commits_append, commits_append, commits_quiet _ q1, commits_quiet _ q2, k3]
      simp [hn]
    · intro hn
      rw [commits_append, commits_append, commits_quiet _ q1, commits_quiet _ q2, k3]
      simp [hn]

theorem results_in_input_order_witness :
    ∃ resp tr', createAutoTestSceneForAPIsAndAutoTestSceneID sampleLib sampleBundle "sys" "usr"
        (sampleRequest [twoAPIsRequirement] false) [] = (.ok resp, tr') ∧
      ((chatInputs tr').map (fun i => (i.AssetID, i.APIIndexID))
          = dispatchedPairs [twoAPIsRequirement] ∧
        List.Forall₂ (ProducedFor sampleLib) (chatInputs tr') resp.Data ∧
        ((sampleRequest [twoAPIsRequirement] false).NeedAdjust = false →
          commits tr' = resp.Data.map (fun m => m.Req)) ∧
        ((sampleRequest [twoAPIsRequirement] false).NeedAdjust = true → commits tr' = [])) :=
  ⟨_, _, rfl, results_in_input_order sampleLib sampleBundle "sys" "usr"
    (sampleRequest [twoAPIsRequirement] false) { Requirements := [twoAPIsRequirement] } _ _
    rfl (by simp [twoAPIsRequirement]) rfl⟩

/-! ## Neither the resolver nor the generation pass registers inputs or outputs -/

theorem Prog.Emits.of_fail {P : Call → Prop} {α : Type} (e : GoError) :
    Prog.Emits P (Prog.fail e : Prog α) :=
  ⟨fun _ => ⟨[], by simp [Prog.fail], by simp⟩⟩

theorem Prog.Emits.of_crash {P : Call → Prop} {α : Type} (s : String) :
    Prog.Emits P (Prog.crash s : Prog α) :=
  ⟨fun _ => ⟨[], by simp [Prog.crash], by simp⟩⟩

theorem Prog.Emits.of_call {P : Call → Prop} {α : Type} (c : Call)
    (answer : List Call → Except GoError α) (hP : P c) :
    Prog.Emits P (Prog.call c answer) := by
  constructor
  intro tr
  unfold Prog.call
  cases answer tr <;> exact ⟨[c], rfl, by simpa using hP⟩

theorem Prog.Emits.of_wrapErr {P : Call → Prop} {α : Type} {m : Prog α} (msg : String)
    (hm : Prog.Emits P m) : Prog.Emits P (m.wrapErr msg) := by
  constructor
  intro tr
  obtain ⟨new, h2, h1⟩ := hm.run tr
  refine ⟨new, ?_, h1⟩
  unfold Prog.wrapErr
  split
  · rename_i e tr1 heq
    rw [heq] at h2
    exact h2
  · exact h2

theorem resolveRequirement_registersNothing (bdl : Bundle) (projectId : Nat)
    (userId : String) (idx : Nat) (rs : AutoTestSceneParam) (reqs : List AutoTestSceneParam) :
    Prog.Emits (fun c => ¬ c.isRegistration)
      (resolveRequirement bdl projectId userId idx rs reqs) := by
  unfold resolveRequirement doCreateSpace doCreateSceneSet doCreateScene doGetScene
    doGetSceneSet
  split_ifs <;>
  repeat
    first
    | intro _
    | apply Prog.Emits.of_pure
    | apply Prog.Emits.of_bind
    | (apply Prog.Emits.of_call_wrap
       simp [Call.isRegistration, Call.kind])

theorem resolveLoop_registersNothing (bdl : Bundle) (projectId : Nat) (userId : String)
    (n idx : Nat) (reqs : List AutoTestSceneParam) :
    Prog.Emits (fun c => ¬ c.isRegistration)
      (resolveLoop bdl projectId userId n idx reqs) := by
  induction n generalizing idx reqs with
  | zero => exact Prog.Emits.of_pure _
  | succ n ih =>
    unfold resolveLoop
    split
    · exact Prog.Emits.of_pure _
    · exact Prog.Emits.of_bind (resolveRequirement_registersNothing _ _ _ _ _ _)
        (fun a => ih _ _)

theorem Callback_registersNothing (lib : JsonLib) (bdl : Bundle) (arguments : String)
    (input : CallbackInput) (needAdjust : Bool) :
    Prog.Emits (fun c => ¬ c.isRegistration)
      (Callback lib bdl arguments input needAdjust) := by
  unfold Callback
  split
  · exact Prog.Emits.of_fail _
  · split
    · exact Prog.Emits.of_fail _
    · refine Prog.Emits.of_bind ?_ (fun a => ?_)
      · unfold prettifyBody
        split_ifs
        · split
          · exact Prog.Emits.of_pure _
          · exact Prog.Emits.of_crash _
        · exact Prog.Emits.of_pure _
      · cases needAdjust with
        | true => exact Prog.Emits.of_pure _
        | false =>
          exact Prog.Emits.of_bind
            (Prog.Emits.of_call_wrap _ _ _ (by simp [Call.isRegistration, Call.kind]))
            (fun _ => Prog.Emits.of_pure _)

theorem processSingle_registersNothing (lib : JsonLib) (bdl : Bundle) (cfg : TaskConfig)
    (atsp : AutoTestSceneParam) (callbackInput : AutoTestSceneFunctionInput)
    (apiIndexID orgID : Nat) (userID : String) (sceneStepID sceneID : Nat)
    (results : List AutoTestSceneMeta) :
    Prog.Emits (fun c => ¬ c.isRegistration)
      (processSingleAPIAutoTestSceneStep lib bdl cfg atsp callbackInput apiIndexID orgID userID
        sceneStepID sceneID results) := by
  unfold processSingleAPIAutoTestSceneStep doGetAPIOperation
  refine Prog.Emits.of_bind
    (Prog.Emits.of_call_wrap _ _ _ (by simp [Call.isRegistration, Call.kind]))
    (fun apiDetail => ?_)
  split_ifs
  · exact Prog.Emits.of_pure _
  · refine Prog.Emits.of_bind ?_ (fun ctx => ?_)
    · exact Prog.Emits.of_bind
        (Prog.Emits.of_call _ _ (by simp [Call.isRegistration, Call.kind]))
        (fun _ => Prog.Emits.of_pure _)
    · refine Prog.Emits.of_bind ?_ (fun _ => Prog.Emits.of_pure _)
      exact Prog.Emits.of_bind
        (Prog.Emits.of_call _ _ (by simp [Call.isRegistration, Call.kind]))
        (fun _ => Callback_registersNothing _ _ _ _ _)

theorem generateAPI_registersNothing (lib : JsonLib) (bdl : Bundle) (cfg : TaskConfig)
    (orgId : Nat) (userId : String) (tsp : AutoTestSceneParam) (apiIndexId : Nat)
    (results : List AutoTestSceneMeta) :
    Prog.Emits (fun c => ¬ c.isRegistration)
      (generateAPI lib bdl cfg orgId userId tsp apiIndexId results) :=
  Prog.Emits.of_bind
    (Prog.Emits.of_call_wrap _ _ _ (by simp [Call.isRegistration, Call.kind])) (fun _ =>
    Prog.Emits.of_wrapErr _ (processSingle_registersNothing _ _ _ _ _ _ _ _ _ _ _))

theorem generateAPIs_registersNothing (lib : JsonLib) (bdl : Bundle) (cfg : TaskConfig)
    (orgId : Nat) (userId : String) (tsp : AutoTestSceneParam) (ids : List Nat)
    (results : List AutoTestSceneMeta) :
    Prog.Emits (fun c => ¬ c.isRegistration)
      (generateAPIs lib bdl cfg orgId userId tsp ids results) := by
  induction ids generalizing results with
  | nil => exact Prog.Emits.of_pure _
  | cons a as ih =>
    exact Prog.Emits.of_bind (generateAPI_registersNothing _ _ _ _ _ _ _ _) (fun _ => ih _)

theorem generateAll_registersNothing (lib : JsonLib) (bdl : Bundle) (cfg : TaskConfig)
    (orgId : Nat) (userId : String) (reqs : List AutoTestSceneParam)
    (results : List AutoTestSceneMeta) :
    Prog.Emits (fun c => ¬ c.isRegistration)
      (generateAll lib bdl cfg orgId userId reqs results) := by
  induction reqs generalizing results with
  | nil => exact Prog.Emits.of_pure _
  | cons a as ih =>
    exact Prog.Emits.of_bind (generateAPIs_registersNothing _ _ _ _ _ _ _ _) (fun _ => ih _)

/-- C19. When every call of a run of `createAutoTestSceneForAPIsAndAutoTestSceneID`
succeeds, the calls of the run are those of the resolver, then those of the registration
pass, then those of the generation pass, where the registration pass is run on the
requirements as the resolver left them (`reqs1`, which differ from the batch in their
hierarchy triples only) and issues, for every (requirement, API index id) pair in batch
order, one block: the lookup of the API operation, then exactly one
`CreateAutoTestSceneInput` per declared parameter and one per declared header (named
after it, with empty `Value` and `Temp`) and exactly one `CreateAutoTestSceneOutput` per
declared response (named "statusCode", with `Value` and `Temp` the status code), each
request carrying the resolved space id, scene-set id and scene id of the requirement.
Nothing else is issued by the pass, and neither the resolver nor the generation pass
registers an input or an output. -/
theorem registration_pass_registers_each_pair (lib : JsonLib) (bdl : Bundle)
    (systemMessage userMessage : String) (req : ApplyRequest) (fp : FunctionParams)
    (resp : Resp) (tr' : List Call)
    (hreq : req.FunctionParams = .decoded fp)
    (h : createAutoTestSceneForAPIsAndAutoTestSceneID lib bdl systemMessage userMessage req []
      = (.ok resp, tr')) :
    ∃ reqs1 resolverCalls registrationCalls generationCalls,
      resolveAll bdl req.Background.ProjectID req.Background.UserID fp.Requirements []
        = (.ok reqs1, resolverCalls) ∧
      reqs1.map (fun r => (r.APIs, r.Req)) = fp.Requirements.map (fun r => (r.APIs, r.Req)) ∧
      registerAll bdl req.Background.OrgID req.Background.UserID reqs1 resolverCalls
        = (.ok (), resolverCalls ++ registrationCalls) ∧
      tr' = resolverCalls ++ registrationCalls ++ generationCalls ∧
      RegistrationBlocks bdl req.Background.OrgID req.Background.UserID
        (registrationPairs reqs1) resolverCalls registrationCalls ∧
      (∀ c ∈ resolverCalls, ¬ c.isRegistration) ∧
      (∀ c ∈ generationCalls, ¬ c.isRegistration) := by
  unfold createAutoTestSceneForAPIsAndAutoTestSceneID at h
  rw [hreq] at h
  simp only at h
  cases hv : validateParamsForCreateAutoTestScene fp with
  | some e => simp [hv, Prog.fail] at h
  | none =>
    simp only [hv, Prog.bind_run] at h
    obtain ⟨reqs1, tr1, h1, h⟩ := Prog.bind_ok_inv h
    obtain ⟨_, tr2, h2, h⟩ := Prog.bind_ok_inv h
    obtain ⟨results, tr3, h3, h⟩ := Prog.bind_ok_inv h
    simp only [Prog.pure_run, Prod.mk.injEq, Outcome.ok.injEq] at h
    obtain ⟨-, rfl⟩ := h
    obtain ⟨k1, -⟩ := resolveLoop_keeps _ _ _ _ _ _ _ _ _ h1
    obtain ⟨new1, e1, q1⟩ := (resolveLoop_registersNothing bdl req.Background.ProjectID
      req.Background.UserID fp.Requirements.length 0 fp.Requirements).run []
    obtain ⟨new2, e2, hblocks⟩ := registerAll_ok _ _ _ _ _ _ h2
    obtain ⟨new3, e3, q3⟩ := (generateAll_registersNothing lib bdl
      { systemMessage := systemMessage, userMessage := userMessage,
        needAdjust := req.NeedAdjust }
      req.Background.OrgID req.Background.UserID reqs1 []).run tr2
    rw [h3] at e3
    have h1' := h1
    unfold resolveAll at h1'
    rw [h1'] at e1
    simp only [List.nil_append] at e1 e3
    subst e1 e2 e3
    exact ⟨reqs1, tr1, new2, new3, h1, k1, h2, rfl, hblocks, q1, q3⟩

theorem registration_pass_registers_each_pair_witness :
    ∃ resp tr', createAutoTestSceneForAPIsAndAutoTestSceneID sampleLib sampleBundle "sys" "usr"
        (sampleRequest [sampleRequirement] false) [] = (.ok resp, tr') ∧
      (tr'.drop 2).take 8 =
        [.GetAPIOperation 4 "u" 1,
          .CreateAutoTestSceneInput (sceneInputRequest "u"
            { AutoTestSpaceId := 66, AutoTestSceneSetId := 5, AutoTestSceneId := 33 }
            { Name := "q" }),
          .CreateAutoTestSceneInput (sceneInputRequest "u"
            { AutoTestSpaceId := 66, AutoTestSceneSetId := 5, AutoTestSceneId := 33 }
            { Name := "h" }),
          .CreateAutoTestSceneOutput (sceneOutputRequest "u"
            { AutoTestSpaceId := 66, AutoTestSceneSetId := 5, AutoTestSceneId := 33 }
            { StatusCode := "200" }),
          .GetAPIOperation 4 "u" 2,
          .CreateAutoTestSceneInput (sceneInputRequest "u"
            { AutoTestSpaceId := 66, AutoTestSceneSetId := 5, AutoTestSceneId := 33 }
            { Name := "q" }),
          .CreateAutoTestSceneInput (sceneInputRequest "u"
            { AutoTestSpaceId := 66, AutoTestSceneSetId := 5, AutoTestSceneId := 33 }
            { Name := "h" }),
          .CreateAutoTestSceneOutput (sceneOutputRequest "u"
            { AutoTestSpaceId := 66, AutoTestSceneSetId := 5, AutoTestSceneId := 33 }
            { StatusCode := "200" })] ∧
      ∃ reqs1 resolverCalls registrationCalls generationCalls,
        resolveAll sampleBundle 9 "u" [sampleRequirement] [] = (.ok reqs1, resolverCalls) ∧
        reqs1.map (fun r => (r.APIs, r.Req))
          = [sampleRequirement].map (fun r => (r.APIs, r.Req)) ∧
        registerAll sampleBundle 4 "u" reqs1 resolverCalls
          = (.ok (), resolverCalls ++ registrationCalls) ∧
        tr' = resolverCalls ++ registrationCalls ++ generationCalls ∧
        RegistrationBlocks sampleBundle 4 "u" (registrationPairs reqs1) resolverCalls
          registrationCalls ∧
        (∀ c ∈ resolverCalls, ¬ c.isRegistration) ∧
        (∀ c ∈ generationCalls, ¬ c.isRegistration) :=
  ⟨_, _, rfl, rfl, registration_pass_registers_each_pair sampleLib sampleBundle "sys" "usr"
    (sampleRequest [sampleRequirement] false) { Requirements := [sampleRequirement] } _ _
    rfl rfl⟩

/-- C7 (failing input). A valid batch of one requirement that carries an adjusted request
and names one API index id, every collaborator call succeeding: one pair is dispatched
and the data list of the aggregate response is empty. -/
theorem adjusted_requirement_yields_no_result :
    (createAutoTestSceneForAPIsAndAutoTestSceneID sampleLib sampleBundle "sys" "usr"
        (sampleRequest [adjustedRequirement] false) []).1 = .ok { Success := true, Data := [] } ∧
      (dispatchedPairs [adjustedRequirement]).length = 1 :=
  ⟨rfl, rfl⟩

/-- C8 (failing input). On the same batch the calls issued are the registration calls and
two API-operation lookups: the adjusted request is never committed (no
`CreateAutoTestSceneStep`), and the provider is not invoked. -/
theorem adjusted_request_not_committed :
    (createAutoTestSceneForAPIsAndAutoTestSceneID sampleLib sampleBundle "sys" "usr"
        (sampleRequest [adjustedRequirement] false) []).2.map Call.kind
      = [.getAPIOperation, .createSceneInput, .createSceneInput, .createSceneOutput,
          .getAPIOperation, .getAPIOperation] ∧
    commits (createAutoTestSceneForAPIsAndAutoTestSceneID sampleLib sampleBundle "sys" "usr"
        (sampleRequest [adjustedRequirement] false) []).2 = [] :=
  ⟨rfl, rfl⟩

/-- C15 (failing input). For a requirement whose `APIIndexIDs` is not specified, the
function succeeds without any collaborator call: no generation task is dispatched and
the data list is empty, whatever interfaces the asset has. -/
theorem unspecified_index_ids_generate_nothing :
    createAutoTestSceneForAPIsAndAutoTestSceneID sampleLib sampleBundle "sys" "usr"
        (sampleRequest [allInterfacesRequirement] false) []
      = (.ok { Success := true, Data := [] }, []) := rfl

/-! ## `prettyJsonOutput` -/

theorem mapInsert_fresh (m : List (String × JsonValue)) (k : String) (v : JsonValue)
    (h : k ∉ m.map Prod.fst) : mapInsert m k v = m ++ [(k, v)] := by
  unfold mapInsert
  rw [if_neg]
  simp only [List.any_eq_true, beq_iff_eq, not_exists, not_and]
  intro p hp hk
  exact h (List.mem_map.mpr ⟨p, hp, hk⟩)

theorem foldl_mapInsert (acc entries : List (String × JsonValue))
    (h : ((acc ++ entries).map Prod.fst).Nodup) :
    entries.foldl (fun a p => mapInsert a p.1 p.2) acc = acc ++ entries := by
  induction entries generalizing acc with
  | nil => simp
  | cons p ps ih =>
    have hfresh : p.1 ∉ acc.map Prod.fst := by
      intro hmem
      rw [List.map_append, List.map_cons] at h
      have := (List.nodup_append.mp h).2.2
      exact this hmem (by simp)
    rw [List.foldl_cons, mapInsert_fresh acc p.1 p.2 hfresh, ih]
    · simp
    · simpa [List.append_assoc] using h

/-- C20 (counterexample). The string "[1]" holds valid JSON; `prettyJsonOutput` turns it
into "{}", which parses to the empty object and not to the array the input parses to. -/
theorem pretty_json_roundtrip_counterexample :
    ¬ (∀ v, sampleLib.Unmarshal "[1]" = some v →
        sampleLib.Unmarshal (prettyJsonOutput sampleLib "[1]") = some v) := by
  intro H
  have h1 : sampleLib.Unmarshal (prettyJsonOutput sampleLib "[1]")
      = some (.array [.number 1]) := H _ rfl
  have h2 : sampleLib.Unmarshal (prettyJsonOutput sampleLib "[1]") = some (.object []) := rfl
  rw [h2] at h1
  cases h1

/-- C20 (amended). For a body content string holding a JSON object (with distinct keys),
`prettyJsonOutput` returns the indented rendering of that object, so parsing the output
yields the value obtained by parsing the input, provided the library reads back what it
renders; a string holding `null` is rendered as `null`; for every other JSON value
(array, string, number, boolean) and for text that is not JSON the output is the
rendering of the empty object. -/
theorem pretty_json_roundtrip_objects (lib : JsonLib) (s : String)
    (entries : List (String × JsonValue))
    (hs : lib.Unmarshal s = some (.object entries))
    (hkeys : (entries.map Prod.fst).Nodup)
    (hlib : lib.Unmarshal (lib.MarshalIndent (.object entries)) = some (.object entries)) :
    prettyJsonOutput lib s = lib.MarshalIndent (.object entries) ∧
      lib.Unmarshal (prettyJsonOutput lib s) = lib.Unmarshal s ∧
      (∀ t, lib.Unmarshal t = some .null → prettyJsonOutput lib t = lib.MarshalIndent .null) ∧
      (∀ t, (lib.Unmarshal t = none ∨ (∃ b, lib.Unmarshal t = some (.bool b)) ∨
          (∃ n, lib.Unmarshal t = some (.number n)) ∨
          (∃ x, lib.Unmarshal t = some (.string x)) ∨
          (∃ l, lib.Unmarshal t = some (.array l))) →
        prettyJsonOutput lib t = lib.MarshalIndent (.object [])) := by
  have hp : prettyJsonOutput lib s = lib.MarshalIndent (.object entries) := by
    simp only [prettyJsonOutput, unmarshalIntoMap, hs, Option.getD_some]
    rw [foldl_mapInsert [] entries (by simpa using hkeys)]
    rfl
  refine ⟨hp, by rw [hp, hlib, hs], ?_, ?_⟩
  · intro t ht
    simp [prettyJsonOutput, unmarshalIntoMap, ht, GoMap.toJson]
  · intro t ht
    rcases ht with ht | ⟨b, ht⟩ | ⟨n, ht⟩ | ⟨x, ht⟩ | ⟨l, ht⟩ <;>
      simp [prettyJsonOutput, unmarshalIntoMap, ht, GoMap.toJson]

theorem pretty_json_roundtrip_objects_witness :
    prettyJsonOutput sampleLib "\x7b\"a\":1\x7d" = sampleLib.MarshalIndent (.object [("a", .number 1)]) ∧
      sampleLib.Unmarshal (prettyJsonOutput sampleLib "\x7b\"a\":1\x7d")
        = sampleLib.Unmarshal "\x7b\"a\":1\x7d" ∧
      (∀ t, sampleLib.Unmarshal t = some .null →
        prettyJsonOutput sampleLib t = sampleLib.MarshalIndent .null) ∧
      (∀ t, (sampleLib.Unmarshal t = none ∨ (∃ b, sampleLib.Unmarshal t = some (.bool b)) ∨
          (∃ n, sampleLib.Unmarshal t = some (.number n)) ∨
          (∃ x, sampleLib.Unmarshal t = some (.string x)) ∨
          (∃ l, sampleLib.Unmarshal t = some (.array l))) →
        prettyJsonOutput sampleLib t = sampleLib.MarshalIndent (.object [])) :=
  pretty_json_roundtrip_objects sampleLib "\x7b\"a\":1\x7d" [("a", .number 1)] rfl (by simp) rfl

/-- The indented rendering of the sample object, as `json.MarshalIndent` writes it. -/
theorem pretty_json_sample_text :
    prettyJsonOutput sampleLib "\x7b\"a\":1\x7d" = "\x7b\n  \"a\": 1\n\x7d" ∧
      prettyJsonOutput sampleLib "[1]" = "\x7b\x7d" ∧
      prettyJsonOutput sampleLib "null" = "null" := ⟨rfl, rfl, rfl⟩

/-! ## Panic of the type assertion -/

/-- C21 (failing inputs). Whenever the payload decodes into a JSON-typed body whose
content is not a string (absent, `null`, an object, an array, a number or a boolean),
`Callback` panics in the unchecked type assertion: it returns neither a result nor an
error, and issues no call. -/
theorem callback_panics_on_non_string_body (lib : JsonLib) (bdl : Bundle) (arguments : String)
    (i : AutoTestSceneFunctionInput) (needAdjust : Bool) (tr : List Call) (apiInfo : APIInfoV2)
    (hdec : lib.UnmarshalAPIInfoV2 arguments = .ok apiInfo)
    (htype : apiInfo.Body.BodyType = APIBodyTypeApplicationJSON)
    (hcontent : ∀ s, apiInfo.Body.Content ≠ .string s) :
    Callback lib bdl arguments (.autoTestScene i) needAdjust tr
      = (.panic "interface conversion: interface \x7b\x7d is not string", tr) := by
  simp only [Callback, hdec, Prog.bind_run]
  have hp : prettifyBody lib
      { apiInfo with Name := i.APIName, Method := i.APIMethod, URL := i.APIUrl } tr
      = (.panic "interface conversion: interface \x7b\x7d is not string", tr) := by
    unfold prettifyBody
    rw [if_pos htype]
    cases hc : apiInfo.Body.Content with
    | string s => exact absurd hc (hcontent s)
    | _ => simp only [hc]; rfl
  rw [Prog.bind_panic hp]

theorem callback_panics_on_non_string_body_witness :
    Callback sampleLibWithNull sampleBundle nullBodyArguments (.autoTestScene sampleInput) true []
      = (.panic "interface conversion: interface \x7b\x7d is not string", []) :=
  callback_panics_on_non_string_body sampleLibWithNull sampleBundle nullBodyArguments
    sampleInput true [] { Body := { BodyType := "application/json", Content := .null } }
    rfl rfl (by intro s h; cases h)

/-! ## Frame of the resolver -/

theorem FrameOK.refl (r : AutoTestSceneParam) : FrameOK r r :=
  ⟨rfl, fun _ => rfl, fun _ => rfl, fun _ => rfl⟩

theorem FrameOK.trans {a b c : AutoTestSceneParam} (h1 : FrameOK a b) (h2 : FrameOK b c) :
    FrameOK a c := by
  obtain ⟨e1, s1, t1, u1⟩ := h1
  obtain ⟨e2, s2, t2, u2⟩ := h2
  refine ⟨?_, ?_, ?_, ?_⟩
  · rw [e2, e1]
  · intro h; rw [s2 (by rw [s1 h]; exact h), s1 h]
  · intro h; rw [t2 (by rw [t1 h]; exact h), t1 h]
  · intro h; rw [u2 (by rw [u1 h]; exact h), u1 h]

theorem resolveRequirement_frame (bdl : Bundle) (projectId : Nat) (userId : String)
    (idx : Nat) (rs : AutoTestSceneParam) (reqs reqs' : List AutoTestSceneParam)
    (tr tr' : List Call) (hrs : reqs[idx]? = some rs)
    (h : resolveRequirement bdl projectId userId idx rs reqs tr = (.ok reqs', tr')) :
    (∀ j : Nat, j ≠ idx → reqs'[j]? = reqs[j]?) ∧
      ∃ r', reqs'[idx]? = some r' ∧ FrameOK rs r' := by
  by_cases ha : rs.Scene.AutoTestSpaceId = 0 <;>
  by_cases hb : rs.Scene.AutoTestSceneSetId = 0 <;>
  by_cases hc : rs.Scene.AutoTestSceneId = 0 <;>
  simp only [resolveRequirement, Nat.pos_iff_ne_zero, ne_eq, ha, hb, hc, not_true_eq_false,
    not_false_eq_true, and_self, and_true, true_and, and_false, false_and, if_true, if_false,
    doCreateSpace, doCreateSceneSet, doCreateScene, doGetScene, doGetSceneSet,
    Prog.bind_run, Prog.bind_call_wrap_run, Prog.call_wrap_run, Prog.pure_run] at h <;>
  (repeat' split at h) <;>
  simp only [Prod.mk.injEq, Outcome.ok.injEq, reduceCtorEq, false_and] at h <;>
  obtain ⟨rfl, -⟩ := h <;>
  refine ⟨fun j hj => by
    simp [setSpaceId, setSceneSetId, setSceneId, getElem?_updateAt_ne _ _ _ _ hj], ?_⟩ <;>
  simp [setSpaceId, setSceneSetId, setSceneId, getElem?_updateAt_self, hrs, FrameOK, ha, hb, hc]

theorem resolveLoop_frame (bdl : Bundle) (projectId : Nat) (userId : String) (n idx : Nat)
    (reqs reqs' : List AutoTestSceneParam) (tr tr' : List Call)
    (h : resolveLoop bdl projectId userId n idx reqs tr = (.ok reqs', tr')) :
    ∀ (j : Nat) (r : AutoTestSceneParam), reqs[j]? = some r →
      ∃ r', reqs'[j]? = some r' ∧ FrameOK r r' := by
  induction n generalizing idx reqs tr with
  | zero =>
    simp only [resolveLoop, Prog.pure_run, Prod.mk.injEq, Outcome.ok.injEq] at h
    obtain ⟨rfl, -⟩ := h
    exact fun j r hr => ⟨r, hr, FrameOK.refl r⟩
  | succ n ih =>
    rw [resolveLoop] at h
    cases hget : reqs[idx]? with
    | none =>
      simp only [hget, Prog.pure_run, Prod.mk.injEq, Outcome.ok.injEq] at h
      obtain ⟨rfl, -⟩ := h
      exact fun j r hr => ⟨r, hr, FrameOK.refl r⟩
    | some rs =>
      simp only [hget, Prog.bind_run] at h
      obtain ⟨reqs1, tr1, h1, h2⟩ := Prog.bind_ok_inv h
      obtain ⟨f1, r1, g1, f2⟩ := resolveRequirement_frame _ _ _ _ _ _ _ _ _ hget h1
      intro j r hr
      by_cases hj : j = idx
      · subst hj
        rw [hget] at hr
        cases hr
        obtain ⟨r2, g2, f3⟩ := ih _ _ _ h2 j r1 g1
        exact ⟨r2, g2, FrameOK.trans f2 f3⟩
      · exact ih _ _ _ h2 j r (by rw [f1 j hj]; exact hr)

/-- C22. Whenever the resolver loop completes, the batch has the same length and every
requirement differs from its input only in its hierarchy triple (API selector, prompt,
adjusted request unchanged), each id of the triple that was positive on input keeping its
value; and one iteration, for the requirement at index `idx`, leaves every other
requirement as it was and changes at most the hierarchy triple of that one. -/
theorem resolution_frame (bdl : Bundle) (projectId : Nat) (userId : String)
    (reqs reqs' : List AutoTestSceneParam) (tr tr' : List Call)
    (h : resolveAll bdl projectId userId reqs tr = (.ok reqs', tr')) :
    reqs'.length = reqs.length ∧
      (∀ (j : Nat) (r : AutoTestSceneParam), reqs[j]? = some r →
        ∃ r', reqs'[j]? = some r' ∧ FrameOK r r' ∧
        r'.APIs = r.APIs ∧ r'.Prompt = r.Prompt ∧ r'.Req = r.Req) ∧
      (∀ (idx : Nat) (rs : AutoTestSceneParam) (reqs0 reqs1 : List AutoTestSceneParam)
          (t t' : List Call),
        reqs0[idx]? = some rs →
        resolveRequirement bdl projectId userId idx rs reqs0 t = (.ok reqs1, t') →
        (∀ j : Nat, j ≠ idx → reqs1[j]? = reqs0[j]?) ∧
          ∃ r', reqs1[idx]? = some r' ∧ r' = { rs with Scene := r'.Scene }) := by
  refine ⟨(resolveLoop_keeps _ _ _ _ _ _ _ _ _ h).2, ?_, ?_⟩
  · intro j r hr
    obtain ⟨r', g, f⟩ := resolveLoop_frame _ _ _ _ _ _ _ _ _ h j r hr
    refine ⟨r', g, f, ?_, ?_, ?_⟩ <;> rw [f.1]
  · intro idx rs reqs0 reqs1 t t' hrs hrun
    obtain ⟨f1, r', g, f2⟩ := resolveRequirement_frame _ _ _ _ _ _ _ _ _ hrs hrun
    exact ⟨f1, r', g, f2.1⟩

theorem resolution_frame_witness :
    [({ sampleRequirement with Scene :=
          { AutoTestSpaceId := 66, AutoTestSceneSetId := 5, AutoTestSceneId := 33 } } :
        AutoTestSceneParam), fullRequirement].length
        = [sampleRequirement, fullRequirement].length ∧
      (∀ (j : Nat) (r : AutoTestSceneParam),
        [sampleRequirement, fullRequirement][j]? = some r →
        ∃ r', [({ sampleRequirement with Scene :=
            { AutoTestSpaceId := 66, AutoTestSceneSetId := 5, AutoTestSceneId := 33 } } :
          AutoTestSceneParam), fullRequirement][j]? = some r' ∧ FrameOK r r' ∧
          r'.APIs = r.APIs ∧ r'.Prompt = r.Prompt ∧ r'.Req = r.Req) ∧
      (∀ (idx : Nat) (rs : AutoTestSceneParam) (reqs0 reqs1 : List AutoTestSceneParam)
          (t t' : List Call),
        reqs0[idx]? = some rs →
        resolveRequirement sampleBundle 9 "u" idx rs reqs0 t = (.ok reqs1, t') →
        (∀ j : Nat, j ≠ idx → reqs1[j]? = reqs0[j]?) ∧
          ∃ r', reqs1[idx]? = some r' ∧ r' = { rs with Scene := r'.Scene }) :=
  resolution_frame sampleBundle 9 "u" [sampleRequirement, fullRequirement] _ [] _ rfl

end Erda
